import Mathlib

/-!
# Verification of `MaxMatching.py` (Gabow-style maximum matching)

This file is a shallow embedding of the repository's `MaxMatching` class
(file `src/MaxMatching.py`) together with theorems settling the claims
about it.

Modelling conventions:

* The mutable object is the record `MaxMatching.MM`; every Python method
  becomes a state-passing function in the monad `PyM α = MM → Py α`.
* `Py α` has three outcomes: `ok s a` (normal return, post-state `s`,
  value `a`), `exn s` (a Python exception was raised; `s` is the state of
  the object at the moment of the raise — in Python the mutations made
  before the raise persist), and `oom` (artificial fuel exhaustion of the
  embedding; Python's unbounded loops/recursion are given explicit fuel).
* Python list indexing with an `int` index is modelled by `pyIdx`:
  an index `i` with `0 ≤ i < len` denotes position `i`; a negative index
  with `-len ≤ i` aliases position `len + i`; anything else raises
  `IndexError` (modelled as `exn`).
* Python's machine-unbounded `int` is `Int`.
* `self.outerVertices` is a Python `set` that only ever grows during a
  search and is iterated in `stopTheSearch` and in step L5 of `L`; both
  loop bodies are order-independent (they write constants into distinct
  places), so the set is modelled as an insertion-ordered duplicate-free
  list.
* `x ^ edge[0] ^ edge[1]` xors vertex numbers, which are nonnegative in
  every reachable state; `pyXor` implements xor on the nonnegative
  fragment of `Int`.
-/

namespace MaxMatching

/-- State of a `MaxMatching(V)` object: the member variables set up by
`__init__`. -/
structure MM where
  V : Int
  VPlusOne : Int
  END : List Int
  graph : List (List Int)
  outerEdges : List (Int × Int)
  outerVertices : List Int
  outerIdx : Nat
  LABEL : List Int
  MATE : List Int
  FIRST : List Int
  deriving Repr, DecidableEq

/-- Result of running a Python method: normal return, exception
(carrying the state at the raise), or fuel exhaustion of the embedding. -/
inductive Py (α : Type) where
  | ok (s : MM) (a : α) : Py α
  | exn (s : MM) : Py α
  | oom : Py α
  deriving Repr, DecidableEq

/-- A Python method taking the object state and producing a result. -/
def PyM (α : Type) : Type := MM → Py α

def Py.bind {α β : Type} (x : Py α) (f : α → PyM β) : Py β :=
  match x with
  | .ok s a => f a s
  | .exn s => .exn s
  | .oom => .oom

instance : Monad PyM where
  pure a := fun s => .ok s a
  bind x f := fun s => Py.bind (x s) f

/-- Raise an exception at the current state. -/
def pyRaise {α : Type} : PyM α := fun s => .exn s

/-- Run out of fuel (embedding artefact, not Python behaviour). -/
def pyOom {α : Type} : PyM α := fun _ => .oom

/-- Read the whole state. -/
def getS : PyM MM := fun s => .ok s s

/-- Replace the whole state. -/
def setS (s' : MM) : PyM Unit := fun _ => .ok s' ()

/-- Lift an option into the monad; `none` models a raised exception. -/
def liftO {α : Type} (o : Option α) : PyM α :=
  fun s => match o with
  | some a => .ok s a
  | none => .exn s

/-- Python list index resolution: nonnegative indices are positions,
negative indices alias from the end, everything else is an
`IndexError`. -/
def pyIdx (len : Nat) (i : Int) : Option Nat :=
  if 0 ≤ i then
    if i < (len : Int) then some i.toNat else none
  else
    if 0 ≤ i + (len : Int) then some (i + (len : Int)).toNat else none

/-- Python list read `l[i]`. -/
def pyGet {α : Type} (l : List α) (i : Int) : Option α :=
  match pyIdx l.length i with
  | some j => l.get? j
  | none => none

/-- Python list write `l[i] = a`. -/
def pySet {α : Type} (l : List α) (i : Int) (a : α) : Option (List α) :=
  match pyIdx l.length i with
  | some j => some (l.set j a)
  | none => none

/-- Xor of two vertex / edge numbers (all nonnegative where used). -/
def pyXor (a b : Int) : Int := Int.ofNat (a.toNat ^^^ b.toNat)

/-- `range a b` on Python ints, as used by `for u in range(1, V+1)`. -/
def intRange (a b : Int) : List Int :=
  (List.range (b - a).toNat).map (fun k => a + (k : Int))

/-! ## Monadic accessors for the member arrays -/

def labelGet (v : Int) : PyM Int := fun s => liftO (pyGet s.LABEL v) s

def labelSet (v x : Int) : PyM Unit := fun s =>
  match pySet s.LABEL v x with
  | some L => .ok { s with LABEL := L } ()
  | none => .exn s

def mateGet (v : Int) : PyM Int := fun s => liftO (pyGet s.MATE v) s

def mateSet (v x : Int) : PyM Unit := fun s =>
  match pySet s.MATE v x with
  | some M => .ok { s with MATE := M } ()
  | none => .exn s

def firstGet (v : Int) : PyM Int := fun s => liftO (pyGet s.FIRST v) s

def firstSet (v x : Int) : PyM Unit := fun s =>
  match pySet s.FIRST v x with
  | some F => .ok { s with FIRST := F } ()
  | none => .exn s

/-! ## `__init__` -/

/-- `MaxMatching(V)`: the `__init__` method. -/
def init (V : Int) : MM :=
  { V := V
    VPlusOne := V + 1
    END := []
    graph := List.replicate (V + 1).toNat []
    outerEdges := []
    outerVertices := []
    outerIdx := 0
    LABEL := List.replicate (V + 1).toNat (-1)
    MATE := List.replicate (V + 1).toNat 0
    FIRST := List.replicate (V + 1).toNat 0 }

/-! ## `addEdge`, `getEdge`, `getMatchingSize` -/

/-- `addEdge(v, w)`: append both endpoints to `END` and record the edge
number `n(vw)` in both adjacency lists.  The two `append`s to `END`
happen before the adjacency accesses, so an out-of-range `v` or `w`
raises only after `END` was already extended. -/
def addEdge (v w : Int) : PyM Unit := do
  let s ← getS
  let n_vw : Int := (s.END.length : Int) + s.VPlusOne
  let s := { s with END := s.END ++ [v, w] }
  setS s
  let gv ← liftO (pyGet s.graph v)
  let s ← getS
  let s ←
    match pySet s.graph v (gv ++ [n_vw]) with
    | some g => do setS { s with graph := g }; getS
    | none => pyRaise
  let gw ← liftO (pyGet s.graph w)
  match pySet s.graph w (gw ++ [n_vw]) with
  | some g => setS { s with graph := g }
  | none => pyRaise

/-- `getEdge(n_vw)`: decode an edge number to its endpoint pair. -/
def getEdge (n_vw : Int) : PyM (Int × Int) := do
  let s ← getS
  let k := n_vw - s.VPlusOne
  let a ← liftO (pyGet s.END k)
  let b ← liftO (pyGet s.END (k + 1))
  pure (a, b)

/-- `getMatchingSize()`: the number of `v` in `1..V` with `MATE[v] > 0`. -/
def getMatchingSize : PyM Int := fun s =>
  .ok s (((s.MATE.drop 1).map (fun x => if x > 0 then (1 : Int) else 0)).sum)

/-! ## `setLabel` and the classification predicates -/

/-- `setLabel(v, label)`: write `LABEL[v]`; if the new label is
nonnegative and `v` is not yet outer, add `v` to the outer set and
enqueue all of `v`'s incident edges. -/
def setLabel (v label : Int) : PyM Unit := do
  labelSet v label
  let s ← getS
  if 0 ≤ label ∧ v ∉ s.outerVertices then do
    let gv ← liftO (pyGet s.graph v)
    setS { s with
            outerVertices := s.outerVertices ++ [v]
            outerEdges := s.outerEdges ++ gv.map (fun e => (v, e)) }
  else
    pure ()

/-- `hasVertexLabel(v)`: `1 <= LABEL[v] <= V`. -/
def hasVertexLabel (v : Int) : PyM Bool := do
  let s ← getS
  let l ← labelGet v
  pure (1 ≤ l ∧ l ≤ s.V : Bool)

/-- `hasEdgeLabel(v)`: the source computes
`self.LABEL[v] > self.V and self.LABEL <= self.V + WTimesTwo`.
The second conjunct compares the whole `LABEL` *list* against an `int`,
which raises `TypeError` in Python 3; by short-circuiting of `and` the
call returns `False` when `LABEL[v] <= V` and raises otherwise. -/
def hasEdgeLabel (v : Int) : PyM Bool := do
  let s ← getS
  let l ← labelGet v
  if s.V < l then
    pyRaise
  else
    pure false

/-- `hasStartLabel(v)`: `LABEL[v] == 0`. -/
def hasStartLabel (v : Int) : PyM Bool := do
  let l ← labelGet v
  pure (l = 0 : Bool)

/-- `isMatched(v)`: `MATE[v] > 0`. -/
def isMatched (v : Int) : PyM Bool := do
  let m ← mateGet v
  pure (0 < m : Bool)

/-- `isOuterVertex(v)`: `v in self.outerVertices`. -/
def isOuterVertex (v : Int) : PyM Bool := fun s =>
  .ok s (v ∈ s.outerVertices : Bool)

/-! ## Worklist, flags, search reset -/

/-- `chooseAnEdge()`: return the pair at the cursor and advance it, or
`(None, None)` when the queue is exhausted. -/
def chooseAnEdge : PyM (Option (Int × Int)) := fun s =>
  if h : s.outerIdx < s.outerEdges.length then
    .ok { s with outerIdx := s.outerIdx + 1 } (some (s.outerEdges.get ⟨s.outerIdx, h⟩))
  else
    .ok s none

/-- Body of the reset loop of `stopTheSearch`:
`for v in self.outerVertices: setLabel(v, -1); setLabel(MATE[v], -1)`. -/
def stopFold : List Int → PyM Unit
  | [] => pure ()
  | v :: vs => do
      setLabel v (-1)
      let t ← mateGet v
      setLabel t (-1)
      stopFold vs

/-- `stopTheSearch()`: step E7 — make every vertex nonouter and clear the
worklist for the next search. -/
def stopTheSearch : PyM Unit := do
  labelSet 0 (-1)
  let s ← getS
  stopFold s.outerVertices
  let s ← getS
  setS { s with outerVertices := [], outerEdges := [], outerIdx := 0 }

/-- `setFlag(v, n_xy)`: flag `v` with edge number `n_xy`. -/
def setFlag (v n_xy : Int) : PyM Unit :=
  setLabel v (-n_xy)

/-- `isFlagged(v, n_xy)`: `LABEL[v] == -n_xy`. -/
def isFlagged (v n_xy : Int) : PyM Bool := do
  let l ← labelGet v
  pure (l = -n_xy : Bool)

/-! ## The labeling procedure `L` -/

/-- Steps L1–L2 of `L`: alternately advance the two path frontiers
`r`, `s` (`r` is swapped with `s` when `s != 0`), stepping through
`FIRST[LABEL[MATE[r]]]`, until an already-flagged vertex — the join — is
found.  The `while True` loop gets explicit fuel. -/
def l12 : Nat → Int → Int → Int → PyM Int
  | 0, _, _, _ => pyOom
  | fuel + 1, n_xy, r, s => do
      let (r, s) := if s ≠ 0 then (s, r) else (r, s)
      let m ← mateGet r
      let lm ← labelGet m
      let r ← firstGet lm
      let fl ← isFlagged r n_xy
      if fl then
        pure r
      else do
        setFlag r n_xy
        l12 fuel n_xy r s

/-- Steps L3–L4 of `L`: walk one path from `v` up to (excluding) `join`,
giving each visited vertex the edge label `n_xy` and pointing its
`FIRST` at `join`. -/
def l34 : Nat → Int → Int → Int → PyM Unit
  | 0, _, _, _ => pyOom
  | fuel + 1, v, join, n_xy =>
      if v = join then
        pure ()
      else do
        setLabel v n_xy
        firstSet v join
        let m ← mateGet v
        let lm ← labelGet m
        let v ← firstGet lm
        l34 fuel v join n_xy

/-- Step L5 of `L`: `for i in self.outerVertices: if isOuterVertex(FIRST[i]):
FIRST[i] = join` (the loop body writes only `FIRST`, so iterating the
set in insertion order is faithful). -/
def l5Fold (join : Int) : List Int → PyM Unit
  | [] => pure ()
  | i :: is => do
      let fi ← firstGet i
      let oi ← isOuterVertex fi
      if oi then firstSet i join else pure ()
      l5Fold join is

/-- `L(x, y, n_xy)`: assign the edge label `n_xy` to the nonouter
vertices on `P(x)` and `P(y)` up to the join. -/
def L (fuel : Nat) (x y n_xy : Int) : PyM Unit := do
  let r ← firstGet x
  let s ← firstGet y
  if r = s then
    pure ()
  else do
    setFlag r n_xy
    let join ← l12 fuel n_xy r s
    let vx ← firstGet x
    let vy ← firstGet y
    l34 fuel vx join n_xy
    l34 fuel vy join n_xy
    let st ← getS
    l5Fold join st.outerVertices

/-! ## The rematch procedure `R` -/

/-- `R(v, w)`: rematch the augmenting path ending at outer vertex `v`
so that `v` gets mate `w`; recursion is given explicit fuel (one unit
per nesting level, so the fuel bounds the recursion depth). -/
def R : Nat → Int → Int → PyM Unit
  | 0, _, _ => pyOom
  | fuel + 1, v, w => do
      let t ← mateGet v
      mateSet v w
      let mt ← mateGet t
      if mt ≠ v then
        pure ()
      else do
        let hv ← hasVertexLabel v
        if hv then do
          let lv ← labelGet v
          mateSet t lv
          R fuel lv t
        else do
          let lv ← labelGet v
          let e ← getEdge lv
          R fuel e.1 e.2
          R fuel e.2 e.1

/-! ## The search driver `E` -/

/-- One iteration of the `while True` loop of `E` (steps E2–E6) for the
search rooted at `u`.  Returns `true` when the loop continues and
`false` when the search ended (steps E3 or E7 followed by `break`). -/
def e2Body (lf rf : Nat) (u : Int) : PyM Bool := do
  let c ← chooseAnEdge
  match c with
  | none => do
      stopTheSearch
      pure false
  | some (x, n_xy) => do
      let e ← getEdge n_xy
      let y := pyXor (pyXor x e.1) e.2
      let my ← isMatched y
      if my = false ∧ y ≠ u then do
        mateSet y x
        R rf x y
        stopTheSearch
        pure false
      else do
        let oy ← isOuterVertex y
        if oy then do
          L lf x y n_xy
          pure true
        else do
          let v ← mateGet y
          let ov ← isOuterVertex v
          if ov = false then do
            setLabel v x
            firstSet v y
            pure true
          else
            pure true

/-- The `while True` loop of `E`, with fuel bounding the number of
iterations. -/
def e2Loop (lf rf : Nat) (u : Int) : Nat → PyM Unit
  | 0 => pyOom
  | fuel + 1 => do
      let cont ← e2Body lf rf u
      if cont then e2Loop lf rf u fuel else pure ()

/-- The `for u in range(1, V+1)` loop of `E`: skip matched vertices,
otherwise seed a search at `u` (step E1) and run the scan loop. -/
def eRoots (lf rf : Nat) : List Int → PyM Unit
  | [] => pure ()
  | u :: us => do
      let mu ← mateGet u
      if 0 < mu then
        eRoots lf rf us
      else do
        setLabel u 0
        firstSet u 0
        e2Loop lf rf u lf
        eRoots lf rf us

/-- `E()`: construct a maximum matching.  `lf` bounds loop iterations
and `rf` bounds the recursion depth of `R`. -/
def E (lf rf : Nat) : PyM Unit := do
  let s ← getS
  eRoots lf rf (intRange 1 (s.V + 1))

/-! ## Running helpers -/

/-- Add a list of edges in order. -/
def addEdges : List (Int × Int) → PyM Unit
  | [] => pure ()
  | e :: es => do
      addEdge e.1 e.2
      addEdges es

/-- The value of a normal return, if any. -/
def Py.val {α : Type} : Py α → Option α
  | .ok _ a => some a
  | _ => none

/-- Whether the run raised a Python exception. -/
def Py.isExn {α : Type} : Py α → Bool
  | .exn _ => true
  | _ => false

/-- The post-state of a run (for `oom`, the default `init 0`). -/
def Py.state {α : Type} : Py α → MM
  | .ok s _ => s
  | .exn s => s
  | .oom => init 0

/-- Build a graph: `init V` followed by `addEdge` for each pair. -/
def build (V : Int) (es : List (Int × Int)) : MM :=
  (addEdges es (init V)).state

/-- Matching size produced by a full run of `E` (with ample fuel),
`none` if the run raised or ran out of fuel. -/
def runSize (V : Int) (es : List (Int × Int)) : Option Int :=
  ((do addEdges es; E 100 100; getMatchingSize) (init V)).val

/-! ## Invariants relating labels and the outer set -/

/-- Structural well-formedness: `LABEL` has one slot per vertex plus the
sentinel slot `0`, and `VPlusOne` caches `V + 1` for a nonnegative `V`. -/
def LenOk (s : MM) : Prop :=
  s.LABEL.length = (s.V + 1).toNat ∧ s.VPlusOne = s.V + 1 ∧ 0 ≤ s.V

/-- Every `FIRST` entry is a nonnegative vertex number. -/
def FirstNN (s : MM) : Prop := ∀ x ∈ s.FIRST, 0 ≤ x

/-- Every recorded incident edge number is positive. -/
def GraphPos (s : MM) : Prop := ∀ l ∈ s.graph, ∀ e ∈ l, 0 < e

/-- Every queued work item carries a positive edge number. -/
def QueuePos (s : MM) : Prop := ∀ p ∈ s.outerEdges, 0 < p.2

/-- Any vertex slot `i ≥ 1` holding a nonnegative label belongs to the
outer set (one direction of the outer-iff invariant; this direction
holds at every step, even while flags are being placed). -/
def LabOuter (s : MM) : Prop :=
  ∀ i : Nat, 1 ≤ i → ∀ l, s.LABEL.get? i = some l → 0 ≤ l →
    (i : Int) ∈ s.outerVertices

/-- The conjunction of the always-preserved invariants. -/
def Good (s : MM) : Prop :=
  LenOk s ∧ FirstNN s ∧ GraphPos s ∧ QueuePos s ∧ LabOuter s

/-- A vertex slot `i ≥ 1` is in the outer set iff its label is
nonnegative — the boundary invariant of the claim: it holds between
public operations (while inside `L` the flags break the right-to-left
direction transiently). -/
def OuterIff (s : MM) : Prop :=
  ∀ i : Nat, 1 ≤ i → ∀ l, s.LABEL.get? i = some l →
    ((i : Int) ∈ s.outerVertices ↔ 0 ≤ l)

/-- Every `MATE` entry is a nonnegative vertex number. -/
def MateNN (s : MM) : Prop := ∀ m ∈ s.MATE, 0 ≤ m

/-- Every endpoint recorded in `END` is a vertex in `1..V`. -/
def EndRange (s : MM) : Prop := ∀ x ∈ s.END, 1 ≤ x ∧ x ≤ s.V

/-- Every queued work item starts at a nonnegative vertex. -/
def QueueFst (s : MM) : Prop := ∀ p ∈ s.outerEdges, 0 ≤ p.1

/-- The extended invariant carried through a run: `Good` plus the sign
facts about `MATE`, `END` and the queue needed by steps E3 and E5. -/
def GoodX (s : MM) : Prop := Good s ∧ MateNN s ∧ EndRange s ∧ QueueFst s

/-! ## Concrete instances used by the claims -/

/-- Triangle: `V = 3`, edges `{1-2, 2-3, 1-3}`. -/
def triEdges : List (Int × Int) := [(1, 2), (2, 3), (1, 3)]

/-- Two disjoint edges: `V = 4`, edges `{1-2, 3-4}`. -/
def twoEdges : List (Int × Int) := [(1, 2), (3, 4)]

/-- 5-cycle: `V = 5`, edges `1-2-3-4-5-1`. -/
def cycEdges : List (Int × Int) := [(1, 2), (2, 3), (3, 4), (4, 5), (5, 1)]

/-- State used for the `hasEdgeLabel` claim: the result of
`MaxMatching(2)`, `addEdge(1, 2)` (so edge numbers start at `3 = V+1`
and `2|E| = 2`), then `setLabel(1, 3)`, giving vertex `1` an edge label
`3` with `V < 3 ≤ V + 2|E|` (the provenance is proved in
`C3_hasEdgeLabel_raises`). -/
def c3state : MM :=
  MM.mk 2 3 [1, 2] [[], [3], [3]] [(1, 3)] [1] 0 [-1, 3, -1] [0, 0, 0] [0, 0, 0]

/-- An edge multiset on `V = 5` whose insertion order decides whether
`E()` completes: inserting in this order makes the search from root `5`
reach `L(2, 3, 16)` with `FIRST[2] = 1`, `FIRST[3] = 0`; the L1–L2 walk
then advances past the sentinel `0` and evaluates
`FIRST[LABEL[MATE[0]]] = FIRST[-16]`, an `IndexError` on a list of
length 6. -/
def esA : List (Int × Int) := [(1, 2), (3, 4), (5, 1), (5, 3), (5, 4), (2, 3)]

/-- The same edge multiset in reverse insertion order; with these edge
numbers `E()` completes and returns a maximum matching of 4 vertices. -/
def esB : List (Int × Int) := [(2, 3), (5, 4), (5, 3), (5, 1), (3, 4), (1, 2)]

/-- Flower graph for the flag-persistence claim: `V = 5`, edges
`1-2, 3-4, 5-1, 2-3, 2-4` (edge numbers `6, 8, 10, 12, 14`).  The search
from root `5` discovers the blossom `2-3-4` with base (join) vertex `1`.
This literal equals `build 5 [(1,2),(3,4),(5,1),(2,3),(2,4)]` (proved in
`C8_cex`). -/
def g8 : MM :=
  MM.mk 5 6 [1, 2, 3, 4, 5, 1, 2, 3, 2, 4]
    [[], [6, 10], [6, 12, 14], [8, 12], [8, 14], [10]] [] [] 0
    [-1, -1, -1, -1, -1, -1] [0, 0, 0, 0, 0, 0] [0, 0, 0, 0, 0, 0]

/-- State after the searches from roots `1..4` on the flower graph
(matching `1-2`, `3-4` is formed; root `5` not yet processed). -/
def c8s0 : MM :=
  MM.mk 5 6 [1, 2, 3, 4, 5, 1, 2, 3, 2, 4]
    [[], [6, 10], [6, 12, 14], [8, 12], [8, 14], [10]] [] [] 0
    [-1, -1, -1, -1, -1, -1] [0, 2, 1, 4, 3, 0] [0, 0, 0, 0, 0, 0]

/-- State after step E1 seeds the search at root `5`. -/
def c8s1 : MM :=
  MM.mk 5 6 [1, 2, 3, 4, 5, 1, 2, 3, 2, 4]
    [[], [6, 10], [6, 12, 14], [8, 12], [8, 14], [10]] [(5, 10)] [5] 0
    [-1, -1, -1, -1, -1, 0] [0, 2, 1, 4, 3, 0] [0, 0, 0, 0, 0, 0]

/-- State after the first three iterations of the scan loop of the
root-`5` search (vertices `2` and `4` got vertex labels). -/
def c8s2 : MM :=
  MM.mk 5 6 [1, 2, 3, 4, 5, 1, 2, 3, 2, 4]
    [[], [6, 10], [6, 12, 14], [8, 12], [8, 14], [10]]
    [(5, 10), (2, 6), (2, 12), (2, 14), (4, 8), (4, 14)] [5, 2, 4] 3
    [-1, -1, 5, -1, 2, 0] [0, 2, 1, 4, 3, 0] [0, 0, 1, 0, 3, 0]

/-- State after the fourth `chooseAnEdge`, which returns `(2, 14)`
(only the cursor advanced). -/
def c8s3 : MM :=
  MM.mk 5 6 [1, 2, 3, 4, 5, 1, 2, 3, 2, 4]
    [[], [6, 10], [6, 12, 14], [8, 12], [8, 14], [10]]
    [(5, 10), (2, 6), (2, 12), (2, 14), (4, 8), (4, 14)] [5, 2, 4] 4
    [-1, -1, 5, -1, 2, 0] [0, 2, 1, 4, 3, 0] [0, 0, 1, 0, 3, 0]

/-- State at the return of the call `L(2, 4, 14)` made by the fourth
loop iteration: the join vertex `1` now carries the flag label `-14`. -/
def c8s4 : MM :=
  MM.mk 5 6 [1, 2, 3, 4, 5, 1, 2, 3, 2, 4]
    [[], [6, 10], [6, 12, 14], [8, 12], [8, 14], [10]]
    [(5, 10), (2, 6), (2, 12), (2, 14), (4, 8), (4, 14), (3, 8), (3, 12)]
    [5, 2, 4, 3] 4 [-1, -14, 5, 14, 2, 0] [0, 2, 1, 4, 3, 0] [0, 0, 1, 1, 1, 0]

/-- Final state of the full `E()` run on the flower graph. -/
def c8fin : MM :=
  MM.mk 5 6 [1, 2, 3, 4, 5, 1, 2, 3, 2, 4]
    [[], [6, 10], [6, 12, 14], [8, 12], [8, 14], [10]] [] [] 0
    [-1, -1, -1, -1, -1, -1] [0, 2, 1, 4, 3, 0] [0, 0, 1, 1, 1, 0]

/-- A state on which `R` is exercised for the frame-property witness:
the triangle graph (this literal equals `build 3 triEdges`). -/
def c10pre : MM :=
  MM.mk 3 4 [1, 2, 2, 3, 1, 3] [[], [4, 8], [4, 6], [6, 8]] [] [] 0
    [-1, -1, -1, -1] [0, 0, 0, 0] [0, 0, 0, 0]

/-- The state after `R(1, 2)` on `c10pre` (only `MATE[1]` changed). -/
def c10post : MM :=
  MM.mk 3 4 [1, 2, 2, 3, 1, 3] [[], [4, 8], [4, 6], [6, 8]] [] [] 0
    [-1, -1, -1, -1] [0, 2, 0, 0] [0, 0, 0, 0]

/-- States threaded through the outer-iff witness: the triangle built
edge by edge from `init 3`, then fully run. -/
def c7s1 : MM :=
  MM.mk 3 4 [1, 2] [[], [4], [4], []] [] [] 0 [-1, -1, -1, -1] [0, 0, 0, 0] [0, 0, 0, 0]

def c7s2 : MM :=
  MM.mk 3 4 [1, 2, 2, 3] [[], [4], [4, 6], [6]] [] [] 0 [-1, -1, -1, -1]
    [0, 0, 0, 0] [0, 0, 0, 0]

def c7s3 : MM :=
  MM.mk 3 4 [1, 2, 2, 3, 1, 3] [[], [4, 8], [4, 6], [6, 8]] [] [] 0
    [-1, -1, -1, -1] [0, 0, 0, 0] [0, 0, 0, 0]

def c7sE : MM :=
  MM.mk 3 4 [1, 2, 2, 3, 1, 3] [[], [4, 8], [4, 6], [6, 8]] [] [] 0
    [-1, -1, -1, -1] [0, 2, 1, 0] [0, 0, 0, 0]

/-! ## Literal intermediate states of the concrete executions

The following states (generated mechanically from the embedding) are the
intermediate states of the concrete runs used by the claims; each is
certified by the small-step theorems further below. -/

def triq0 : MM :=
  MM.mk 3 4 [1, 2] [[], [4], [4], []] [] [] 0 [(-1), (-1), (-1), (-1)] [0, 0, 0, 0] [0, 0, 0, 0]

def triq2 : MM :=
  MM.mk 3 4 [1, 2, 2, 3] [[], [4], [4, 6], [6]] [] [] 0 [(-1), (-1), (-1), (-1)] [0, 0, 0, 0] [0, 0, 0, 0]

def triq4 : MM :=
  MM.mk 3 4 [1, 2, 2, 3, 1, 3] [[], [4, 8], [4, 6], [6, 8]] [] [] 0 [(-1), (-1), (-1), (-1)] [0, 0, 0, 0] [0, 0, 0, 0]

def triq9 : MM :=
  MM.mk 3 4 [1, 2, 2, 3, 1, 3] [[], [4, 8], [4, 6], [6, 8]] [(1, 4), (1, 8)] [1] 0 [(-1), 0, (-1), (-1)] [0, 0, 0, 0] [0, 0, 0, 0]

def triq11 : MM :=
  MM.mk 3 4 [1, 2, 2, 3, 1, 3] [[], [4, 8], [4, 6], [6, 8]] [(1, 4), (1, 8)] [1] 0 [(-1), 0, (-1), (-1)] [0, 0, 0, 0] [0, 0, 0, 0]

def triq13 : MM :=
  MM.mk 3 4 [1, 2, 2, 3, 1, 3] [[], [4, 8], [4, 6], [6, 8]] [(1, 4), (1, 8)] [1] 1 [(-1), 0, (-1), (-1)] [0, 0, 0, 0] [0, 0, 0, 0]

def triq19 : MM :=
  MM.mk 3 4 [1, 2, 2, 3, 1, 3] [[], [4, 8], [4, 6], [6, 8]] [(1, 4), (1, 8)] [1] 1 [(-1), 0, (-1), (-1)] [0, 0, 1, 0] [0, 0, 0, 0]

def triq21 : MM :=
  MM.mk 3 4 [1, 2, 2, 3, 1, 3] [[], [4, 8], [4, 6], [6, 8]] [(1, 4), (1, 8)] [1] 1 [(-1), 0, (-1), (-1)] [0, 2, 1, 0] [0, 0, 0, 0]

def triq23 : MM :=
  MM.mk 3 4 [1, 2, 2, 3, 1, 3] [[], [4, 8], [4, 6], [6, 8]] [(1, 4), (1, 8)] [1] 1 [(-1), 0, (-1), (-1)] [0, 2, 1, 0] [0, 0, 0, 0]

def triq25 : MM :=
  MM.mk 3 4 [1, 2, 2, 3, 1, 3] [[], [4, 8], [4, 6], [6, 8]] [(1, 4), (1, 8)] [1] 1 [(-1), (-1), (-1), (-1)] [0, 2, 1, 0] [0, 0, 0, 0]

def triq28 : MM :=
  MM.mk 3 4 [1, 2, 2, 3, 1, 3] [[], [4, 8], [4, 6], [6, 8]] [(1, 4), (1, 8)] [1] 1 [(-1), (-1), (-1), (-1)] [0, 2, 1, 0] [0, 0, 0, 0]

def triq31 : MM :=
  MM.mk 3 4 [1, 2, 2, 3, 1, 3] [[], [4, 8], [4, 6], [6, 8]] [] [] 0 [(-1), (-1), (-1), (-1)] [0, 2, 1, 0] [0, 0, 0, 0]

def triq40 : MM :=
  MM.mk 3 4 [1, 2, 2, 3, 1, 3] [[], [4, 8], [4, 6], [6, 8]] [(3, 6), (3, 8)] [3] 0 [(-1), (-1), (-1), 0] [0, 2, 1, 0] [0, 0, 0, 0]

def triq42 : MM :=
  MM.mk 3 4 [1, 2, 2, 3, 1, 3] [[], [4, 8], [4, 6], [6, 8]] [(3, 6), (3, 8)] [3] 0 [(-1), (-1), (-1), 0] [0, 2, 1, 0] [0, 0, 0, 0]

def triq44 : MM :=
  MM.mk 3 4 [1, 2, 2, 3, 1, 3] [[], [4, 8], [4, 6], [6, 8]] [(3, 6), (3, 8)] [3] 1 [(-1), (-1), (-1), 0] [0, 2, 1, 0] [0, 0, 0, 0]

def triq53 : MM :=
  MM.mk 3 4 [1, 2, 2, 3, 1, 3] [[], [4, 8], [4, 6], [6, 8]] [(3, 6), (3, 8), (1, 4), (1, 8)] [3, 1] 1 [(-1), 3, (-1), 0] [0, 2, 1, 0] [0, 0, 0, 0]

def triq55 : MM :=
  MM.mk 3 4 [1, 2, 2, 3, 1, 3] [[], [4, 8], [4, 6], [6, 8]] [(3, 6), (3, 8), (1, 4), (1, 8)] [3, 1] 1 [(-1), 3, (-1), 0] [0, 2, 1, 0] [0, 2, 0, 0]

def triq58 : MM :=
  MM.mk 3 4 [1, 2, 2, 3, 1, 3] [[], [4, 8], [4, 6], [6, 8]] [(3, 6), (3, 8), (1, 4), (1, 8)] [3, 1] 2 [(-1), 3, (-1), 0] [0, 2, 1, 0] [0, 2, 0, 0]

def triq68 : MM :=
  MM.mk 3 4 [1, 2, 2, 3, 1, 3] [[], [4, 8], [4, 6], [6, 8]] [(3, 6), (3, 8), (1, 4), (1, 8)] [3, 1] 2 [(-8), 3, (-1), 0] [0, 2, 1, 0] [0, 2, 0, 0]

def triq70 : MM :=
  MM.mk 3 4 [1, 2, 2, 3, 1, 3] [[], [4, 8], [4, 6], [6, 8]] [(3, 6), (3, 8), (1, 4), (1, 8)] [3, 1] 2 [(-8), 3, (-1), 0] [0, 2, 1, 0] [0, 2, 0, 0]

def triq74 : MM :=
  MM.mk 3 4 [1, 2, 2, 3, 1, 3] [[], [4, 8], [4, 6], [6, 8]] [(3, 6), (3, 8), (1, 4), (1, 8)] [3, 1] 2 [(-8), 3, (-1), 0] [0, 2, 1, 0] [0, 2, 0, 0]

def triq76 : MM :=
  MM.mk 3 4 [1, 2, 2, 3, 1, 3] [[], [4, 8], [4, 6], [6, 8]] [(3, 6), (3, 8), (1, 4), (1, 8), (2, 4), (2, 6)] [3, 1, 2] 2 [(-8), 3, 8, 0] [0, 2, 1, 0] [0, 2, 0, 0]

def triq82 : MM :=
  MM.mk 3 4 [1, 2, 2, 3, 1, 3] [[], [4, 8], [4, 6], [6, 8]] [(3, 6), (3, 8), (1, 4), (1, 8), (2, 4), (2, 6)] [3, 1, 2] 2 [(-8), 3, 8, 0] [0, 2, 1, 0] [0, 0, 0, 0]

def triq89 : MM :=
  MM.mk 3 4 [1, 2, 2, 3, 1, 3] [[], [4, 8], [4, 6], [6, 8]] [(3, 6), (3, 8), (1, 4), (1, 8), (2, 4), (2, 6)] [3, 1, 2] 3 [(-8), 3, 8, 0] [0, 2, 1, 0] [0, 0, 0, 0]

def triq100 : MM :=
  MM.mk 3 4 [1, 2, 2, 3, 1, 3] [[], [4, 8], [4, 6], [6, 8]] [(3, 6), (3, 8), (1, 4), (1, 8), (2, 4), (2, 6)] [3, 1, 2] 4 [(-8), 3, 8, 0] [0, 2, 1, 0] [0, 0, 0, 0]

def triq111 : MM :=
  MM.mk 3 4 [1, 2, 2, 3, 1, 3] [[], [4, 8], [4, 6], [6, 8]] [(3, 6), (3, 8), (1, 4), (1, 8), (2, 4), (2, 6)] [3, 1, 2] 5 [(-8), 3, 8, 0] [0, 2, 1, 0] [0, 0, 0, 0]

def triq122 : MM :=
  MM.mk 3 4 [1, 2, 2, 3, 1, 3] [[], [4, 8], [4, 6], [6, 8]] [(3, 6), (3, 8), (1, 4), (1, 8), (2, 4), (2, 6)] [3, 1, 2] 6 [(-8), 3, 8, 0] [0, 2, 1, 0] [0, 0, 0, 0]

def triq134 : MM :=
  MM.mk 3 4 [1, 2, 2, 3, 1, 3] [[], [4, 8], [4, 6], [6, 8]] [(3, 6), (3, 8), (1, 4), (1, 8), (2, 4), (2, 6)] [3, 1, 2] 6 [(-1), 3, 8, 0] [0, 2, 1, 0] [0, 0, 0, 0]

def triq136 : MM :=
  MM.mk 3 4 [1, 2, 2, 3, 1, 3] [[], [4, 8], [4, 6], [6, 8]] [(3, 6), (3, 8), (1, 4), (1, 8), (2, 4), (2, 6)] [3, 1, 2] 6 [(-1), 3, 8, (-1)] [0, 2, 1, 0] [0, 0, 0, 0]

def triq139 : MM :=
  MM.mk 3 4 [1, 2, 2, 3, 1, 3] [[], [4, 8], [4, 6], [6, 8]] [(3, 6), (3, 8), (1, 4), (1, 8), (2, 4), (2, 6)] [3, 1, 2] 6 [(-1), 3, 8, (-1)] [0, 2, 1, 0] [0, 0, 0, 0]

def triq141 : MM :=
  MM.mk 3 4 [1, 2, 2, 3, 1, 3] [[], [4, 8], [4, 6], [6, 8]] [(3, 6), (3, 8), (1, 4), (1, 8), (2, 4), (2, 6)] [3, 1, 2] 6 [(-1), (-1), 8, (-1)] [0, 2, 1, 0] [0, 0, 0, 0]

def triq144 : MM :=
  MM.mk 3 4 [1, 2, 2, 3, 1, 3] [[], [4, 8], [4, 6], [6, 8]] [(3, 6), (3, 8), (1, 4), (1, 8), (2, 4), (2, 6)] [3, 1, 2] 6 [(-1), (-1), (-1), (-1)] [0, 2, 1, 0] [0, 0, 0, 0]

def triq146 : MM :=
  MM.mk 3 4 [1, 2, 2, 3, 1, 3] [[], [4, 8], [4, 6], [6, 8]] [(3, 6), (3, 8), (1, 4), (1, 8), (2, 4), (2, 6)] [3, 1, 2] 6 [(-1), (-1), (-1), (-1)] [0, 2, 1, 0] [0, 0, 0, 0]

def triq149 : MM :=
  MM.mk 3 4 [1, 2, 2, 3, 1, 3] [[], [4, 8], [4, 6], [6, 8]] [(3, 6), (3, 8), (1, 4), (1, 8), (2, 4), (2, 6)] [3, 1, 2] 6 [(-1), (-1), (-1), (-1)] [0, 2, 1, 0] [0, 0, 0, 0]

def triq152 : MM :=
  MM.mk 3 4 [1, 2, 2, 3, 1, 3] [[], [4, 8], [4, 6], [6, 8]] [] [] 0 [(-1), (-1), (-1), (-1)] [0, 2, 1, 0] [0, 0, 0, 0]

def twoq0 : MM :=
  MM.mk 4 5 [1, 2] [[], [5], [5], [], []] [] [] 0 [(-1), (-1), (-1), (-1), (-1)] [0, 0, 0, 0, 0] [0, 0, 0, 0, 0]

def twoq2 : MM :=
  MM.mk 4 5 [1, 2, 3, 4] [[], [5], [5], [7], [7]] [] [] 0 [(-1), (-1), (-1), (-1), (-1)] [0, 0, 0, 0, 0] [0, 0, 0, 0, 0]

def twoq7 : MM :=
  MM.mk 4 5 [1, 2, 3, 4] [[], [5], [5], [7], [7]] [(1, 5)] [1] 0 [(-1), 0, (-1), (-1), (-1)] [0, 0, 0, 0, 0] [0, 0, 0, 0, 0]

def twoq9 : MM :=
  MM.mk 4 5 [1, 2, 3, 4] [[], [5], [5], [7], [7]] [(1, 5)] [1] 0 [(-1), 0, (-1), (-1), (-1)] [0, 0, 0, 0, 0] [0, 0, 0, 0, 0]

def twoq11 : MM :=
  MM.mk 4 5 [1, 2, 3, 4] [[], [5], [5], [7], [7]] [(1, 5)] [1] 1 [(-1), 0, (-1), (-1), (-1)] [0, 0, 0, 0, 0] [0, 0, 0, 0, 0]

def twoq17 : MM :=
  MM.mk 4 5 [1, 2, 3, 4] [[], [5], [5], [7], [7]] [(1, 5)] [1] 1 [(-1), 0, (-1), (-1), (-1)] [0, 0, 1, 0, 0] [0, 0, 0, 0, 0]

def twoq19 : MM :=
  MM.mk 4 5 [1, 2, 3, 4] [[], [5], [5], [7], [7]] [(1, 5)] [1] 1 [(-1), 0, (-1), (-1), (-1)] [0, 2, 1, 0, 0] [0, 0, 0, 0, 0]

def twoq21 : MM :=
  MM.mk 4 5 [1, 2, 3, 4] [[], [5], [5], [7], [7]] [(1, 5)] [1] 1 [(-1), 0, (-1), (-1), (-1)] [0, 2, 1, 0, 0] [0, 0, 0, 0, 0]

def twoq23 : MM :=
  MM.mk 4 5 [1, 2, 3, 4] [[], [5], [5], [7], [7]] [(1, 5)] [1] 1 [(-1), (-1), (-1), (-1), (-1)] [0, 2, 1, 0, 0] [0, 0, 0, 0, 0]

def twoq26 : MM :=
  MM.mk 4 5 [1, 2, 3, 4] [[], [5], [5], [7], [7]] [(1, 5)] [1] 1 [(-1), (-1), (-1), (-1), (-1)] [0, 2, 1, 0, 0] [0, 0, 0, 0, 0]

def twoq29 : MM :=
  MM.mk 4 5 [1, 2, 3, 4] [[], [5], [5], [7], [7]] [] [] 0 [(-1), (-1), (-1), (-1), (-1)] [0, 2, 1, 0, 0] [0, 0, 0, 0, 0]

def twoq38 : MM :=
  MM.mk 4 5 [1, 2, 3, 4] [[], [5], [5], [7], [7]] [(3, 7)] [3] 0 [(-1), (-1), (-1), 0, (-1)] [0, 2, 1, 0, 0] [0, 0, 0, 0, 0]

def twoq40 : MM :=
  MM.mk 4 5 [1, 2, 3, 4] [[], [5], [5], [7], [7]] [(3, 7)] [3] 0 [(-1), (-1), (-1), 0, (-1)] [0, 2, 1, 0, 0] [0, 0, 0, 0, 0]

def twoq42 : MM :=
  MM.mk 4 5 [1, 2, 3, 4] [[], [5], [5], [7], [7]] [(3, 7)] [3] 1 [(-1), (-1), (-1), 0, (-1)] [0, 2, 1, 0, 0] [0, 0, 0, 0, 0]

def twoq48 : MM :=
  MM.mk 4 5 [1, 2, 3, 4] [[], [5], [5], [7], [7]] [(3, 7)] [3] 1 [(-1), (-1), (-1), 0, (-1)] [0, 2, 1, 0, 3] [0, 0, 0, 0, 0]

def twoq50 : MM :=
  MM.mk 4 5 [1, 2, 3, 4] [[], [5], [5], [7], [7]] [(3, 7)] [3] 1 [(-1), (-1), (-1), 0, (-1)] [0, 2, 1, 4, 3] [0, 0, 0, 0, 0]

def twoq52 : MM :=
  MM.mk 4 5 [1, 2, 3, 4] [[], [5], [5], [7], [7]] [(3, 7)] [3] 1 [(-1), (-1), (-1), 0, (-1)] [0, 2, 1, 4, 3] [0, 0, 0, 0, 0]

def twoq54 : MM :=
  MM.mk 4 5 [1, 2, 3, 4] [[], [5], [5], [7], [7]] [(3, 7)] [3] 1 [(-1), (-1), (-1), (-1), (-1)] [0, 2, 1, 4, 3] [0, 0, 0, 0, 0]

def twoq57 : MM :=
  MM.mk 4 5 [1, 2, 3, 4] [[], [5], [5], [7], [7]] [(3, 7)] [3] 1 [(-1), (-1), (-1), (-1), (-1)] [0, 2, 1, 4, 3] [0, 0, 0, 0, 0]

def twoq60 : MM :=
  MM.mk 4 5 [1, 2, 3, 4] [[], [5], [5], [7], [7]] [] [] 0 [(-1), (-1), (-1), (-1), (-1)] [0, 2, 1, 4, 3] [0, 0, 0, 0, 0]

def cycq0 : MM :=
  MM.mk 5 6 [1, 2] [[], [6], [6], [], [], []] [] [] 0 [(-1), (-1), (-1), (-1), (-1), (-1)] [0, 0, 0, 0, 0, 0] [0, 0, 0, 0, 0, 0]

def cycq2 : MM :=
  MM.mk 5 6 [1, 2, 2, 3] [[], [6], [6, 8], [8], [], []] [] [] 0 [(-1), (-1), (-1), (-1), (-1), (-1)] [0, 0, 0, 0, 0, 0] [0, 0, 0, 0, 0, 0]

def cycq4 : MM :=
  MM.mk 5 6 [1, 2, 2, 3, 3, 4] [[], [6], [6, 8], [8, 10], [10], []] [] [] 0 [(-1), (-1), (-1), (-1), (-1), (-1)] [0, 0, 0, 0, 0, 0] [0, 0, 0, 0, 0, 0]

def cycq6 : MM :=
  MM.mk 5 6 [1, 2, 2, 3, 3, 4, 4, 5] [[], [6], [6, 8], [8, 10], [10, 12], [12]] [] [] 0 [(-1), (-1), (-1), (-1), (-1), (-1)] [0, 0, 0, 0, 0, 0] [0, 0, 0, 0, 0, 0]

def cycq8 : MM :=
  MM.mk 5 6 [1, 2, 2, 3, 3, 4, 4, 5, 5, 1] [[], [6, 14], [6, 8], [8, 10], [10, 12], [12, 14]] [] [] 0 [(-1), (-1), (-1), (-1), (-1), (-1)] [0, 0, 0, 0, 0, 0] [0, 0, 0, 0, 0, 0]

def cycq13 : MM :=
  MM.mk 5 6 [1, 2, 2, 3, 3, 4, 4, 5, 5, 1] [[], [6, 14], [6, 8], [8, 10], [10, 12], [12, 14]] [(1, 6), (1, 14)] [1] 0 [(-1), 0, (-1), (-1), (-1), (-1)] [0, 0, 0, 0, 0, 0] [0, 0, 0, 0, 0, 0]

def cycq15 : MM :=
  MM.mk 5 6 [1, 2, 2, 3, 3, 4, 4, 5, 5, 1] [[], [6, 14], [6, 8], [8, 10], [10, 12], [12, 14]] [(1, 6), (1, 14)] [1] 0 [(-1), 0, (-1), (-1), (-1), (-1)] [0, 0, 0, 0, 0, 0] [0, 0, 0, 0, 0, 0]

def cycq17 : MM :=
  MM.mk 5 6 [1, 2, 2, 3, 3, 4, 4, 5, 5, 1] [[], [6, 14], [6, 8], [8, 10], [10, 12], [12, 14]] [(1, 6), (1, 14)] [1] 1 [(-1), 0, (-1), (-1), (-1), (-1)] [0, 0, 0, 0, 0, 0] [0, 0, 0, 0, 0, 0]

def cycq23 : MM :=
  MM.mk 5 6 [1, 2, 2, 3, 3, 4, 4, 5, 5, 1] [[], [6, 14], [6, 8], [8, 10], [10, 12], [12, 14]] [(1, 6), (1, 14)] [1] 1 [(-1), 0, (-1), (-1), (-1), (-1)] [0, 0, 1, 0, 0, 0] [0, 0, 0, 0, 0, 0]

def cycq25 : MM :=
  MM.mk 5 6 [1, 2, 2, 3, 3, 4, 4, 5, 5, 1] [[], [6, 14], [6, 8], [8, 10], [10, 12], [12, 14]] [(1, 6), (1, 14)] [1] 1 [(-1), 0, (-1), (-1), (-1), (-1)] [0, 2, 1, 0, 0, 0] [0, 0, 0, 0, 0, 0]

def cycq27 : MM :=
  MM.mk 5 6 [1, 2, 2, 3, 3, 4, 4, 5, 5, 1] [[], [6, 14], [6, 8], [8, 10], [10, 12], [12, 14]] [(1, 6), (1, 14)] [1] 1 [(-1), 0, (-1), (-1), (-1), (-1)] [0, 2, 1, 0, 0, 0] [0, 0, 0, 0, 0, 0]

def cycq29 : MM :=
  MM.mk 5 6 [1, 2, 2, 3, 3, 4, 4, 5, 5, 1] [[], [6, 14], [6, 8], [8, 10], [10, 12], [12, 14]] [(1, 6), (1, 14)] [1] 1 [(-1), (-1), (-1), (-1), (-1), (-1)] [0, 2, 1, 0, 0, 0] [0, 0, 0, 0, 0, 0]

def cycq32 : MM :=
  MM.mk 5 6 [1, 2, 2, 3, 3, 4, 4, 5, 5, 1] [[], [6, 14], [6, 8], [8, 10], [10, 12], [12, 14]] [(1, 6), (1, 14)] [1] 1 [(-1), (-1), (-1), (-1), (-1), (-1)] [0, 2, 1, 0, 0, 0] [0, 0, 0, 0, 0, 0]

def cycq35 : MM :=
  MM.mk 5 6 [1, 2, 2, 3, 3, 4, 4, 5, 5, 1] [[], [6, 14], [6, 8], [8, 10], [10, 12], [12, 14]] [] [] 0 [(-1), (-1), (-1), (-1), (-1), (-1)] [0, 2, 1, 0, 0, 0] [0, 0, 0, 0, 0, 0]

def cycq44 : MM :=
  MM.mk 5 6 [1, 2, 2, 3, 3, 4, 4, 5, 5, 1] [[], [6, 14], [6, 8], [8, 10], [10, 12], [12, 14]] [(3, 8), (3, 10)] [3] 0 [(-1), (-1), (-1), 0, (-1), (-1)] [0, 2, 1, 0, 0, 0] [0, 0, 0, 0, 0, 0]

def cycq46 : MM :=
  MM.mk 5 6 [1, 2, 2, 3, 3, 4, 4, 5, 5, 1] [[], [6, 14], [6, 8], [8, 10], [10, 12], [12, 14]] [(3, 8), (3, 10)] [3] 0 [(-1), (-1), (-1), 0, (-1), (-1)] [0, 2, 1, 0, 0, 0] [0, 0, 0, 0, 0, 0]

def cycq48 : MM :=
  MM.mk 5 6 [1, 2, 2, 3, 3, 4, 4, 5, 5, 1] [[], [6, 14], [6, 8], [8, 10], [10, 12], [12, 14]] [(3, 8), (3, 10)] [3] 1 [(-1), (-1), (-1), 0, (-1), (-1)] [0, 2, 1, 0, 0, 0] [0, 0, 0, 0, 0, 0]

def cycq57 : MM :=
  MM.mk 5 6 [1, 2, 2, 3, 3, 4, 4, 5, 5, 1] [[], [6, 14], [6, 8], [8, 10], [10, 12], [12, 14]] [(3, 8), (3, 10), (1, 6), (1, 14)] [3, 1] 1 [(-1), 3, (-1), 0, (-1), (-1)] [0, 2, 1, 0, 0, 0] [0, 0, 0, 0, 0, 0]

def cycq59 : MM :=
  MM.mk 5 6 [1, 2, 2, 3, 3, 4, 4, 5, 5, 1] [[], [6, 14], [6, 8], [8, 10], [10, 12], [12, 14]] [(3, 8), (3, 10), (1, 6), (1, 14)] [3, 1] 1 [(-1), 3, (-1), 0, (-1), (-1)] [0, 2, 1, 0, 0, 0] [0, 2, 0, 0, 0, 0]

def cycq62 : MM :=
  MM.mk 5 6 [1, 2, 2, 3, 3, 4, 4, 5, 5, 1] [[], [6, 14], [6, 8], [8, 10], [10, 12], [12, 14]] [(3, 8), (3, 10), (1, 6), (1, 14)] [3, 1] 2 [(-1), 3, (-1), 0, (-1), (-1)] [0, 2, 1, 0, 0, 0] [0, 2, 0, 0, 0, 0]

def cycq68 : MM :=
  MM.mk 5 6 [1, 2, 2, 3, 3, 4, 4, 5, 5, 1] [[], [6, 14], [6, 8], [8, 10], [10, 12], [12, 14]] [(3, 8), (3, 10), (1, 6), (1, 14)] [3, 1] 2 [(-1), 3, (-1), 0, (-1), (-1)] [0, 2, 1, 0, 3, 0] [0, 2, 0, 0, 0, 0]

def cycq70 : MM :=
  MM.mk 5 6 [1, 2, 2, 3, 3, 4, 4, 5, 5, 1] [[], [6, 14], [6, 8], [8, 10], [10, 12], [12, 14]] [(3, 8), (3, 10), (1, 6), (1, 14)] [3, 1] 2 [(-1), 3, (-1), 0, (-1), (-1)] [0, 2, 1, 4, 3, 0] [0, 2, 0, 0, 0, 0]

def cycq72 : MM :=
  MM.mk 5 6 [1, 2, 2, 3, 3, 4, 4, 5, 5, 1] [[], [6, 14], [6, 8], [8, 10], [10, 12], [12, 14]] [(3, 8), (3, 10), (1, 6), (1, 14)] [3, 1] 2 [(-1), 3, (-1), 0, (-1), (-1)] [0, 2, 1, 4, 3, 0] [0, 2, 0, 0, 0, 0]

def cycq74 : MM :=
  MM.mk 5 6 [1, 2, 2, 3, 3, 4, 4, 5, 5, 1] [[], [6, 14], [6, 8], [8, 10], [10, 12], [12, 14]] [(3, 8), (3, 10), (1, 6), (1, 14)] [3, 1] 2 [(-1), 3, (-1), (-1), (-1), (-1)] [0, 2, 1, 4, 3, 0] [0, 2, 0, 0, 0, 0]

def cycq77 : MM :=
  MM.mk 5 6 [1, 2, 2, 3, 3, 4, 4, 5, 5, 1] [[], [6, 14], [6, 8], [8, 10], [10, 12], [12, 14]] [(3, 8), (3, 10), (1, 6), (1, 14)] [3, 1] 2 [(-1), 3, (-1), (-1), (-1), (-1)] [0, 2, 1, 4, 3, 0] [0, 2, 0, 0, 0, 0]

def cycq79 : MM :=
  MM.mk 5 6 [1, 2, 2, 3, 3, 4, 4, 5, 5, 1] [[], [6, 14], [6, 8], [8, 10], [10, 12], [12, 14]] [(3, 8), (3, 10), (1, 6), (1, 14)] [3, 1] 2 [(-1), (-1), (-1), (-1), (-1), (-1)] [0, 2, 1, 4, 3, 0] [0, 2, 0, 0, 0, 0]

def cycq82 : MM :=
  MM.mk 5 6 [1, 2, 2, 3, 3, 4, 4, 5, 5, 1] [[], [6, 14], [6, 8], [8, 10], [10, 12], [12, 14]] [(3, 8), (3, 10), (1, 6), (1, 14)] [3, 1] 2 [(-1), (-1), (-1), (-1), (-1), (-1)] [0, 2, 1, 4, 3, 0] [0, 2, 0, 0, 0, 0]

def cycq85 : MM :=
  MM.mk 5 6 [1, 2, 2, 3, 3, 4, 4, 5, 5, 1] [[], [6, 14], [6, 8], [8, 10], [10, 12], [12, 14]] [] [] 0 [(-1), (-1), (-1), (-1), (-1), (-1)] [0, 2, 1, 4, 3, 0] [0, 2, 0, 0, 0, 0]

def cycq94 : MM :=
  MM.mk 5 6 [1, 2, 2, 3, 3, 4, 4, 5, 5, 1] [[], [6, 14], [6, 8], [8, 10], [10, 12], [12, 14]] [(5, 12), (5, 14)] [5] 0 [(-1), (-1), (-1), (-1), (-1), 0] [0, 2, 1, 4, 3, 0] [0, 2, 0, 0, 0, 0]

def cycq96 : MM :=
  MM.mk 5 6 [1, 2, 2, 3, 3, 4, 4, 5, 5, 1] [[], [6, 14], [6, 8], [8, 10], [10, 12], [12, 14]] [(5, 12), (5, 14)] [5] 0 [(-1), (-1), (-1), (-1), (-1), 0] [0, 2, 1, 4, 3, 0] [0, 2, 0, 0, 0, 0]

def cycq98 : MM :=
  MM.mk 5 6 [1, 2, 2, 3, 3, 4, 4, 5, 5, 1] [[], [6, 14], [6, 8], [8, 10], [10, 12], [12, 14]] [(5, 12), (5, 14)] [5] 1 [(-1), (-1), (-1), (-1), (-1), 0] [0, 2, 1, 4, 3, 0] [0, 2, 0, 0, 0, 0]

def cycq107 : MM :=
  MM.mk 5 6 [1, 2, 2, 3, 3, 4, 4, 5, 5, 1] [[], [6, 14], [6, 8], [8, 10], [10, 12], [12, 14]] [(5, 12), (5, 14), (3, 8), (3, 10)] [5, 3] 1 [(-1), (-1), (-1), 5, (-1), 0] [0, 2, 1, 4, 3, 0] [0, 2, 0, 0, 0, 0]

def cycq109 : MM :=
  MM.mk 5 6 [1, 2, 2, 3, 3, 4, 4, 5, 5, 1] [[], [6, 14], [6, 8], [8, 10], [10, 12], [12, 14]] [(5, 12), (5, 14), (3, 8), (3, 10)] [5, 3] 1 [(-1), (-1), (-1), 5, (-1), 0] [0, 2, 1, 4, 3, 0] [0, 2, 0, 4, 0, 0]

def cycq112 : MM :=
  MM.mk 5 6 [1, 2, 2, 3, 3, 4, 4, 5, 5, 1] [[], [6, 14], [6, 8], [8, 10], [10, 12], [12, 14]] [(5, 12), (5, 14), (3, 8), (3, 10)] [5, 3] 2 [(-1), (-1), (-1), 5, (-1), 0] [0, 2, 1, 4, 3, 0] [0, 2, 0, 4, 0, 0]

def cycq121 : MM :=
  MM.mk 5 6 [1, 2, 2, 3, 3, 4, 4, 5, 5, 1] [[], [6, 14], [6, 8], [8, 10], [10, 12], [12, 14]] [(5, 12), (5, 14), (3, 8), (3, 10), (2, 6), (2, 8)] [5, 3, 2] 2 [(-1), (-1), 5, 5, (-1), 0] [0, 2, 1, 4, 3, 0] [0, 2, 0, 4, 0, 0]

def cycq123 : MM :=
  MM.mk 5 6 [1, 2, 2, 3, 3, 4, 4, 5, 5, 1] [[], [6, 14], [6, 8], [8, 10], [10, 12], [12, 14]] [(5, 12), (5, 14), (3, 8), (3, 10), (2, 6), (2, 8)] [5, 3, 2] 2 [(-1), (-1), 5, 5, (-1), 0] [0, 2, 1, 4, 3, 0] [0, 2, 1, 4, 0, 0]

def cycq126 : MM :=
  MM.mk 5 6 [1, 2, 2, 3, 3, 4, 4, 5, 5, 1] [[], [6, 14], [6, 8], [8, 10], [10, 12], [12, 14]] [(5, 12), (5, 14), (3, 8), (3, 10), (2, 6), (2, 8)] [5, 3, 2] 3 [(-1), (-1), 5, 5, (-1), 0] [0, 2, 1, 4, 3, 0] [0, 2, 1, 4, 0, 0]

def cycq136 : MM :=
  MM.mk 5 6 [1, 2, 2, 3, 3, 4, 4, 5, 5, 1] [[], [6, 14], [6, 8], [8, 10], [10, 12], [12, 14]] [(5, 12), (5, 14), (3, 8), (3, 10), (2, 6), (2, 8)] [5, 3, 2] 3 [(-1), (-1), 5, 5, (-8), 0] [0, 2, 1, 4, 3, 0] [0, 2, 1, 4, 0, 0]

def cycq138 : MM :=
  MM.mk 5 6 [1, 2, 2, 3, 3, 4, 4, 5, 5, 1] [[], [6, 14], [6, 8], [8, 10], [10, 12], [12, 14]] [(5, 12), (5, 14), (3, 8), (3, 10), (2, 6), (2, 8)] [5, 3, 2] 3 [(-8), (-1), 5, 5, (-8), 0] [0, 2, 1, 4, 3, 0] [0, 2, 1, 4, 0, 0]

def cycq142 : MM :=
  MM.mk 5 6 [1, 2, 2, 3, 3, 4, 4, 5, 5, 1] [[], [6, 14], [6, 8], [8, 10], [10, 12], [12, 14]] [(5, 12), (5, 14), (3, 8), (3, 10), (2, 6), (2, 8), (4, 10), (4, 12)] [5, 3, 2, 4] 3 [(-8), (-1), 5, 5, 8, 0] [0, 2, 1, 4, 3, 0] [0, 2, 1, 4, 0, 0]

def cycq144 : MM :=
  MM.mk 5 6 [1, 2, 2, 3, 3, 4, 4, 5, 5, 1] [[], [6, 14], [6, 8], [8, 10], [10, 12], [12, 14]] [(5, 12), (5, 14), (3, 8), (3, 10), (2, 6), (2, 8), (4, 10), (4, 12), (1, 6), (1, 14)] [5, 3, 2, 4, 1] 3 [(-8), 8, 5, 5, 8, 0] [0, 2, 1, 4, 3, 0] [0, 0, 1, 4, 0, 0]

def cycq150 : MM :=
  MM.mk 5 6 [1, 2, 2, 3, 3, 4, 4, 5, 5, 1] [[], [6, 14], [6, 8], [8, 10], [10, 12], [12, 14]] [(5, 12), (5, 14), (3, 8), (3, 10), (2, 6), (2, 8), (4, 10), (4, 12), (1, 6), (1, 14)] [5, 3, 2, 4, 1] 3 [(-8), 8, 5, 5, 8, 0] [0, 2, 1, 4, 3, 0] [0, 0, 1, 0, 0, 0]

def cycq154 : MM :=
  MM.mk 5 6 [1, 2, 2, 3, 3, 4, 4, 5, 5, 1] [[], [6, 14], [6, 8], [8, 10], [10, 12], [12, 14]] [(5, 12), (5, 14), (3, 8), (3, 10), (2, 6), (2, 8), (4, 10), (4, 12), (1, 6), (1, 14)] [5, 3, 2, 4, 1] 3 [(-8), 8, 5, 5, 8, 0] [0, 2, 1, 4, 3, 0] [0, 0, 0, 0, 0, 0]

def cycq163 : MM :=
  MM.mk 5 6 [1, 2, 2, 3, 3, 4, 4, 5, 5, 1] [[], [6, 14], [6, 8], [8, 10], [10, 12], [12, 14]] [(5, 12), (5, 14), (3, 8), (3, 10), (2, 6), (2, 8), (4, 10), (4, 12), (1, 6), (1, 14)] [5, 3, 2, 4, 1] 4 [(-8), 8, 5, 5, 8, 0] [0, 2, 1, 4, 3, 0] [0, 0, 0, 0, 0, 0]

def cycq174 : MM :=
  MM.mk 5 6 [1, 2, 2, 3, 3, 4, 4, 5, 5, 1] [[], [6, 14], [6, 8], [8, 10], [10, 12], [12, 14]] [(5, 12), (5, 14), (3, 8), (3, 10), (2, 6), (2, 8), (4, 10), (4, 12), (1, 6), (1, 14)] [5, 3, 2, 4, 1] 5 [(-8), 8, 5, 5, 8, 0] [0, 2, 1, 4, 3, 0] [0, 0, 0, 0, 0, 0]

def cycq185 : MM :=
  MM.mk 5 6 [1, 2, 2, 3, 3, 4, 4, 5, 5, 1] [[], [6, 14], [6, 8], [8, 10], [10, 12], [12, 14]] [(5, 12), (5, 14), (3, 8), (3, 10), (2, 6), (2, 8), (4, 10), (4, 12), (1, 6), (1, 14)] [5, 3, 2, 4, 1] 6 [(-8), 8, 5, 5, 8, 0] [0, 2, 1, 4, 3, 0] [0, 0, 0, 0, 0, 0]

def cycq196 : MM :=
  MM.mk 5 6 [1, 2, 2, 3, 3, 4, 4, 5, 5, 1] [[], [6, 14], [6, 8], [8, 10], [10, 12], [12, 14]] [(5, 12), (5, 14), (3, 8), (3, 10), (2, 6), (2, 8), (4, 10), (4, 12), (1, 6), (1, 14)] [5, 3, 2, 4, 1] 7 [(-8), 8, 5, 5, 8, 0] [0, 2, 1, 4, 3, 0] [0, 0, 0, 0, 0, 0]

def cycq207 : MM :=
  MM.mk 5 6 [1, 2, 2, 3, 3, 4, 4, 5, 5, 1] [[], [6, 14], [6, 8], [8, 10], [10, 12], [12, 14]] [(5, 12), (5, 14), (3, 8), (3, 10), (2, 6), (2, 8), (4, 10), (4, 12), (1, 6), (1, 14)] [5, 3, 2, 4, 1] 8 [(-8), 8, 5, 5, 8, 0] [0, 2, 1, 4, 3, 0] [0, 0, 0, 0, 0, 0]

def cycq218 : MM :=
  MM.mk 5 6 [1, 2, 2, 3, 3, 4, 4, 5, 5, 1] [[], [6, 14], [6, 8], [8, 10], [10, 12], [12, 14]] [(5, 12), (5, 14), (3, 8), (3, 10), (2, 6), (2, 8), (4, 10), (4, 12), (1, 6), (1, 14)] [5, 3, 2, 4, 1] 9 [(-8), 8, 5, 5, 8, 0] [0, 2, 1, 4, 3, 0] [0, 0, 0, 0, 0, 0]

def cycq229 : MM :=
  MM.mk 5 6 [1, 2, 2, 3, 3, 4, 4, 5, 5, 1] [[], [6, 14], [6, 8], [8, 10], [10, 12], [12, 14]] [(5, 12), (5, 14), (3, 8), (3, 10), (2, 6), (2, 8), (4, 10), (4, 12), (1, 6), (1, 14)] [5, 3, 2, 4, 1] 10 [(-8), 8, 5, 5, 8, 0] [0, 2, 1, 4, 3, 0] [0, 0, 0, 0, 0, 0]

def cycq241 : MM :=
  MM.mk 5 6 [1, 2, 2, 3, 3, 4, 4, 5, 5, 1] [[], [6, 14], [6, 8], [8, 10], [10, 12], [12, 14]] [(5, 12), (5, 14), (3, 8), (3, 10), (2, 6), (2, 8), (4, 10), (4, 12), (1, 6), (1, 14)] [5, 3, 2, 4, 1] 10 [(-1), 8, 5, 5, 8, 0] [0, 2, 1, 4, 3, 0] [0, 0, 0, 0, 0, 0]

def cycq243 : MM :=
  MM.mk 5 6 [1, 2, 2, 3, 3, 4, 4, 5, 5, 1] [[], [6, 14], [6, 8], [8, 10], [10, 12], [12, 14]] [(5, 12), (5, 14), (3, 8), (3, 10), (2, 6), (2, 8), (4, 10), (4, 12), (1, 6), (1, 14)] [5, 3, 2, 4, 1] 10 [(-1), 8, 5, 5, 8, (-1)] [0, 2, 1, 4, 3, 0] [0, 0, 0, 0, 0, 0]

def cycq246 : MM :=
  MM.mk 5 6 [1, 2, 2, 3, 3, 4, 4, 5, 5, 1] [[], [6, 14], [6, 8], [8, 10], [10, 12], [12, 14]] [(5, 12), (5, 14), (3, 8), (3, 10), (2, 6), (2, 8), (4, 10), (4, 12), (1, 6), (1, 14)] [5, 3, 2, 4, 1] 10 [(-1), 8, 5, 5, 8, (-1)] [0, 2, 1, 4, 3, 0] [0, 0, 0, 0, 0, 0]

def cycq248 : MM :=
  MM.mk 5 6 [1, 2, 2, 3, 3, 4, 4, 5, 5, 1] [[], [6, 14], [6, 8], [8, 10], [10, 12], [12, 14]] [(5, 12), (5, 14), (3, 8), (3, 10), (2, 6), (2, 8), (4, 10), (4, 12), (1, 6), (1, 14)] [5, 3, 2, 4, 1] 10 [(-1), 8, 5, (-1), 8, (-1)] [0, 2, 1, 4, 3, 0] [0, 0, 0, 0, 0, 0]

def cycq251 : MM :=
  MM.mk 5 6 [1, 2, 2, 3, 3, 4, 4, 5, 5, 1] [[], [6, 14], [6, 8], [8, 10], [10, 12], [12, 14]] [(5, 12), (5, 14), (3, 8), (3, 10), (2, 6), (2, 8), (4, 10), (4, 12), (1, 6), (1, 14)] [5, 3, 2, 4, 1] 10 [(-1), 8, 5, (-1), (-1), (-1)] [0, 2, 1, 4, 3, 0] [0, 0, 0, 0, 0, 0]

def cycq253 : MM :=
  MM.mk 5 6 [1, 2, 2, 3, 3, 4, 4, 5, 5, 1] [[], [6, 14], [6, 8], [8, 10], [10, 12], [12, 14]] [(5, 12), (5, 14), (3, 8), (3, 10), (2, 6), (2, 8), (4, 10), (4, 12), (1, 6), (1, 14)] [5, 3, 2, 4, 1] 10 [(-1), 8, (-1), (-1), (-1), (-1)] [0, 2, 1, 4, 3, 0] [0, 0, 0, 0, 0, 0]

def cycq256 : MM :=
  MM.mk 5 6 [1, 2, 2, 3, 3, 4, 4, 5, 5, 1] [[], [6, 14], [6, 8], [8, 10], [10, 12], [12, 14]] [(5, 12), (5, 14), (3, 8), (3, 10), (2, 6), (2, 8), (4, 10), (4, 12), (1, 6), (1, 14)] [5, 3, 2, 4, 1] 10 [(-1), (-1), (-1), (-1), (-1), (-1)] [0, 2, 1, 4, 3, 0] [0, 0, 0, 0, 0, 0]

def cycq258 : MM :=
  MM.mk 5 6 [1, 2, 2, 3, 3, 4, 4, 5, 5, 1] [[], [6, 14], [6, 8], [8, 10], [10, 12], [12, 14]] [(5, 12), (5, 14), (3, 8), (3, 10), (2, 6), (2, 8), (4, 10), (4, 12), (1, 6), (1, 14)] [5, 3, 2, 4, 1] 10 [(-1), (-1), (-1), (-1), (-1), (-1)] [0, 2, 1, 4, 3, 0] [0, 0, 0, 0, 0, 0]

def cycq261 : MM :=
  MM.mk 5 6 [1, 2, 2, 3, 3, 4, 4, 5, 5, 1] [[], [6, 14], [6, 8], [8, 10], [10, 12], [12, 14]] [(5, 12), (5, 14), (3, 8), (3, 10), (2, 6), (2, 8), (4, 10), (4, 12), (1, 6), (1, 14)] [5, 3, 2, 4, 1] 10 [(-1), (-1), (-1), (-1), (-1), (-1)] [0, 2, 1, 4, 3, 0] [0, 0, 0, 0, 0, 0]

def cycq263 : MM :=
  MM.mk 5 6 [1, 2, 2, 3, 3, 4, 4, 5, 5, 1] [[], [6, 14], [6, 8], [8, 10], [10, 12], [12, 14]] [(5, 12), (5, 14), (3, 8), (3, 10), (2, 6), (2, 8), (4, 10), (4, 12), (1, 6), (1, 14)] [5, 3, 2, 4, 1] 10 [(-1), (-1), (-1), (-1), (-1), (-1)] [0, 2, 1, 4, 3, 0] [0, 0, 0, 0, 0, 0]

def cycq266 : MM :=
  MM.mk 5 6 [1, 2, 2, 3, 3, 4, 4, 5, 5, 1] [[], [6, 14], [6, 8], [8, 10], [10, 12], [12, 14]] [(5, 12), (5, 14), (3, 8), (3, 10), (2, 6), (2, 8), (4, 10), (4, 12), (1, 6), (1, 14)] [5, 3, 2, 4, 1] 10 [(-1), (-1), (-1), (-1), (-1), (-1)] [0, 2, 1, 4, 3, 0] [0, 0, 0, 0, 0, 0]

def cycq269 : MM :=
  MM.mk 5 6 [1, 2, 2, 3, 3, 4, 4, 5, 5, 1] [[], [6, 14], [6, 8], [8, 10], [10, 12], [12, 14]] [] [] 0 [(-1), (-1), (-1), (-1), (-1), (-1)] [0, 2, 1, 4, 3, 0] [0, 0, 0, 0, 0, 0]

def eAq0 : MM :=
  MM.mk 5 6 [1, 2] [[], [6], [6], [], [], []] [] [] 0 [(-1), (-1), (-1), (-1), (-1), (-1)] [0, 0, 0, 0, 0, 0] [0, 0, 0, 0, 0, 0]

def eAq2 : MM :=
  MM.mk 5 6 [1, 2, 3, 4] [[], [6], [6], [8], [8], []] [] [] 0 [(-1), (-1), (-1), (-1), (-1), (-1)] [0, 0, 0, 0, 0, 0] [0, 0, 0, 0, 0, 0]

def eAq4 : MM :=
  MM.mk 5 6 [1, 2, 3, 4, 5, 1] [[], [6, 10], [6], [8], [8], [10]] [] [] 0 [(-1), (-1), (-1), (-1), (-1), (-1)] [0, 0, 0, 0, 0, 0] [0, 0, 0, 0, 0, 0]

def eAq6 : MM :=
  MM.mk 5 6 [1, 2, 3, 4, 5, 1, 5, 3] [[], [6, 10], [6], [8, 12], [8], [10, 12]] [] [] 0 [(-1), (-1), (-1), (-1), (-1), (-1)] [0, 0, 0, 0, 0, 0] [0, 0, 0, 0, 0, 0]

def eAq8 : MM :=
  MM.mk 5 6 [1, 2, 3, 4, 5, 1, 5, 3, 5, 4] [[], [6, 10], [6], [8, 12], [8, 14], [10, 12, 14]] [] [] 0 [(-1), (-1), (-1), (-1), (-1), (-1)] [0, 0, 0, 0, 0, 0] [0, 0, 0, 0, 0, 0]

def eAq10 : MM :=
  MM.mk 5 6 [1, 2, 3, 4, 5, 1, 5, 3, 5, 4, 2, 3] [[], [6, 10], [6, 16], [8, 12, 16], [8, 14], [10, 12, 14]] [] [] 0 [(-1), (-1), (-1), (-1), (-1), (-1)] [0, 0, 0, 0, 0, 0] [0, 0, 0, 0, 0, 0]

def eAq15 : MM :=
  MM.mk 5 6 [1, 2, 3, 4, 5, 1, 5, 3, 5, 4, 2, 3] [[], [6, 10], [6, 16], [8, 12, 16], [8, 14], [10, 12, 14]] [(1, 6), (1, 10)] [1] 0 [(-1), 0, (-1), (-1), (-1), (-1)] [0, 0, 0, 0, 0, 0] [0, 0, 0, 0, 0, 0]

def eAq17 : MM :=
  MM.mk 5 6 [1, 2, 3, 4, 5, 1, 5, 3, 5, 4, 2, 3] [[], [6, 10], [6, 16], [8, 12, 16], [8, 14], [10, 12, 14]] [(1, 6), (1, 10)] [1] 0 [(-1), 0, (-1), (-1), (-1), (-1)] [0, 0, 0, 0, 0, 0] [0, 0, 0, 0, 0, 0]

def eAq19 : MM :=
  MM.mk 5 6 [1, 2, 3, 4, 5, 1, 5, 3, 5, 4, 2, 3] [[], [6, 10], [6, 16], [8, 12, 16], [8, 14], [10, 12, 14]] [(1, 6), (1, 10)] [1] 1 [(-1), 0, (-1), (-1), (-1), (-1)] [0, 0, 0, 0, 0, 0] [0, 0, 0, 0, 0, 0]

def eAq25 : MM :=
  MM.mk 5 6 [1, 2, 3, 4, 5, 1, 5, 3, 5, 4, 2, 3] [[], [6, 10], [6, 16], [8, 12, 16], [8, 14], [10, 12, 14]] [(1, 6), (1, 10)] [1] 1 [(-1), 0, (-1), (-1), (-1), (-1)] [0, 0, 1, 0, 0, 0] [0, 0, 0, 0, 0, 0]

def eAq27 : MM :=
  MM.mk 5 6 [1, 2, 3, 4, 5, 1, 5, 3, 5, 4, 2, 3] [[], [6, 10], [6, 16], [8, 12, 16], [8, 14], [10, 12, 14]] [(1, 6), (1, 10)] [1] 1 [(-1), 0, (-1), (-1), (-1), (-1)] [0, 2, 1, 0, 0, 0] [0, 0, 0, 0, 0, 0]

def eAq29 : MM :=
  MM.mk 5 6 [1, 2, 3, 4, 5, 1, 5, 3, 5, 4, 2, 3] [[], [6, 10], [6, 16], [8, 12, 16], [8, 14], [10, 12, 14]] [(1, 6), (1, 10)] [1] 1 [(-1), 0, (-1), (-1), (-1), (-1)] [0, 2, 1, 0, 0, 0] [0, 0, 0, 0, 0, 0]

def eAq31 : MM :=
  MM.mk 5 6 [1, 2, 3, 4, 5, 1, 5, 3, 5, 4, 2, 3] [[], [6, 10], [6, 16], [8, 12, 16], [8, 14], [10, 12, 14]] [(1, 6), (1, 10)] [1] 1 [(-1), (-1), (-1), (-1), (-1), (-1)] [0, 2, 1, 0, 0, 0] [0, 0, 0, 0, 0, 0]

def eAq34 : MM :=
  MM.mk 5 6 [1, 2, 3, 4, 5, 1, 5, 3, 5, 4, 2, 3] [[], [6, 10], [6, 16], [8, 12, 16], [8, 14], [10, 12, 14]] [(1, 6), (1, 10)] [1] 1 [(-1), (-1), (-1), (-1), (-1), (-1)] [0, 2, 1, 0, 0, 0] [0, 0, 0, 0, 0, 0]

def eAq37 : MM :=
  MM.mk 5 6 [1, 2, 3, 4, 5, 1, 5, 3, 5, 4, 2, 3] [[], [6, 10], [6, 16], [8, 12, 16], [8, 14], [10, 12, 14]] [] [] 0 [(-1), (-1), (-1), (-1), (-1), (-1)] [0, 2, 1, 0, 0, 0] [0, 0, 0, 0, 0, 0]

def eAq46 : MM :=
  MM.mk 5 6 [1, 2, 3, 4, 5, 1, 5, 3, 5, 4, 2, 3] [[], [6, 10], [6, 16], [8, 12, 16], [8, 14], [10, 12, 14]] [(3, 8), (3, 12), (3, 16)] [3] 0 [(-1), (-1), (-1), 0, (-1), (-1)] [0, 2, 1, 0, 0, 0] [0, 0, 0, 0, 0, 0]

def eAq48 : MM :=
  MM.mk 5 6 [1, 2, 3, 4, 5, 1, 5, 3, 5, 4, 2, 3] [[], [6, 10], [6, 16], [8, 12, 16], [8, 14], [10, 12, 14]] [(3, 8), (3, 12), (3, 16)] [3] 0 [(-1), (-1), (-1), 0, (-1), (-1)] [0, 2, 1, 0, 0, 0] [0, 0, 0, 0, 0, 0]

def eAq50 : MM :=
  MM.mk 5 6 [1, 2, 3, 4, 5, 1, 5, 3, 5, 4, 2, 3] [[], [6, 10], [6, 16], [8, 12, 16], [8, 14], [10, 12, 14]] [(3, 8), (3, 12), (3, 16)] [3] 1 [(-1), (-1), (-1), 0, (-1), (-1)] [0, 2, 1, 0, 0, 0] [0, 0, 0, 0, 0, 0]

def eAq56 : MM :=
  MM.mk 5 6 [1, 2, 3, 4, 5, 1, 5, 3, 5, 4, 2, 3] [[], [6, 10], [6, 16], [8, 12, 16], [8, 14], [10, 12, 14]] [(3, 8), (3, 12), (3, 16)] [3] 1 [(-1), (-1), (-1), 0, (-1), (-1)] [0, 2, 1, 0, 3, 0] [0, 0, 0, 0, 0, 0]

def eAq58 : MM :=
  MM.mk 5 6 [1, 2, 3, 4, 5, 1, 5, 3, 5, 4, 2, 3] [[], [6, 10], [6, 16], [8, 12, 16], [8, 14], [10, 12, 14]] [(3, 8), (3, 12), (3, 16)] [3] 1 [(-1), (-1), (-1), 0, (-1), (-1)] [0, 2, 1, 4, 3, 0] [0, 0, 0, 0, 0, 0]

def eAq60 : MM :=
  MM.mk 5 6 [1, 2, 3, 4, 5, 1, 5, 3, 5, 4, 2, 3] [[], [6, 10], [6, 16], [8, 12, 16], [8, 14], [10, 12, 14]] [(3, 8), (3, 12), (3, 16)] [3] 1 [(-1), (-1), (-1), 0, (-1), (-1)] [0, 2, 1, 4, 3, 0] [0, 0, 0, 0, 0, 0]

def eAq62 : MM :=
  MM.mk 5 6 [1, 2, 3, 4, 5, 1, 5, 3, 5, 4, 2, 3] [[], [6, 10], [6, 16], [8, 12, 16], [8, 14], [10, 12, 14]] [(3, 8), (3, 12), (3, 16)] [3] 1 [(-1), (-1), (-1), (-1), (-1), (-1)] [0, 2, 1, 4, 3, 0] [0, 0, 0, 0, 0, 0]

def eAq65 : MM :=
  MM.mk 5 6 [1, 2, 3, 4, 5, 1, 5, 3, 5, 4, 2, 3] [[], [6, 10], [6, 16], [8, 12, 16], [8, 14], [10, 12, 14]] [(3, 8), (3, 12), (3, 16)] [3] 1 [(-1), (-1), (-1), (-1), (-1), (-1)] [0, 2, 1, 4, 3, 0] [0, 0, 0, 0, 0, 0]

def eAq68 : MM :=
  MM.mk 5 6 [1, 2, 3, 4, 5, 1, 5, 3, 5, 4, 2, 3] [[], [6, 10], [6, 16], [8, 12, 16], [8, 14], [10, 12, 14]] [] [] 0 [(-1), (-1), (-1), (-1), (-1), (-1)] [0, 2, 1, 4, 3, 0] [0, 0, 0, 0, 0, 0]

def eAq77 : MM :=
  MM.mk 5 6 [1, 2, 3, 4, 5, 1, 5, 3, 5, 4, 2, 3] [[], [6, 10], [6, 16], [8, 12, 16], [8, 14], [10, 12, 14]] [(5, 10), (5, 12), (5, 14)] [5] 0 [(-1), (-1), (-1), (-1), (-1), 0] [0, 2, 1, 4, 3, 0] [0, 0, 0, 0, 0, 0]

def eAq79 : MM :=
  MM.mk 5 6 [1, 2, 3, 4, 5, 1, 5, 3, 5, 4, 2, 3] [[], [6, 10], [6, 16], [8, 12, 16], [8, 14], [10, 12, 14]] [(5, 10), (5, 12), (5, 14)] [5] 0 [(-1), (-1), (-1), (-1), (-1), 0] [0, 2, 1, 4, 3, 0] [0, 0, 0, 0, 0, 0]

def eAq81 : MM :=
  MM.mk 5 6 [1, 2, 3, 4, 5, 1, 5, 3, 5, 4, 2, 3] [[], [6, 10], [6, 16], [8, 12, 16], [8, 14], [10, 12, 14]] [(5, 10), (5, 12), (5, 14)] [5] 1 [(-1), (-1), (-1), (-1), (-1), 0] [0, 2, 1, 4, 3, 0] [0, 0, 0, 0, 0, 0]

def eAq90 : MM :=
  MM.mk 5 6 [1, 2, 3, 4, 5, 1, 5, 3, 5, 4, 2, 3] [[], [6, 10], [6, 16], [8, 12, 16], [8, 14], [10, 12, 14]] [(5, 10), (5, 12), (5, 14), (2, 6), (2, 16)] [5, 2] 1 [(-1), (-1), 5, (-1), (-1), 0] [0, 2, 1, 4, 3, 0] [0, 0, 0, 0, 0, 0]

def eAq92 : MM :=
  MM.mk 5 6 [1, 2, 3, 4, 5, 1, 5, 3, 5, 4, 2, 3] [[], [6, 10], [6, 16], [8, 12, 16], [8, 14], [10, 12, 14]] [(5, 10), (5, 12), (5, 14), (2, 6), (2, 16)] [5, 2] 1 [(-1), (-1), 5, (-1), (-1), 0] [0, 2, 1, 4, 3, 0] [0, 0, 1, 0, 0, 0]

def eAq95 : MM :=
  MM.mk 5 6 [1, 2, 3, 4, 5, 1, 5, 3, 5, 4, 2, 3] [[], [6, 10], [6, 16], [8, 12, 16], [8, 14], [10, 12, 14]] [(5, 10), (5, 12), (5, 14), (2, 6), (2, 16)] [5, 2] 2 [(-1), (-1), 5, (-1), (-1), 0] [0, 2, 1, 4, 3, 0] [0, 0, 1, 0, 0, 0]

def eAq104 : MM :=
  MM.mk 5 6 [1, 2, 3, 4, 5, 1, 5, 3, 5, 4, 2, 3] [[], [6, 10], [6, 16], [8, 12, 16], [8, 14], [10, 12, 14]] [(5, 10), (5, 12), (5, 14), (2, 6), (2, 16), (4, 8), (4, 14)] [5, 2, 4] 2 [(-1), (-1), 5, (-1), 5, 0] [0, 2, 1, 4, 3, 0] [0, 0, 1, 0, 0, 0]

def eAq106 : MM :=
  MM.mk 5 6 [1, 2, 3, 4, 5, 1, 5, 3, 5, 4, 2, 3] [[], [6, 10], [6, 16], [8, 12, 16], [8, 14], [10, 12, 14]] [(5, 10), (5, 12), (5, 14), (2, 6), (2, 16), (4, 8), (4, 14)] [5, 2, 4] 2 [(-1), (-1), 5, (-1), 5, 0] [0, 2, 1, 4, 3, 0] [0, 0, 1, 0, 3, 0]

def eAq109 : MM :=
  MM.mk 5 6 [1, 2, 3, 4, 5, 1, 5, 3, 5, 4, 2, 3] [[], [6, 10], [6, 16], [8, 12, 16], [8, 14], [10, 12, 14]] [(5, 10), (5, 12), (5, 14), (2, 6), (2, 16), (4, 8), (4, 14)] [5, 2, 4] 3 [(-1), (-1), 5, (-1), 5, 0] [0, 2, 1, 4, 3, 0] [0, 0, 1, 0, 3, 0]

def eAq119 : MM :=
  MM.mk 5 6 [1, 2, 3, 4, 5, 1, 5, 3, 5, 4, 2, 3] [[], [6, 10], [6, 16], [8, 12, 16], [8, 14], [10, 12, 14]] [(5, 10), (5, 12), (5, 14), (2, 6), (2, 16), (4, 8), (4, 14)] [5, 2, 4] 3 [(-14), (-1), 5, (-1), 5, 0] [0, 2, 1, 4, 3, 0] [0, 0, 1, 0, 3, 0]

def eAq121 : MM :=
  MM.mk 5 6 [1, 2, 3, 4, 5, 1, 5, 3, 5, 4, 2, 3] [[], [6, 10], [6, 16], [8, 12, 16], [8, 14], [10, 12, 14]] [(5, 10), (5, 12), (5, 14), (2, 6), (2, 16), (4, 8), (4, 14)] [5, 2, 4] 3 [(-14), (-1), 5, (-1), 5, 0] [0, 2, 1, 4, 3, 0] [0, 0, 1, 0, 3, 0]

def eAq125 : MM :=
  MM.mk 5 6 [1, 2, 3, 4, 5, 1, 5, 3, 5, 4, 2, 3] [[], [6, 10], [6, 16], [8, 12, 16], [8, 14], [10, 12, 14]] [(5, 10), (5, 12), (5, 14), (2, 6), (2, 16), (4, 8), (4, 14)] [5, 2, 4] 3 [(-14), (-1), 5, (-1), 5, 0] [0, 2, 1, 4, 3, 0] [0, 0, 1, 0, 3, 0]

def eAq127 : MM :=
  MM.mk 5 6 [1, 2, 3, 4, 5, 1, 5, 3, 5, 4, 2, 3] [[], [6, 10], [6, 16], [8, 12, 16], [8, 14], [10, 12, 14]] [(5, 10), (5, 12), (5, 14), (2, 6), (2, 16), (4, 8), (4, 14), (3, 8), (3, 12), (3, 16)] [5, 2, 4, 3] 3 [(-14), (-1), 5, 14, 5, 0] [0, 2, 1, 4, 3, 0] [0, 0, 1, 0, 3, 0]

def eAq135 : MM :=
  MM.mk 5 6 [1, 2, 3, 4, 5, 1, 5, 3, 5, 4, 2, 3] [[], [6, 10], [6, 16], [8, 12, 16], [8, 14], [10, 12, 14]] [(5, 10), (5, 12), (5, 14), (2, 6), (2, 16), (4, 8), (4, 14), (3, 8), (3, 12), (3, 16)] [5, 2, 4, 3] 3 [(-14), (-1), 5, 14, 5, 0] [0, 2, 1, 4, 3, 0] [0, 0, 1, 0, 0, 0]

def eAq142 : MM :=
  MM.mk 5 6 [1, 2, 3, 4, 5, 1, 5, 3, 5, 4, 2, 3] [[], [6, 10], [6, 16], [8, 12, 16], [8, 14], [10, 12, 14]] [(5, 10), (5, 12), (5, 14), (2, 6), (2, 16), (4, 8), (4, 14), (3, 8), (3, 12), (3, 16)] [5, 2, 4, 3] 4 [(-14), (-1), 5, 14, 5, 0] [0, 2, 1, 4, 3, 0] [0, 0, 1, 0, 0, 0]

def eAq152 : MM :=
  MM.mk 5 6 [1, 2, 3, 4, 5, 1, 5, 3, 5, 4, 2, 3] [[], [6, 10], [6, 16], [8, 12, 16], [8, 14], [10, 12, 14]] [(5, 10), (5, 12), (5, 14), (2, 6), (2, 16), (4, 8), (4, 14), (3, 8), (3, 12), (3, 16)] [5, 2, 4, 3] 5 [(-14), (-1), 5, 14, 5, 0] [0, 2, 1, 4, 3, 0] [0, 0, 1, 0, 0, 0]

def eAq162 : MM :=
  MM.mk 5 6 [1, 2, 3, 4, 5, 1, 5, 3, 5, 4, 2, 3] [[], [6, 10], [6, 16], [8, 12, 16], [8, 14], [10, 12, 14]] [(5, 10), (5, 12), (5, 14), (2, 6), (2, 16), (4, 8), (4, 14), (3, 8), (3, 12), (3, 16)] [5, 2, 4, 3] 5 [(-14), (-16), 5, 14, 5, 0] [0, 2, 1, 4, 3, 0] [0, 0, 1, 0, 0, 0]

def eAq164 : MM :=
  MM.mk 5 6 [1, 2, 3, 4, 5, 1, 5, 3, 5, 4, 2, 3] [[], [6, 10], [6, 16], [8, 12, 16], [8, 14], [10, 12, 14]] [(5, 10), (5, 12), (5, 14), (2, 6), (2, 16), (4, 8), (4, 14), (3, 8), (3, 12), (3, 16)] [5, 2, 4, 3] 5 [(-16), (-16), 5, 14, 5, 0] [0, 2, 1, 4, 3, 0] [0, 0, 1, 0, 0, 0]

def eBq0 : MM :=
  MM.mk 5 6 [2, 3] [[], [], [6], [6], [], []] [] [] 0 [(-1), (-1), (-1), (-1), (-1), (-1)] [0, 0, 0, 0, 0, 0] [0, 0, 0, 0, 0, 0]

def eBq2 : MM :=
  MM.mk 5 6 [2, 3, 5, 4] [[], [], [6], [6], [8], [8]] [] [] 0 [(-1), (-1), (-1), (-1), (-1), (-1)] [0, 0, 0, 0, 0, 0] [0, 0, 0, 0, 0, 0]

def eBq4 : MM :=
  MM.mk 5 6 [2, 3, 5, 4, 5, 3] [[], [], [6], [6, 10], [8], [8, 10]] [] [] 0 [(-1), (-1), (-1), (-1), (-1), (-1)] [0, 0, 0, 0, 0, 0] [0, 0, 0, 0, 0, 0]

def eBq6 : MM :=
  MM.mk 5 6 [2, 3, 5, 4, 5, 3, 5, 1] [[], [12], [6], [6, 10], [8], [8, 10, 12]] [] [] 0 [(-1), (-1), (-1), (-1), (-1), (-1)] [0, 0, 0, 0, 0, 0] [0, 0, 0, 0, 0, 0]

def eBq8 : MM :=
  MM.mk 5 6 [2, 3, 5, 4, 5, 3, 5, 1, 3, 4] [[], [12], [6], [6, 10, 14], [8, 14], [8, 10, 12]] [] [] 0 [(-1), (-1), (-1), (-1), (-1), (-1)] [0, 0, 0, 0, 0, 0] [0, 0, 0, 0, 0, 0]

def eBq10 : MM :=
  MM.mk 5 6 [2, 3, 5, 4, 5, 3, 5, 1, 3, 4, 1, 2] [[], [12, 16], [6, 16], [6, 10, 14], [8, 14], [8, 10, 12]] [] [] 0 [(-1), (-1), (-1), (-1), (-1), (-1)] [0, 0, 0, 0, 0, 0] [0, 0, 0, 0, 0, 0]

def eBq15 : MM :=
  MM.mk 5 6 [2, 3, 5, 4, 5, 3, 5, 1, 3, 4, 1, 2] [[], [12, 16], [6, 16], [6, 10, 14], [8, 14], [8, 10, 12]] [(1, 12), (1, 16)] [1] 0 [(-1), 0, (-1), (-1), (-1), (-1)] [0, 0, 0, 0, 0, 0] [0, 0, 0, 0, 0, 0]

def eBq17 : MM :=
  MM.mk 5 6 [2, 3, 5, 4, 5, 3, 5, 1, 3, 4, 1, 2] [[], [12, 16], [6, 16], [6, 10, 14], [8, 14], [8, 10, 12]] [(1, 12), (1, 16)] [1] 0 [(-1), 0, (-1), (-1), (-1), (-1)] [0, 0, 0, 0, 0, 0] [0, 0, 0, 0, 0, 0]

def eBq19 : MM :=
  MM.mk 5 6 [2, 3, 5, 4, 5, 3, 5, 1, 3, 4, 1, 2] [[], [12, 16], [6, 16], [6, 10, 14], [8, 14], [8, 10, 12]] [(1, 12), (1, 16)] [1] 1 [(-1), 0, (-1), (-1), (-1), (-1)] [0, 0, 0, 0, 0, 0] [0, 0, 0, 0, 0, 0]

def eBq25 : MM :=
  MM.mk 5 6 [2, 3, 5, 4, 5, 3, 5, 1, 3, 4, 1, 2] [[], [12, 16], [6, 16], [6, 10, 14], [8, 14], [8, 10, 12]] [(1, 12), (1, 16)] [1] 1 [(-1), 0, (-1), (-1), (-1), (-1)] [0, 0, 0, 0, 0, 1] [0, 0, 0, 0, 0, 0]

def eBq27 : MM :=
  MM.mk 5 6 [2, 3, 5, 4, 5, 3, 5, 1, 3, 4, 1, 2] [[], [12, 16], [6, 16], [6, 10, 14], [8, 14], [8, 10, 12]] [(1, 12), (1, 16)] [1] 1 [(-1), 0, (-1), (-1), (-1), (-1)] [0, 5, 0, 0, 0, 1] [0, 0, 0, 0, 0, 0]

def eBq29 : MM :=
  MM.mk 5 6 [2, 3, 5, 4, 5, 3, 5, 1, 3, 4, 1, 2] [[], [12, 16], [6, 16], [6, 10, 14], [8, 14], [8, 10, 12]] [(1, 12), (1, 16)] [1] 1 [(-1), 0, (-1), (-1), (-1), (-1)] [0, 5, 0, 0, 0, 1] [0, 0, 0, 0, 0, 0]

def eBq31 : MM :=
  MM.mk 5 6 [2, 3, 5, 4, 5, 3, 5, 1, 3, 4, 1, 2] [[], [12, 16], [6, 16], [6, 10, 14], [8, 14], [8, 10, 12]] [(1, 12), (1, 16)] [1] 1 [(-1), (-1), (-1), (-1), (-1), (-1)] [0, 5, 0, 0, 0, 1] [0, 0, 0, 0, 0, 0]

def eBq34 : MM :=
  MM.mk 5 6 [2, 3, 5, 4, 5, 3, 5, 1, 3, 4, 1, 2] [[], [12, 16], [6, 16], [6, 10, 14], [8, 14], [8, 10, 12]] [(1, 12), (1, 16)] [1] 1 [(-1), (-1), (-1), (-1), (-1), (-1)] [0, 5, 0, 0, 0, 1] [0, 0, 0, 0, 0, 0]

def eBq37 : MM :=
  MM.mk 5 6 [2, 3, 5, 4, 5, 3, 5, 1, 3, 4, 1, 2] [[], [12, 16], [6, 16], [6, 10, 14], [8, 14], [8, 10, 12]] [] [] 0 [(-1), (-1), (-1), (-1), (-1), (-1)] [0, 5, 0, 0, 0, 1] [0, 0, 0, 0, 0, 0]

def eBq44 : MM :=
  MM.mk 5 6 [2, 3, 5, 4, 5, 3, 5, 1, 3, 4, 1, 2] [[], [12, 16], [6, 16], [6, 10, 14], [8, 14], [8, 10, 12]] [(2, 6), (2, 16)] [2] 0 [(-1), (-1), 0, (-1), (-1), (-1)] [0, 5, 0, 0, 0, 1] [0, 0, 0, 0, 0, 0]

def eBq46 : MM :=
  MM.mk 5 6 [2, 3, 5, 4, 5, 3, 5, 1, 3, 4, 1, 2] [[], [12, 16], [6, 16], [6, 10, 14], [8, 14], [8, 10, 12]] [(2, 6), (2, 16)] [2] 0 [(-1), (-1), 0, (-1), (-1), (-1)] [0, 5, 0, 0, 0, 1] [0, 0, 0, 0, 0, 0]

def eBq48 : MM :=
  MM.mk 5 6 [2, 3, 5, 4, 5, 3, 5, 1, 3, 4, 1, 2] [[], [12, 16], [6, 16], [6, 10, 14], [8, 14], [8, 10, 12]] [(2, 6), (2, 16)] [2] 1 [(-1), (-1), 0, (-1), (-1), (-1)] [0, 5, 0, 0, 0, 1] [0, 0, 0, 0, 0, 0]

def eBq54 : MM :=
  MM.mk 5 6 [2, 3, 5, 4, 5, 3, 5, 1, 3, 4, 1, 2] [[], [12, 16], [6, 16], [6, 10, 14], [8, 14], [8, 10, 12]] [(2, 6), (2, 16)] [2] 1 [(-1), (-1), 0, (-1), (-1), (-1)] [0, 5, 0, 2, 0, 1] [0, 0, 0, 0, 0, 0]

def eBq56 : MM :=
  MM.mk 5 6 [2, 3, 5, 4, 5, 3, 5, 1, 3, 4, 1, 2] [[], [12, 16], [6, 16], [6, 10, 14], [8, 14], [8, 10, 12]] [(2, 6), (2, 16)] [2] 1 [(-1), (-1), 0, (-1), (-1), (-1)] [0, 5, 3, 2, 0, 1] [0, 0, 0, 0, 0, 0]

def eBq58 : MM :=
  MM.mk 5 6 [2, 3, 5, 4, 5, 3, 5, 1, 3, 4, 1, 2] [[], [12, 16], [6, 16], [6, 10, 14], [8, 14], [8, 10, 12]] [(2, 6), (2, 16)] [2] 1 [(-1), (-1), 0, (-1), (-1), (-1)] [0, 5, 3, 2, 0, 1] [0, 0, 0, 0, 0, 0]

def eBq60 : MM :=
  MM.mk 5 6 [2, 3, 5, 4, 5, 3, 5, 1, 3, 4, 1, 2] [[], [12, 16], [6, 16], [6, 10, 14], [8, 14], [8, 10, 12]] [(2, 6), (2, 16)] [2] 1 [(-1), (-1), (-1), (-1), (-1), (-1)] [0, 5, 3, 2, 0, 1] [0, 0, 0, 0, 0, 0]

def eBq63 : MM :=
  MM.mk 5 6 [2, 3, 5, 4, 5, 3, 5, 1, 3, 4, 1, 2] [[], [12, 16], [6, 16], [6, 10, 14], [8, 14], [8, 10, 12]] [(2, 6), (2, 16)] [2] 1 [(-1), (-1), (-1), (-1), (-1), (-1)] [0, 5, 3, 2, 0, 1] [0, 0, 0, 0, 0, 0]

def eBq66 : MM :=
  MM.mk 5 6 [2, 3, 5, 4, 5, 3, 5, 1, 3, 4, 1, 2] [[], [12, 16], [6, 16], [6, 10, 14], [8, 14], [8, 10, 12]] [] [] 0 [(-1), (-1), (-1), (-1), (-1), (-1)] [0, 5, 3, 2, 0, 1] [0, 0, 0, 0, 0, 0]

def eBq75 : MM :=
  MM.mk 5 6 [2, 3, 5, 4, 5, 3, 5, 1, 3, 4, 1, 2] [[], [12, 16], [6, 16], [6, 10, 14], [8, 14], [8, 10, 12]] [(4, 8), (4, 14)] [4] 0 [(-1), (-1), (-1), (-1), 0, (-1)] [0, 5, 3, 2, 0, 1] [0, 0, 0, 0, 0, 0]

def eBq77 : MM :=
  MM.mk 5 6 [2, 3, 5, 4, 5, 3, 5, 1, 3, 4, 1, 2] [[], [12, 16], [6, 16], [6, 10, 14], [8, 14], [8, 10, 12]] [(4, 8), (4, 14)] [4] 0 [(-1), (-1), (-1), (-1), 0, (-1)] [0, 5, 3, 2, 0, 1] [0, 0, 0, 0, 0, 0]

def eBq79 : MM :=
  MM.mk 5 6 [2, 3, 5, 4, 5, 3, 5, 1, 3, 4, 1, 2] [[], [12, 16], [6, 16], [6, 10, 14], [8, 14], [8, 10, 12]] [(4, 8), (4, 14)] [4] 1 [(-1), (-1), (-1), (-1), 0, (-1)] [0, 5, 3, 2, 0, 1] [0, 0, 0, 0, 0, 0]

def eBq88 : MM :=
  MM.mk 5 6 [2, 3, 5, 4, 5, 3, 5, 1, 3, 4, 1, 2] [[], [12, 16], [6, 16], [6, 10, 14], [8, 14], [8, 10, 12]] [(4, 8), (4, 14), (1, 12), (1, 16)] [4, 1] 1 [(-1), 4, (-1), (-1), 0, (-1)] [0, 5, 3, 2, 0, 1] [0, 0, 0, 0, 0, 0]

def eBq90 : MM :=
  MM.mk 5 6 [2, 3, 5, 4, 5, 3, 5, 1, 3, 4, 1, 2] [[], [12, 16], [6, 16], [6, 10, 14], [8, 14], [8, 10, 12]] [(4, 8), (4, 14), (1, 12), (1, 16)] [4, 1] 1 [(-1), 4, (-1), (-1), 0, (-1)] [0, 5, 3, 2, 0, 1] [0, 5, 0, 0, 0, 0]

def eBq93 : MM :=
  MM.mk 5 6 [2, 3, 5, 4, 5, 3, 5, 1, 3, 4, 1, 2] [[], [12, 16], [6, 16], [6, 10, 14], [8, 14], [8, 10, 12]] [(4, 8), (4, 14), (1, 12), (1, 16)] [4, 1] 2 [(-1), 4, (-1), (-1), 0, (-1)] [0, 5, 3, 2, 0, 1] [0, 5, 0, 0, 0, 0]

def eBq102 : MM :=
  MM.mk 5 6 [2, 3, 5, 4, 5, 3, 5, 1, 3, 4, 1, 2] [[], [12, 16], [6, 16], [6, 10, 14], [8, 14], [8, 10, 12]] [(4, 8), (4, 14), (1, 12), (1, 16), (2, 6), (2, 16)] [4, 1, 2] 2 [(-1), 4, 4, (-1), 0, (-1)] [0, 5, 3, 2, 0, 1] [0, 5, 0, 0, 0, 0]

def eBq104 : MM :=
  MM.mk 5 6 [2, 3, 5, 4, 5, 3, 5, 1, 3, 4, 1, 2] [[], [12, 16], [6, 16], [6, 10, 14], [8, 14], [8, 10, 12]] [(4, 8), (4, 14), (1, 12), (1, 16), (2, 6), (2, 16)] [4, 1, 2] 2 [(-1), 4, 4, (-1), 0, (-1)] [0, 5, 3, 2, 0, 1] [0, 5, 3, 0, 0, 0]

def eBq107 : MM :=
  MM.mk 5 6 [2, 3, 5, 4, 5, 3, 5, 1, 3, 4, 1, 2] [[], [12, 16], [6, 16], [6, 10, 14], [8, 14], [8, 10, 12]] [(4, 8), (4, 14), (1, 12), (1, 16), (2, 6), (2, 16)] [4, 1, 2] 3 [(-1), 4, 4, (-1), 0, (-1)] [0, 5, 3, 2, 0, 1] [0, 5, 3, 0, 0, 0]

def eBq117 : MM :=
  MM.mk 5 6 [2, 3, 5, 4, 5, 3, 5, 1, 3, 4, 1, 2] [[], [12, 16], [6, 16], [6, 10, 14], [8, 14], [8, 10, 12]] [(4, 8), (4, 14), (1, 12), (1, 16), (2, 6), (2, 16)] [4, 1, 2] 4 [(-1), 4, 4, (-1), 0, (-1)] [0, 5, 3, 2, 0, 1] [0, 5, 3, 0, 0, 0]

def eBq127 : MM :=
  MM.mk 5 6 [2, 3, 5, 4, 5, 3, 5, 1, 3, 4, 1, 2] [[], [12, 16], [6, 16], [6, 10, 14], [8, 14], [8, 10, 12]] [(4, 8), (4, 14), (1, 12), (1, 16), (2, 6), (2, 16)] [4, 1, 2] 4 [(-1), 4, 4, (-1), 0, (-16)] [0, 5, 3, 2, 0, 1] [0, 5, 3, 0, 0, 0]

def eBq129 : MM :=
  MM.mk 5 6 [2, 3, 5, 4, 5, 3, 5, 1, 3, 4, 1, 2] [[], [12, 16], [6, 16], [6, 10, 14], [8, 14], [8, 10, 12]] [(4, 8), (4, 14), (1, 12), (1, 16), (2, 6), (2, 16)] [4, 1, 2] 4 [(-16), 4, 4, (-1), 0, (-16)] [0, 5, 3, 2, 0, 1] [0, 5, 3, 0, 0, 0]

def eBq133 : MM :=
  MM.mk 5 6 [2, 3, 5, 4, 5, 3, 5, 1, 3, 4, 1, 2] [[], [12, 16], [6, 16], [6, 10, 14], [8, 14], [8, 10, 12]] [(4, 8), (4, 14), (1, 12), (1, 16), (2, 6), (2, 16), (5, 8), (5, 10), (5, 12)] [4, 1, 2, 5] 4 [(-16), 4, 4, (-1), 0, 16] [0, 5, 3, 2, 0, 1] [0, 5, 3, 0, 0, 0]

def eBq135 : MM :=
  MM.mk 5 6 [2, 3, 5, 4, 5, 3, 5, 1, 3, 4, 1, 2] [[], [12, 16], [6, 16], [6, 10, 14], [8, 14], [8, 10, 12]] [(4, 8), (4, 14), (1, 12), (1, 16), (2, 6), (2, 16), (5, 8), (5, 10), (5, 12), (3, 6), (3, 10), (3, 14)] [4, 1, 2, 5, 3] 4 [(-16), 4, 4, 16, 0, 16] [0, 5, 3, 2, 0, 1] [0, 5, 3, 0, 0, 0]

def eBq141 : MM :=
  MM.mk 5 6 [2, 3, 5, 4, 5, 3, 5, 1, 3, 4, 1, 2] [[], [12, 16], [6, 16], [6, 10, 14], [8, 14], [8, 10, 12]] [(4, 8), (4, 14), (1, 12), (1, 16), (2, 6), (2, 16), (5, 8), (5, 10), (5, 12), (3, 6), (3, 10), (3, 14)] [4, 1, 2, 5, 3] 4 [(-16), 4, 4, 16, 0, 16] [0, 5, 3, 2, 0, 1] [0, 0, 3, 0, 0, 0]

def eBq145 : MM :=
  MM.mk 5 6 [2, 3, 5, 4, 5, 3, 5, 1, 3, 4, 1, 2] [[], [12, 16], [6, 16], [6, 10, 14], [8, 14], [8, 10, 12]] [(4, 8), (4, 14), (1, 12), (1, 16), (2, 6), (2, 16), (5, 8), (5, 10), (5, 12), (3, 6), (3, 10), (3, 14)] [4, 1, 2, 5, 3] 4 [(-16), 4, 4, 16, 0, 16] [0, 5, 3, 2, 0, 1] [0, 0, 0, 0, 0, 0]

def eBq154 : MM :=
  MM.mk 5 6 [2, 3, 5, 4, 5, 3, 5, 1, 3, 4, 1, 2] [[], [12, 16], [6, 16], [6, 10, 14], [8, 14], [8, 10, 12]] [(4, 8), (4, 14), (1, 12), (1, 16), (2, 6), (2, 16), (5, 8), (5, 10), (5, 12), (3, 6), (3, 10), (3, 14)] [4, 1, 2, 5, 3] 5 [(-16), 4, 4, 16, 0, 16] [0, 5, 3, 2, 0, 1] [0, 0, 0, 0, 0, 0]

def eBq165 : MM :=
  MM.mk 5 6 [2, 3, 5, 4, 5, 3, 5, 1, 3, 4, 1, 2] [[], [12, 16], [6, 16], [6, 10, 14], [8, 14], [8, 10, 12]] [(4, 8), (4, 14), (1, 12), (1, 16), (2, 6), (2, 16), (5, 8), (5, 10), (5, 12), (3, 6), (3, 10), (3, 14)] [4, 1, 2, 5, 3] 6 [(-16), 4, 4, 16, 0, 16] [0, 5, 3, 2, 0, 1] [0, 0, 0, 0, 0, 0]

def eBq176 : MM :=
  MM.mk 5 6 [2, 3, 5, 4, 5, 3, 5, 1, 3, 4, 1, 2] [[], [12, 16], [6, 16], [6, 10, 14], [8, 14], [8, 10, 12]] [(4, 8), (4, 14), (1, 12), (1, 16), (2, 6), (2, 16), (5, 8), (5, 10), (5, 12), (3, 6), (3, 10), (3, 14)] [4, 1, 2, 5, 3] 7 [(-16), 4, 4, 16, 0, 16] [0, 5, 3, 2, 0, 1] [0, 0, 0, 0, 0, 0]

def eBq187 : MM :=
  MM.mk 5 6 [2, 3, 5, 4, 5, 3, 5, 1, 3, 4, 1, 2] [[], [12, 16], [6, 16], [6, 10, 14], [8, 14], [8, 10, 12]] [(4, 8), (4, 14), (1, 12), (1, 16), (2, 6), (2, 16), (5, 8), (5, 10), (5, 12), (3, 6), (3, 10), (3, 14)] [4, 1, 2, 5, 3] 8 [(-16), 4, 4, 16, 0, 16] [0, 5, 3, 2, 0, 1] [0, 0, 0, 0, 0, 0]

def eBq198 : MM :=
  MM.mk 5 6 [2, 3, 5, 4, 5, 3, 5, 1, 3, 4, 1, 2] [[], [12, 16], [6, 16], [6, 10, 14], [8, 14], [8, 10, 12]] [(4, 8), (4, 14), (1, 12), (1, 16), (2, 6), (2, 16), (5, 8), (5, 10), (5, 12), (3, 6), (3, 10), (3, 14)] [4, 1, 2, 5, 3] 9 [(-16), 4, 4, 16, 0, 16] [0, 5, 3, 2, 0, 1] [0, 0, 0, 0, 0, 0]

def eBq209 : MM :=
  MM.mk 5 6 [2, 3, 5, 4, 5, 3, 5, 1, 3, 4, 1, 2] [[], [12, 16], [6, 16], [6, 10, 14], [8, 14], [8, 10, 12]] [(4, 8), (4, 14), (1, 12), (1, 16), (2, 6), (2, 16), (5, 8), (5, 10), (5, 12), (3, 6), (3, 10), (3, 14)] [4, 1, 2, 5, 3] 10 [(-16), 4, 4, 16, 0, 16] [0, 5, 3, 2, 0, 1] [0, 0, 0, 0, 0, 0]

def eBq220 : MM :=
  MM.mk 5 6 [2, 3, 5, 4, 5, 3, 5, 1, 3, 4, 1, 2] [[], [12, 16], [6, 16], [6, 10, 14], [8, 14], [8, 10, 12]] [(4, 8), (4, 14), (1, 12), (1, 16), (2, 6), (2, 16), (5, 8), (5, 10), (5, 12), (3, 6), (3, 10), (3, 14)] [4, 1, 2, 5, 3] 11 [(-16), 4, 4, 16, 0, 16] [0, 5, 3, 2, 0, 1] [0, 0, 0, 0, 0, 0]

def eBq231 : MM :=
  MM.mk 5 6 [2, 3, 5, 4, 5, 3, 5, 1, 3, 4, 1, 2] [[], [12, 16], [6, 16], [6, 10, 14], [8, 14], [8, 10, 12]] [(4, 8), (4, 14), (1, 12), (1, 16), (2, 6), (2, 16), (5, 8), (5, 10), (5, 12), (3, 6), (3, 10), (3, 14)] [4, 1, 2, 5, 3] 12 [(-16), 4, 4, 16, 0, 16] [0, 5, 3, 2, 0, 1] [0, 0, 0, 0, 0, 0]

def eBq243 : MM :=
  MM.mk 5 6 [2, 3, 5, 4, 5, 3, 5, 1, 3, 4, 1, 2] [[], [12, 16], [6, 16], [6, 10, 14], [8, 14], [8, 10, 12]] [(4, 8), (4, 14), (1, 12), (1, 16), (2, 6), (2, 16), (5, 8), (5, 10), (5, 12), (3, 6), (3, 10), (3, 14)] [4, 1, 2, 5, 3] 12 [(-1), 4, 4, 16, 0, 16] [0, 5, 3, 2, 0, 1] [0, 0, 0, 0, 0, 0]

def eBq245 : MM :=
  MM.mk 5 6 [2, 3, 5, 4, 5, 3, 5, 1, 3, 4, 1, 2] [[], [12, 16], [6, 16], [6, 10, 14], [8, 14], [8, 10, 12]] [(4, 8), (4, 14), (1, 12), (1, 16), (2, 6), (2, 16), (5, 8), (5, 10), (5, 12), (3, 6), (3, 10), (3, 14)] [4, 1, 2, 5, 3] 12 [(-1), 4, 4, 16, (-1), 16] [0, 5, 3, 2, 0, 1] [0, 0, 0, 0, 0, 0]

def eBq248 : MM :=
  MM.mk 5 6 [2, 3, 5, 4, 5, 3, 5, 1, 3, 4, 1, 2] [[], [12, 16], [6, 16], [6, 10, 14], [8, 14], [8, 10, 12]] [(4, 8), (4, 14), (1, 12), (1, 16), (2, 6), (2, 16), (5, 8), (5, 10), (5, 12), (3, 6), (3, 10), (3, 14)] [4, 1, 2, 5, 3] 12 [(-1), 4, 4, 16, (-1), 16] [0, 5, 3, 2, 0, 1] [0, 0, 0, 0, 0, 0]

def eBq250 : MM :=
  MM.mk 5 6 [2, 3, 5, 4, 5, 3, 5, 1, 3, 4, 1, 2] [[], [12, 16], [6, 16], [6, 10, 14], [8, 14], [8, 10, 12]] [(4, 8), (4, 14), (1, 12), (1, 16), (2, 6), (2, 16), (5, 8), (5, 10), (5, 12), (3, 6), (3, 10), (3, 14)] [4, 1, 2, 5, 3] 12 [(-1), (-1), 4, 16, (-1), 16] [0, 5, 3, 2, 0, 1] [0, 0, 0, 0, 0, 0]

def eBq253 : MM :=
  MM.mk 5 6 [2, 3, 5, 4, 5, 3, 5, 1, 3, 4, 1, 2] [[], [12, 16], [6, 16], [6, 10, 14], [8, 14], [8, 10, 12]] [(4, 8), (4, 14), (1, 12), (1, 16), (2, 6), (2, 16), (5, 8), (5, 10), (5, 12), (3, 6), (3, 10), (3, 14)] [4, 1, 2, 5, 3] 12 [(-1), (-1), 4, 16, (-1), (-1)] [0, 5, 3, 2, 0, 1] [0, 0, 0, 0, 0, 0]

def eBq255 : MM :=
  MM.mk 5 6 [2, 3, 5, 4, 5, 3, 5, 1, 3, 4, 1, 2] [[], [12, 16], [6, 16], [6, 10, 14], [8, 14], [8, 10, 12]] [(4, 8), (4, 14), (1, 12), (1, 16), (2, 6), (2, 16), (5, 8), (5, 10), (5, 12), (3, 6), (3, 10), (3, 14)] [4, 1, 2, 5, 3] 12 [(-1), (-1), (-1), 16, (-1), (-1)] [0, 5, 3, 2, 0, 1] [0, 0, 0, 0, 0, 0]

def eBq258 : MM :=
  MM.mk 5 6 [2, 3, 5, 4, 5, 3, 5, 1, 3, 4, 1, 2] [[], [12, 16], [6, 16], [6, 10, 14], [8, 14], [8, 10, 12]] [(4, 8), (4, 14), (1, 12), (1, 16), (2, 6), (2, 16), (5, 8), (5, 10), (5, 12), (3, 6), (3, 10), (3, 14)] [4, 1, 2, 5, 3] 12 [(-1), (-1), (-1), (-1), (-1), (-1)] [0, 5, 3, 2, 0, 1] [0, 0, 0, 0, 0, 0]

def eBq260 : MM :=
  MM.mk 5 6 [2, 3, 5, 4, 5, 3, 5, 1, 3, 4, 1, 2] [[], [12, 16], [6, 16], [6, 10, 14], [8, 14], [8, 10, 12]] [(4, 8), (4, 14), (1, 12), (1, 16), (2, 6), (2, 16), (5, 8), (5, 10), (5, 12), (3, 6), (3, 10), (3, 14)] [4, 1, 2, 5, 3] 12 [(-1), (-1), (-1), (-1), (-1), (-1)] [0, 5, 3, 2, 0, 1] [0, 0, 0, 0, 0, 0]

def eBq263 : MM :=
  MM.mk 5 6 [2, 3, 5, 4, 5, 3, 5, 1, 3, 4, 1, 2] [[], [12, 16], [6, 16], [6, 10, 14], [8, 14], [8, 10, 12]] [(4, 8), (4, 14), (1, 12), (1, 16), (2, 6), (2, 16), (5, 8), (5, 10), (5, 12), (3, 6), (3, 10), (3, 14)] [4, 1, 2, 5, 3] 12 [(-1), (-1), (-1), (-1), (-1), (-1)] [0, 5, 3, 2, 0, 1] [0, 0, 0, 0, 0, 0]

def eBq265 : MM :=
  MM.mk 5 6 [2, 3, 5, 4, 5, 3, 5, 1, 3, 4, 1, 2] [[], [12, 16], [6, 16], [6, 10, 14], [8, 14], [8, 10, 12]] [(4, 8), (4, 14), (1, 12), (1, 16), (2, 6), (2, 16), (5, 8), (5, 10), (5, 12), (3, 6), (3, 10), (3, 14)] [4, 1, 2, 5, 3] 12 [(-1), (-1), (-1), (-1), (-1), (-1)] [0, 5, 3, 2, 0, 1] [0, 0, 0, 0, 0, 0]

def eBq268 : MM :=
  MM.mk 5 6 [2, 3, 5, 4, 5, 3, 5, 1, 3, 4, 1, 2] [[], [12, 16], [6, 16], [6, 10, 14], [8, 14], [8, 10, 12]] [(4, 8), (4, 14), (1, 12), (1, 16), (2, 6), (2, 16), (5, 8), (5, 10), (5, 12), (3, 6), (3, 10), (3, 14)] [4, 1, 2, 5, 3] 12 [(-1), (-1), (-1), (-1), (-1), (-1)] [0, 5, 3, 2, 0, 1] [0, 0, 0, 0, 0, 0]

def eBq271 : MM :=
  MM.mk 5 6 [2, 3, 5, 4, 5, 3, 5, 1, 3, 4, 1, 2] [[], [12, 16], [6, 16], [6, 10, 14], [8, 14], [8, 10, 12]] [] [] 0 [(-1), (-1), (-1), (-1), (-1), (-1)] [0, 5, 3, 2, 0, 1] [0, 0, 0, 0, 0, 0]

def gfq0 : MM :=
  MM.mk 5 6 [1, 2] [[], [6], [6], [], [], []] [] [] 0 [(-1), (-1), (-1), (-1), (-1), (-1)] [0, 0, 0, 0, 0, 0] [0, 0, 0, 0, 0, 0]

def gfq2 : MM :=
  MM.mk 5 6 [1, 2, 3, 4] [[], [6], [6], [8], [8], []] [] [] 0 [(-1), (-1), (-1), (-1), (-1), (-1)] [0, 0, 0, 0, 0, 0] [0, 0, 0, 0, 0, 0]

def gfq4 : MM :=
  MM.mk 5 6 [1, 2, 3, 4, 5, 1] [[], [6, 10], [6], [8], [8], [10]] [] [] 0 [(-1), (-1), (-1), (-1), (-1), (-1)] [0, 0, 0, 0, 0, 0] [0, 0, 0, 0, 0, 0]

def gfq6 : MM :=
  MM.mk 5 6 [1, 2, 3, 4, 5, 1, 2, 3] [[], [6, 10], [6, 12], [8, 12], [8], [10]] [] [] 0 [(-1), (-1), (-1), (-1), (-1), (-1)] [0, 0, 0, 0, 0, 0] [0, 0, 0, 0, 0, 0]

def gfq8 : MM :=
  MM.mk 5 6 [1, 2, 3, 4, 5, 1, 2, 3, 2, 4] [[], [6, 10], [6, 12, 14], [8, 12], [8, 14], [10]] [] [] 0 [(-1), (-1), (-1), (-1), (-1), (-1)] [0, 0, 0, 0, 0, 0] [0, 0, 0, 0, 0, 0]

def gfq13 : MM :=
  MM.mk 5 6 [1, 2, 3, 4, 5, 1, 2, 3, 2, 4] [[], [6, 10], [6, 12, 14], [8, 12], [8, 14], [10]] [(1, 6), (1, 10)] [1] 0 [(-1), 0, (-1), (-1), (-1), (-1)] [0, 0, 0, 0, 0, 0] [0, 0, 0, 0, 0, 0]

def gfq15 : MM :=
  MM.mk 5 6 [1, 2, 3, 4, 5, 1, 2, 3, 2, 4] [[], [6, 10], [6, 12, 14], [8, 12], [8, 14], [10]] [(1, 6), (1, 10)] [1] 0 [(-1), 0, (-1), (-1), (-1), (-1)] [0, 0, 0, 0, 0, 0] [0, 0, 0, 0, 0, 0]

def gfq17 : MM :=
  MM.mk 5 6 [1, 2, 3, 4, 5, 1, 2, 3, 2, 4] [[], [6, 10], [6, 12, 14], [8, 12], [8, 14], [10]] [(1, 6), (1, 10)] [1] 1 [(-1), 0, (-1), (-1), (-1), (-1)] [0, 0, 0, 0, 0, 0] [0, 0, 0, 0, 0, 0]

def gfq23 : MM :=
  MM.mk 5 6 [1, 2, 3, 4, 5, 1, 2, 3, 2, 4] [[], [6, 10], [6, 12, 14], [8, 12], [8, 14], [10]] [(1, 6), (1, 10)] [1] 1 [(-1), 0, (-1), (-1), (-1), (-1)] [0, 0, 1, 0, 0, 0] [0, 0, 0, 0, 0, 0]

def gfq25 : MM :=
  MM.mk 5 6 [1, 2, 3, 4, 5, 1, 2, 3, 2, 4] [[], [6, 10], [6, 12, 14], [8, 12], [8, 14], [10]] [(1, 6), (1, 10)] [1] 1 [(-1), 0, (-1), (-1), (-1), (-1)] [0, 2, 1, 0, 0, 0] [0, 0, 0, 0, 0, 0]

def gfq27 : MM :=
  MM.mk 5 6 [1, 2, 3, 4, 5, 1, 2, 3, 2, 4] [[], [6, 10], [6, 12, 14], [8, 12], [8, 14], [10]] [(1, 6), (1, 10)] [1] 1 [(-1), 0, (-1), (-1), (-1), (-1)] [0, 2, 1, 0, 0, 0] [0, 0, 0, 0, 0, 0]

def gfq29 : MM :=
  MM.mk 5 6 [1, 2, 3, 4, 5, 1, 2, 3, 2, 4] [[], [6, 10], [6, 12, 14], [8, 12], [8, 14], [10]] [(1, 6), (1, 10)] [1] 1 [(-1), (-1), (-1), (-1), (-1), (-1)] [0, 2, 1, 0, 0, 0] [0, 0, 0, 0, 0, 0]

def gfq32 : MM :=
  MM.mk 5 6 [1, 2, 3, 4, 5, 1, 2, 3, 2, 4] [[], [6, 10], [6, 12, 14], [8, 12], [8, 14], [10]] [(1, 6), (1, 10)] [1] 1 [(-1), (-1), (-1), (-1), (-1), (-1)] [0, 2, 1, 0, 0, 0] [0, 0, 0, 0, 0, 0]

def gfq35 : MM :=
  MM.mk 5 6 [1, 2, 3, 4, 5, 1, 2, 3, 2, 4] [[], [6, 10], [6, 12, 14], [8, 12], [8, 14], [10]] [] [] 0 [(-1), (-1), (-1), (-1), (-1), (-1)] [0, 2, 1, 0, 0, 0] [0, 0, 0, 0, 0, 0]

def gfq44 : MM :=
  MM.mk 5 6 [1, 2, 3, 4, 5, 1, 2, 3, 2, 4] [[], [6, 10], [6, 12, 14], [8, 12], [8, 14], [10]] [(3, 8), (3, 12)] [3] 0 [(-1), (-1), (-1), 0, (-1), (-1)] [0, 2, 1, 0, 0, 0] [0, 0, 0, 0, 0, 0]

def gfq46 : MM :=
  MM.mk 5 6 [1, 2, 3, 4, 5, 1, 2, 3, 2, 4] [[], [6, 10], [6, 12, 14], [8, 12], [8, 14], [10]] [(3, 8), (3, 12)] [3] 0 [(-1), (-1), (-1), 0, (-1), (-1)] [0, 2, 1, 0, 0, 0] [0, 0, 0, 0, 0, 0]

def gfq48 : MM :=
  MM.mk 5 6 [1, 2, 3, 4, 5, 1, 2, 3, 2, 4] [[], [6, 10], [6, 12, 14], [8, 12], [8, 14], [10]] [(3, 8), (3, 12)] [3] 1 [(-1), (-1), (-1), 0, (-1), (-1)] [0, 2, 1, 0, 0, 0] [0, 0, 0, 0, 0, 0]

def gfq54 : MM :=
  MM.mk 5 6 [1, 2, 3, 4, 5, 1, 2, 3, 2, 4] [[], [6, 10], [6, 12, 14], [8, 12], [8, 14], [10]] [(3, 8), (3, 12)] [3] 1 [(-1), (-1), (-1), 0, (-1), (-1)] [0, 2, 1, 0, 3, 0] [0, 0, 0, 0, 0, 0]

def gfq56 : MM :=
  MM.mk 5 6 [1, 2, 3, 4, 5, 1, 2, 3, 2, 4] [[], [6, 10], [6, 12, 14], [8, 12], [8, 14], [10]] [(3, 8), (3, 12)] [3] 1 [(-1), (-1), (-1), 0, (-1), (-1)] [0, 2, 1, 4, 3, 0] [0, 0, 0, 0, 0, 0]

def gfq58 : MM :=
  MM.mk 5 6 [1, 2, 3, 4, 5, 1, 2, 3, 2, 4] [[], [6, 10], [6, 12, 14], [8, 12], [8, 14], [10]] [(3, 8), (3, 12)] [3] 1 [(-1), (-1), (-1), 0, (-1), (-1)] [0, 2, 1, 4, 3, 0] [0, 0, 0, 0, 0, 0]

def gfq60 : MM :=
  MM.mk 5 6 [1, 2, 3, 4, 5, 1, 2, 3, 2, 4] [[], [6, 10], [6, 12, 14], [8, 12], [8, 14], [10]] [(3, 8), (3, 12)] [3] 1 [(-1), (-1), (-1), (-1), (-1), (-1)] [0, 2, 1, 4, 3, 0] [0, 0, 0, 0, 0, 0]

def gfq63 : MM :=
  MM.mk 5 6 [1, 2, 3, 4, 5, 1, 2, 3, 2, 4] [[], [6, 10], [6, 12, 14], [8, 12], [8, 14], [10]] [(3, 8), (3, 12)] [3] 1 [(-1), (-1), (-1), (-1), (-1), (-1)] [0, 2, 1, 4, 3, 0] [0, 0, 0, 0, 0, 0]

def gfq66 : MM :=
  MM.mk 5 6 [1, 2, 3, 4, 5, 1, 2, 3, 2, 4] [[], [6, 10], [6, 12, 14], [8, 12], [8, 14], [10]] [] [] 0 [(-1), (-1), (-1), (-1), (-1), (-1)] [0, 2, 1, 4, 3, 0] [0, 0, 0, 0, 0, 0]

def gfq75 : MM :=
  MM.mk 5 6 [1, 2, 3, 4, 5, 1, 2, 3, 2, 4] [[], [6, 10], [6, 12, 14], [8, 12], [8, 14], [10]] [(5, 10)] [5] 0 [(-1), (-1), (-1), (-1), (-1), 0] [0, 2, 1, 4, 3, 0] [0, 0, 0, 0, 0, 0]

def gfq77 : MM :=
  MM.mk 5 6 [1, 2, 3, 4, 5, 1, 2, 3, 2, 4] [[], [6, 10], [6, 12, 14], [8, 12], [8, 14], [10]] [(5, 10)] [5] 0 [(-1), (-1), (-1), (-1), (-1), 0] [0, 2, 1, 4, 3, 0] [0, 0, 0, 0, 0, 0]

def gfq79 : MM :=
  MM.mk 5 6 [1, 2, 3, 4, 5, 1, 2, 3, 2, 4] [[], [6, 10], [6, 12, 14], [8, 12], [8, 14], [10]] [(5, 10)] [5] 1 [(-1), (-1), (-1), (-1), (-1), 0] [0, 2, 1, 4, 3, 0] [0, 0, 0, 0, 0, 0]

def gfq88 : MM :=
  MM.mk 5 6 [1, 2, 3, 4, 5, 1, 2, 3, 2, 4] [[], [6, 10], [6, 12, 14], [8, 12], [8, 14], [10]] [(5, 10), (2, 6), (2, 12), (2, 14)] [5, 2] 1 [(-1), (-1), 5, (-1), (-1), 0] [0, 2, 1, 4, 3, 0] [0, 0, 0, 0, 0, 0]

def gfq90 : MM :=
  MM.mk 5 6 [1, 2, 3, 4, 5, 1, 2, 3, 2, 4] [[], [6, 10], [6, 12, 14], [8, 12], [8, 14], [10]] [(5, 10), (2, 6), (2, 12), (2, 14)] [5, 2] 1 [(-1), (-1), 5, (-1), (-1), 0] [0, 2, 1, 4, 3, 0] [0, 0, 1, 0, 0, 0]

def gfq93 : MM :=
  MM.mk 5 6 [1, 2, 3, 4, 5, 1, 2, 3, 2, 4] [[], [6, 10], [6, 12, 14], [8, 12], [8, 14], [10]] [(5, 10), (2, 6), (2, 12), (2, 14)] [5, 2] 2 [(-1), (-1), 5, (-1), (-1), 0] [0, 2, 1, 4, 3, 0] [0, 0, 1, 0, 0, 0]

def gfq103 : MM :=
  MM.mk 5 6 [1, 2, 3, 4, 5, 1, 2, 3, 2, 4] [[], [6, 10], [6, 12, 14], [8, 12], [8, 14], [10]] [(5, 10), (2, 6), (2, 12), (2, 14)] [5, 2] 3 [(-1), (-1), 5, (-1), (-1), 0] [0, 2, 1, 4, 3, 0] [0, 0, 1, 0, 0, 0]

def gfq112 : MM :=
  MM.mk 5 6 [1, 2, 3, 4, 5, 1, 2, 3, 2, 4] [[], [6, 10], [6, 12, 14], [8, 12], [8, 14], [10]] [(5, 10), (2, 6), (2, 12), (2, 14), (4, 8), (4, 14)] [5, 2, 4] 3 [(-1), (-1), 5, (-1), 2, 0] [0, 2, 1, 4, 3, 0] [0, 0, 1, 0, 0, 0]

def gfq114 : MM :=
  MM.mk 5 6 [1, 2, 3, 4, 5, 1, 2, 3, 2, 4] [[], [6, 10], [6, 12, 14], [8, 12], [8, 14], [10]] [(5, 10), (2, 6), (2, 12), (2, 14), (4, 8), (4, 14)] [5, 2, 4] 3 [(-1), (-1), 5, (-1), 2, 0] [0, 2, 1, 4, 3, 0] [0, 0, 1, 0, 3, 0]

def gfq117 : MM :=
  MM.mk 5 6 [1, 2, 3, 4, 5, 1, 2, 3, 2, 4] [[], [6, 10], [6, 12, 14], [8, 12], [8, 14], [10]] [(5, 10), (2, 6), (2, 12), (2, 14), (4, 8), (4, 14)] [5, 2, 4] 4 [(-1), (-1), 5, (-1), 2, 0] [0, 2, 1, 4, 3, 0] [0, 0, 1, 0, 3, 0]

def gfq127 : MM :=
  MM.mk 5 6 [1, 2, 3, 4, 5, 1, 2, 3, 2, 4] [[], [6, 10], [6, 12, 14], [8, 12], [8, 14], [10]] [(5, 10), (2, 6), (2, 12), (2, 14), (4, 8), (4, 14)] [5, 2, 4] 4 [(-1), (-14), 5, (-1), 2, 0] [0, 2, 1, 4, 3, 0] [0, 0, 1, 0, 3, 0]

def gfq129 : MM :=
  MM.mk 5 6 [1, 2, 3, 4, 5, 1, 2, 3, 2, 4] [[], [6, 10], [6, 12, 14], [8, 12], [8, 14], [10]] [(5, 10), (2, 6), (2, 12), (2, 14), (4, 8), (4, 14)] [5, 2, 4] 4 [(-1), (-14), 5, (-1), 2, 0] [0, 2, 1, 4, 3, 0] [0, 0, 1, 0, 3, 0]

def gfq133 : MM :=
  MM.mk 5 6 [1, 2, 3, 4, 5, 1, 2, 3, 2, 4] [[], [6, 10], [6, 12, 14], [8, 12], [8, 14], [10]] [(5, 10), (2, 6), (2, 12), (2, 14), (4, 8), (4, 14)] [5, 2, 4] 4 [(-1), (-14), 5, (-1), 2, 0] [0, 2, 1, 4, 3, 0] [0, 0, 1, 0, 3, 0]

def gfq135 : MM :=
  MM.mk 5 6 [1, 2, 3, 4, 5, 1, 2, 3, 2, 4] [[], [6, 10], [6, 12, 14], [8, 12], [8, 14], [10]] [(5, 10), (2, 6), (2, 12), (2, 14), (4, 8), (4, 14), (3, 8), (3, 12)] [5, 2, 4, 3] 4 [(-1), (-14), 5, 14, 2, 0] [0, 2, 1, 4, 3, 0] [0, 0, 1, 1, 3, 0]

def gfq143 : MM :=
  MM.mk 5 6 [1, 2, 3, 4, 5, 1, 2, 3, 2, 4] [[], [6, 10], [6, 12, 14], [8, 12], [8, 14], [10]] [(5, 10), (2, 6), (2, 12), (2, 14), (4, 8), (4, 14), (3, 8), (3, 12)] [5, 2, 4, 3] 4 [(-1), (-14), 5, 14, 2, 0] [0, 2, 1, 4, 3, 0] [0, 0, 1, 1, 1, 0]

def gfq150 : MM :=
  MM.mk 5 6 [1, 2, 3, 4, 5, 1, 2, 3, 2, 4] [[], [6, 10], [6, 12, 14], [8, 12], [8, 14], [10]] [(5, 10), (2, 6), (2, 12), (2, 14), (4, 8), (4, 14), (3, 8), (3, 12)] [5, 2, 4, 3] 5 [(-1), (-14), 5, 14, 2, 0] [0, 2, 1, 4, 3, 0] [0, 0, 1, 1, 1, 0]

def gfq161 : MM :=
  MM.mk 5 6 [1, 2, 3, 4, 5, 1, 2, 3, 2, 4] [[], [6, 10], [6, 12, 14], [8, 12], [8, 14], [10]] [(5, 10), (2, 6), (2, 12), (2, 14), (4, 8), (4, 14), (3, 8), (3, 12)] [5, 2, 4, 3] 6 [(-1), (-14), 5, 14, 2, 0] [0, 2, 1, 4, 3, 0] [0, 0, 1, 1, 1, 0]

def gfq172 : MM :=
  MM.mk 5 6 [1, 2, 3, 4, 5, 1, 2, 3, 2, 4] [[], [6, 10], [6, 12, 14], [8, 12], [8, 14], [10]] [(5, 10), (2, 6), (2, 12), (2, 14), (4, 8), (4, 14), (3, 8), (3, 12)] [5, 2, 4, 3] 7 [(-1), (-14), 5, 14, 2, 0] [0, 2, 1, 4, 3, 0] [0, 0, 1, 1, 1, 0]

def gfq183 : MM :=
  MM.mk 5 6 [1, 2, 3, 4, 5, 1, 2, 3, 2, 4] [[], [6, 10], [6, 12, 14], [8, 12], [8, 14], [10]] [(5, 10), (2, 6), (2, 12), (2, 14), (4, 8), (4, 14), (3, 8), (3, 12)] [5, 2, 4, 3] 8 [(-1), (-14), 5, 14, 2, 0] [0, 2, 1, 4, 3, 0] [0, 0, 1, 1, 1, 0]

def gfq195 : MM :=
  MM.mk 5 6 [1, 2, 3, 4, 5, 1, 2, 3, 2, 4] [[], [6, 10], [6, 12, 14], [8, 12], [8, 14], [10]] [(5, 10), (2, 6), (2, 12), (2, 14), (4, 8), (4, 14), (3, 8), (3, 12)] [5, 2, 4, 3] 8 [(-1), (-14), 5, 14, 2, 0] [0, 2, 1, 4, 3, 0] [0, 0, 1, 1, 1, 0]

def gfq197 : MM :=
  MM.mk 5 6 [1, 2, 3, 4, 5, 1, 2, 3, 2, 4] [[], [6, 10], [6, 12, 14], [8, 12], [8, 14], [10]] [(5, 10), (2, 6), (2, 12), (2, 14), (4, 8), (4, 14), (3, 8), (3, 12)] [5, 2, 4, 3] 8 [(-1), (-14), 5, 14, 2, (-1)] [0, 2, 1, 4, 3, 0] [0, 0, 1, 1, 1, 0]

def gfq200 : MM :=
  MM.mk 5 6 [1, 2, 3, 4, 5, 1, 2, 3, 2, 4] [[], [6, 10], [6, 12, 14], [8, 12], [8, 14], [10]] [(5, 10), (2, 6), (2, 12), (2, 14), (4, 8), (4, 14), (3, 8), (3, 12)] [5, 2, 4, 3] 8 [(-1), (-14), 5, 14, 2, (-1)] [0, 2, 1, 4, 3, 0] [0, 0, 1, 1, 1, 0]

def gfq202 : MM :=
  MM.mk 5 6 [1, 2, 3, 4, 5, 1, 2, 3, 2, 4] [[], [6, 10], [6, 12, 14], [8, 12], [8, 14], [10]] [(5, 10), (2, 6), (2, 12), (2, 14), (4, 8), (4, 14), (3, 8), (3, 12)] [5, 2, 4, 3] 8 [(-1), (-14), (-1), 14, 2, (-1)] [0, 2, 1, 4, 3, 0] [0, 0, 1, 1, 1, 0]

def gfq205 : MM :=
  MM.mk 5 6 [1, 2, 3, 4, 5, 1, 2, 3, 2, 4] [[], [6, 10], [6, 12, 14], [8, 12], [8, 14], [10]] [(5, 10), (2, 6), (2, 12), (2, 14), (4, 8), (4, 14), (3, 8), (3, 12)] [5, 2, 4, 3] 8 [(-1), (-1), (-1), 14, 2, (-1)] [0, 2, 1, 4, 3, 0] [0, 0, 1, 1, 1, 0]

def gfq207 : MM :=
  MM.mk 5 6 [1, 2, 3, 4, 5, 1, 2, 3, 2, 4] [[], [6, 10], [6, 12, 14], [8, 12], [8, 14], [10]] [(5, 10), (2, 6), (2, 12), (2, 14), (4, 8), (4, 14), (3, 8), (3, 12)] [5, 2, 4, 3] 8 [(-1), (-1), (-1), 14, (-1), (-1)] [0, 2, 1, 4, 3, 0] [0, 0, 1, 1, 1, 0]

def gfq210 : MM :=
  MM.mk 5 6 [1, 2, 3, 4, 5, 1, 2, 3, 2, 4] [[], [6, 10], [6, 12, 14], [8, 12], [8, 14], [10]] [(5, 10), (2, 6), (2, 12), (2, 14), (4, 8), (4, 14), (3, 8), (3, 12)] [5, 2, 4, 3] 8 [(-1), (-1), (-1), (-1), (-1), (-1)] [0, 2, 1, 4, 3, 0] [0, 0, 1, 1, 1, 0]

def gfq212 : MM :=
  MM.mk 5 6 [1, 2, 3, 4, 5, 1, 2, 3, 2, 4] [[], [6, 10], [6, 12, 14], [8, 12], [8, 14], [10]] [(5, 10), (2, 6), (2, 12), (2, 14), (4, 8), (4, 14), (3, 8), (3, 12)] [5, 2, 4, 3] 8 [(-1), (-1), (-1), (-1), (-1), (-1)] [0, 2, 1, 4, 3, 0] [0, 0, 1, 1, 1, 0]

def gfq215 : MM :=
  MM.mk 5 6 [1, 2, 3, 4, 5, 1, 2, 3, 2, 4] [[], [6, 10], [6, 12, 14], [8, 12], [8, 14], [10]] [(5, 10), (2, 6), (2, 12), (2, 14), (4, 8), (4, 14), (3, 8), (3, 12)] [5, 2, 4, 3] 8 [(-1), (-1), (-1), (-1), (-1), (-1)] [0, 2, 1, 4, 3, 0] [0, 0, 1, 1, 1, 0]

def gfq218 : MM :=
  MM.mk 5 6 [1, 2, 3, 4, 5, 1, 2, 3, 2, 4] [[], [6, 10], [6, 12, 14], [8, 12], [8, 14], [10]] [] [] 0 [(-1), (-1), (-1), (-1), (-1), (-1)] [0, 2, 1, 4, 3, 0] [0, 0, 1, 1, 1, 0]

def gfpq5000 : MM :=
  MM.mk 5 6 [1, 2, 3, 4, 5, 1, 2, 3, 2, 4] [[], [6, 10], [6, 12, 14], [8, 12], [8, 14], [10]] [] [] 0 [(-1), (-1), (-1), (-1), (-1), (-1)] [0, 0, 0, 0, 0, 0] [0, 0, 0, 0, 0, 0]

def gfpq5003 : MM :=
  MM.mk 5 6 [1, 2, 3, 4, 5, 1, 2, 3, 2, 4] [[], [6, 10], [6, 12, 14], [8, 12], [8, 14], [10]] [(1, 6), (1, 10)] [1] 0 [(-1), 0, (-1), (-1), (-1), (-1)] [0, 0, 0, 0, 0, 0] [0, 0, 0, 0, 0, 0]

def gfpq5005 : MM :=
  MM.mk 5 6 [1, 2, 3, 4, 5, 1, 2, 3, 2, 4] [[], [6, 10], [6, 12, 14], [8, 12], [8, 14], [10]] [(1, 6), (1, 10)] [1] 0 [(-1), 0, (-1), (-1), (-1), (-1)] [0, 0, 0, 0, 0, 0] [0, 0, 0, 0, 0, 0]

def gfpq5007 : MM :=
  MM.mk 5 6 [1, 2, 3, 4, 5, 1, 2, 3, 2, 4] [[], [6, 10], [6, 12, 14], [8, 12], [8, 14], [10]] [(1, 6), (1, 10)] [1] 1 [(-1), 0, (-1), (-1), (-1), (-1)] [0, 0, 0, 0, 0, 0] [0, 0, 0, 0, 0, 0]

def gfpq5013 : MM :=
  MM.mk 5 6 [1, 2, 3, 4, 5, 1, 2, 3, 2, 4] [[], [6, 10], [6, 12, 14], [8, 12], [8, 14], [10]] [(1, 6), (1, 10)] [1] 1 [(-1), 0, (-1), (-1), (-1), (-1)] [0, 0, 1, 0, 0, 0] [0, 0, 0, 0, 0, 0]

def gfpq5015 : MM :=
  MM.mk 5 6 [1, 2, 3, 4, 5, 1, 2, 3, 2, 4] [[], [6, 10], [6, 12, 14], [8, 12], [8, 14], [10]] [(1, 6), (1, 10)] [1] 1 [(-1), 0, (-1), (-1), (-1), (-1)] [0, 2, 1, 0, 0, 0] [0, 0, 0, 0, 0, 0]

def gfpq5017 : MM :=
  MM.mk 5 6 [1, 2, 3, 4, 5, 1, 2, 3, 2, 4] [[], [6, 10], [6, 12, 14], [8, 12], [8, 14], [10]] [(1, 6), (1, 10)] [1] 1 [(-1), 0, (-1), (-1), (-1), (-1)] [0, 2, 1, 0, 0, 0] [0, 0, 0, 0, 0, 0]

def gfpq5019 : MM :=
  MM.mk 5 6 [1, 2, 3, 4, 5, 1, 2, 3, 2, 4] [[], [6, 10], [6, 12, 14], [8, 12], [8, 14], [10]] [(1, 6), (1, 10)] [1] 1 [(-1), (-1), (-1), (-1), (-1), (-1)] [0, 2, 1, 0, 0, 0] [0, 0, 0, 0, 0, 0]

def gfpq5022 : MM :=
  MM.mk 5 6 [1, 2, 3, 4, 5, 1, 2, 3, 2, 4] [[], [6, 10], [6, 12, 14], [8, 12], [8, 14], [10]] [(1, 6), (1, 10)] [1] 1 [(-1), (-1), (-1), (-1), (-1), (-1)] [0, 2, 1, 0, 0, 0] [0, 0, 0, 0, 0, 0]

def gfpq5025 : MM :=
  MM.mk 5 6 [1, 2, 3, 4, 5, 1, 2, 3, 2, 4] [[], [6, 10], [6, 12, 14], [8, 12], [8, 14], [10]] [] [] 0 [(-1), (-1), (-1), (-1), (-1), (-1)] [0, 2, 1, 0, 0, 0] [0, 0, 0, 0, 0, 0]

def gfpq5034 : MM :=
  MM.mk 5 6 [1, 2, 3, 4, 5, 1, 2, 3, 2, 4] [[], [6, 10], [6, 12, 14], [8, 12], [8, 14], [10]] [(3, 8), (3, 12)] [3] 0 [(-1), (-1), (-1), 0, (-1), (-1)] [0, 2, 1, 0, 0, 0] [0, 0, 0, 0, 0, 0]

def gfpq5036 : MM :=
  MM.mk 5 6 [1, 2, 3, 4, 5, 1, 2, 3, 2, 4] [[], [6, 10], [6, 12, 14], [8, 12], [8, 14], [10]] [(3, 8), (3, 12)] [3] 0 [(-1), (-1), (-1), 0, (-1), (-1)] [0, 2, 1, 0, 0, 0] [0, 0, 0, 0, 0, 0]

def gfpq5038 : MM :=
  MM.mk 5 6 [1, 2, 3, 4, 5, 1, 2, 3, 2, 4] [[], [6, 10], [6, 12, 14], [8, 12], [8, 14], [10]] [(3, 8), (3, 12)] [3] 1 [(-1), (-1), (-1), 0, (-1), (-1)] [0, 2, 1, 0, 0, 0] [0, 0, 0, 0, 0, 0]

def gfpq5044 : MM :=
  MM.mk 5 6 [1, 2, 3, 4, 5, 1, 2, 3, 2, 4] [[], [6, 10], [6, 12, 14], [8, 12], [8, 14], [10]] [(3, 8), (3, 12)] [3] 1 [(-1), (-1), (-1), 0, (-1), (-1)] [0, 2, 1, 0, 3, 0] [0, 0, 0, 0, 0, 0]

def gfpq5046 : MM :=
  MM.mk 5 6 [1, 2, 3, 4, 5, 1, 2, 3, 2, 4] [[], [6, 10], [6, 12, 14], [8, 12], [8, 14], [10]] [(3, 8), (3, 12)] [3] 1 [(-1), (-1), (-1), 0, (-1), (-1)] [0, 2, 1, 4, 3, 0] [0, 0, 0, 0, 0, 0]

def gfpq5048 : MM :=
  MM.mk 5 6 [1, 2, 3, 4, 5, 1, 2, 3, 2, 4] [[], [6, 10], [6, 12, 14], [8, 12], [8, 14], [10]] [(3, 8), (3, 12)] [3] 1 [(-1), (-1), (-1), 0, (-1), (-1)] [0, 2, 1, 4, 3, 0] [0, 0, 0, 0, 0, 0]

def gfpq5050 : MM :=
  MM.mk 5 6 [1, 2, 3, 4, 5, 1, 2, 3, 2, 4] [[], [6, 10], [6, 12, 14], [8, 12], [8, 14], [10]] [(3, 8), (3, 12)] [3] 1 [(-1), (-1), (-1), (-1), (-1), (-1)] [0, 2, 1, 4, 3, 0] [0, 0, 0, 0, 0, 0]

def gfpq5053 : MM :=
  MM.mk 5 6 [1, 2, 3, 4, 5, 1, 2, 3, 2, 4] [[], [6, 10], [6, 12, 14], [8, 12], [8, 14], [10]] [(3, 8), (3, 12)] [3] 1 [(-1), (-1), (-1), (-1), (-1), (-1)] [0, 2, 1, 4, 3, 0] [0, 0, 0, 0, 0, 0]

def gfpq5056 : MM :=
  MM.mk 5 6 [1, 2, 3, 4, 5, 1, 2, 3, 2, 4] [[], [6, 10], [6, 12, 14], [8, 12], [8, 14], [10]] [] [] 0 [(-1), (-1), (-1), (-1), (-1), (-1)] [0, 2, 1, 4, 3, 0] [0, 0, 0, 0, 0, 0]


/-! ## Evaluation lemmas for the monad and the primitive operations -/

@[simp]
theorem bind_apply {α β : Type} (x : PyM α) (f : α → PyM β) (s : MM) :
    (x >>= f) s = Py.bind (x s) f := rfl

@[simp]
theorem pure_apply {α : Type} (a : α) (s : MM) :
    (pure a : PyM α) s = .ok s a := rfl

@[simp]
theorem Py.bind_ok {α β : Type} (s : MM) (a : α) (f : α → PyM β) :
    Py.bind (.ok s a) f = f a s := rfl

@[simp]
theorem Py.bind_exn {α β : Type} (s : MM) (f : α → PyM β) :
    Py.bind (.exn s : Py α) f = .exn s := rfl

@[simp]
theorem Py.bind_oom {α β : Type} (f : α → PyM β) :
    Py.bind (.oom : Py α) f = .oom := rfl

@[simp]
theorem getS_apply (s : MM) : getS s = .ok s s := rfl

@[simp]
theorem setS_apply (s' s : MM) : setS s' s = .ok s' () := rfl

@[simp]
theorem pyRaise_apply {α : Type} (s : MM) : (pyRaise : PyM α) s = .exn s := rfl

@[simp]
theorem pyOom_apply {α : Type} (s : MM) : (pyOom : PyM α) s = .oom := rfl

@[simp]
theorem liftO_some {α : Type} (a : α) (s : MM) : liftO (some a) s = .ok s a := rfl

@[simp]
theorem liftO_none {α : Type} (s : MM) : liftO (none : Option α) s = .exn s := rfl

theorem liftO_apply {α : Type} (o : Option α) (s : MM) :
    liftO o s = match o with | some a => .ok s a | none => .exn s := rfl

@[simp]
theorem mateGet_apply (v : Int) (s : MM) :
    mateGet v s = liftO (pyGet s.MATE v) s := rfl

@[simp]
theorem labelGet_apply (v : Int) (s : MM) :
    labelGet v s = liftO (pyGet s.LABEL v) s := rfl

@[simp]
theorem firstGet_apply (v : Int) (s : MM) :
    firstGet v s = liftO (pyGet s.FIRST v) s := rfl

theorem mateSet_apply (v x : Int) (s : MM) :
    mateSet v x s = match pySet s.MATE v x with
      | some M => .ok { s with MATE := M } ()
      | none => .exn s := rfl

theorem labelSet_apply (v x : Int) (s : MM) :
    labelSet v x s = match pySet s.LABEL v x with
      | some L => .ok { s with LABEL := L } ()
      | none => .exn s := rfl

theorem firstSet_apply (v x : Int) (s : MM) :
    firstSet v x s = match pySet s.FIRST v x with
      | some F => .ok { s with FIRST := F } ()
      | none => .exn s := rfl

@[simp]
theorem isOuterVertex_apply (v : Int) (s : MM) :
    isOuterVertex v s = .ok s (v ∈ s.outerVertices : Bool) := rfl

/-! ## Facts about Python list reads and writes -/

theorem pyGet_mem {α : Type} {l : List α} {i : Int} {a : α}
    (h : pyGet l i = some a) : a ∈ l := by
  unfold pyGet at h
  cases hj : pyIdx l.length i with
  | none => rw [hj] at h; cases h
  | some j => rw [hj] at h; exact List.get?_mem h

theorem pySet_length {α : Type} {l l' : List α} {i : Int} {a : α}
    (h : pySet l i a = some l') : l'.length = l.length := by
  unfold pySet at h
  cases hj : pyIdx l.length i with
  | none => rw [hj] at h; cases h
  | some j => rw [hj] at h; cases h; exact List.length_set l j a

theorem pySet_mem {α : Type} {l l' : List α} {i : Int} {a : α}
    (h : pySet l i a = some l') : ∀ b ∈ l', b ∈ l ∨ b = a := by
  unfold pySet at h
  cases hj : pyIdx l.length i with
  | none => rw [hj] at h; cases h
  | some j =>
      rw [hj] at h; cases h
      intro b hb
      exact List.mem_or_eq_of_mem_set hb

theorem pySet_get? {α : Type} {l l' : List α} {i : Int} {a : α}
    (h : pySet l i a = some l') (j : Nat) :
    (pyIdx l.length i = some j ∧ l'.get? j = if j < l.length then some a else none) ∨
    (pyIdx l.length i ≠ some j ∧ l'.get? j = l.get? j) := by
  unfold pySet at h
  cases hj : pyIdx l.length i with
  | none => rw [hj] at h; cases h
  | some k =>
      rw [hj] at h; cases h
      by_cases hk : k = j
      · subst hk
        left
        refine ⟨rfl, ?_⟩
        rw [List.get?_set_eq]
        by_cases hlt : k < l.length
        · rw [List.get?_eq_get hlt]; simp [hlt]
        · rw [List.get?_eq_none.2 (by omega)]; simp [hlt]
      · right
        exact ⟨by simp [hk], List.get?_set_ne _ _ hk⟩

/-- For a nonnegative in-range index the resolved position is the index
itself. -/
theorem pyIdx_nonneg {len : Nat} {i : Int} (h0 : 0 ≤ i) (hl : i < (len : Int)) :
    pyIdx len i = some i.toNat := by
  unfold pyIdx
  simp [h0, hl]

/-- A write at nonnegative in-range `v` changes exactly position
`v.toNat`. -/
theorem pySet_get?_of_nonneg {α : Type} {l l' : List α} {v : Int} {a : α}
    (h : pySet l v a = some l') (hv : 0 ≤ v) (j : Nat) :
    (v = (j : Int) ∧ l'.get? j = some a) ∨ (v ≠ (j : Int) ∧ l'.get? j = l.get? j) := by
  unfold pySet at h
  cases hj : pyIdx l.length v with
  | none => rw [hj] at h; cases h
  | some k =>
      rw [hj] at h; cases h
      have hk : k = v.toNat ∧ v < (l.length : Int) := by
        unfold pyIdx at hj
        by_cases hlt : v < (l.length : Int)
        · simp [hv, hlt] at hj; omega
        · simp [hv, hlt] at hj
      by_cases hvj : v = (j : Int)
      · left
        refine ⟨hvj, ?_⟩
        have : k = j := by omega
        subst this
        rw [List.get?_set_eq]
        have : k < l.length := by omega
        rw [List.get?_eq_get this]
        simp
      · right
        refine ⟨hvj, List.get?_set_ne _ _ ?_⟩
        omega


theorem pyIdx_eq_none_iff {len : Nat} {i : Int} :
    pyIdx len i = none ↔ (i < -(len : Int) ∨ (len : Int) ≤ i) := by
  unfold pyIdx
  by_cases h0 : 0 ≤ i
  · by_cases h1 : i < (len : Int) <;> simp [h0, h1] <;> omega
  · by_cases h1 : 0 ≤ i + (len : Int) <;> simp [h0, h1] <;> omega

theorem pyIdx_lt {len : Nat} {i : Int} {j : Nat} (h : pyIdx len i = some j) :
    j < len := by
  unfold pyIdx at h
  by_cases h0 : 0 ≤ i
  · by_cases h1 : i < (len : Int) <;> simp [h0, h1] at h <;> omega
  · by_cases h1 : 0 ≤ i + (len : Int) <;> simp [h0, h1] at h <;> omega

theorem pyGet_eq_none_iff {α : Type} {l : List α} {i : Int} :
    pyGet l i = none ↔ (i < -(l.length : Int) ∨ (l.length : Int) ≤ i) := by
  rw [← pyIdx_eq_none_iff]
  unfold pyGet
  cases h : pyIdx l.length i with
  | none => simp
  | some j =>
      have hj := pyIdx_lt h
      simp [List.get?_eq_none]
      omega

theorem pySet_eq_none_iff {α : Type} {l : List α} {i : Int} {a : α} :
    pySet l i a = none ↔ (i < -(l.length : Int) ∨ (l.length : Int) ≤ i) := by
  rw [← pyIdx_eq_none_iff]
  unfold pySet
  cases h : pyIdx l.length i with
  | none => simp
  | some j => simp

/-! ## The frame property of `R`: only `MATE` changes -/

/-- All fields except `MATE` agree between two states. -/
def FrameR (s s' : MM) : Prop :=
  s'.V = s.V ∧ s'.VPlusOne = s.VPlusOne ∧ s'.END = s.END ∧ s'.graph = s.graph ∧
  s'.outerEdges = s.outerEdges ∧ s'.outerVertices = s.outerVertices ∧
  s'.outerIdx = s.outerIdx ∧ s'.LABEL = s.LABEL ∧ s'.FIRST = s.FIRST

theorem FrameR.refl (s : MM) : FrameR s s :=
  ⟨rfl, rfl, rfl, rfl, rfl, rfl, rfl, rfl, rfl⟩

theorem FrameR.trans {s₁ s₂ s₃ : MM} (h : FrameR s₁ s₂) (h' : FrameR s₂ s₃) :
    FrameR s₁ s₃ := by
  obtain ⟨a1, a2, a3, a4, a5, a6, a7, a8, a9⟩ := h
  obtain ⟨b1, b2, b3, b4, b5, b6, b7, b8, b9⟩ := h'
  exact ⟨b1.trans a1, b2.trans a2, b3.trans a3, b4.trans a4, b5.trans a5,
    b6.trans a6, b7.trans a7, b8.trans a8, b9.trans a9⟩

/-- `m` takes every `P`-related input state to a `P`-related output
state on normal return. -/
def Preserves (P : MM → MM → Prop) {α : Type} (m : PyM α) : Prop :=
  ∀ s s' a, m s = .ok s' a → P s s'

theorem Preserves.bind (P : MM → MM → Prop)
    (hP : ∀ a b c : MM, P a b → P b c → P a c) {α β : Type}
    {m : PyM α} {f : α → PyM β}
    (hm : Preserves P m) (hf : ∀ a, Preserves P (f a)) :
    Preserves P (m >>= f) := by
  intro s s' b h
  simp only [bind_apply] at h
  cases hms : m s with
  | ok s₁ a => rw [hms] at h; simp only [Py.bind_ok] at h
               exact hP _ _ _ (hm _ _ _ hms) (hf a _ _ _ h)
  | exn s₁ => rw [hms] at h; cases h
  | oom => rw [hms] at h; cases h

theorem Preserves.ite (P : MM → MM → Prop) {α : Type} (c : Prop) [Decidable c]
    {m₁ m₂ : PyM α} (h₁ : Preserves P m₁) (h₂ : Preserves P m₂) :
    Preserves P (if c then m₁ else m₂) := by
  by_cases hc : c
  · simpa [hc] using h₁
  · simpa [hc] using h₂

theorem Preserves.pure (P : MM → MM → Prop) (hrefl : ∀ s, P s s) {α : Type} (a : α) :
    Preserves P (pure a : PyM α) := by
  intro s s' b h
  simp only [pure_apply, Py.ok.injEq] at h
  rw [← h.1]
  exact hrefl s

theorem Preserves.liftO (P : MM → MM → Prop) (hrefl : ∀ s, P s s) {α : Type}
    (o : Option α) : Preserves P (liftO o) := by
  intro s s' b h
  cases o with
  | some a => simp only [liftO_some, Py.ok.injEq] at h; rw [← h.1]; exact hrefl s
  | none => simp at h

theorem frTrans : ∀ a b c : MM, FrameR a b → FrameR b c → FrameR a c :=
  fun _ _ _ h h' => h.trans h'

theorem mateGet_frame (v : Int) : Preserves FrameR (mateGet v) := by
  intro s s' a hm
  simp only [mateGet_apply] at hm
  cases hg : pyGet s.MATE v with
  | some t => rw [hg] at hm; simp only [liftO_some, Py.ok.injEq] at hm
              rw [← hm.1]; exact FrameR.refl s
  | none => rw [hg] at hm; cases hm

theorem labelGet_frame (v : Int) : Preserves FrameR (labelGet v) := by
  intro s s' a hm
  simp only [labelGet_apply] at hm
  cases hg : pyGet s.LABEL v with
  | some t => rw [hg] at hm; simp only [liftO_some, Py.ok.injEq] at hm
              rw [← hm.1]; exact FrameR.refl s
  | none => rw [hg] at hm; cases hm

theorem mateSet_frame (v x : Int) : Preserves FrameR (mateSet v x) := by
  intro s s' a hm
  rw [mateSet_apply] at hm
  cases hg : pySet s.MATE v x with
  | some M => rw [hg] at hm; simp only [Py.ok.injEq] at hm
              rw [← hm.1]; exact ⟨rfl, rfl, rfl, rfl, rfl, rfl, rfl, rfl, rfl⟩
  | none => rw [hg] at hm; cases hm

theorem getS_frame : Preserves FrameR getS := by
  intro s s' a hm
  simp only [getS_apply, Py.ok.injEq] at hm
  rw [← hm.1]
  exact FrameR.refl s

theorem hasVertexLabel_frame (v : Int) : Preserves FrameR (hasVertexLabel v) := by
  unfold hasVertexLabel
  exact Preserves.bind FrameR frTrans getS_frame fun _ =>
    Preserves.bind FrameR frTrans (labelGet_frame v) fun _ =>
      Preserves.pure FrameR FrameR.refl _

theorem getEdge_frame (n : Int) : Preserves FrameR (getEdge n) := by
  unfold getEdge
  refine Preserves.bind FrameR frTrans getS_frame fun st => ?_
  refine Preserves.bind FrameR frTrans (Preserves.liftO FrameR FrameR.refl _) fun a => ?_
  refine Preserves.bind FrameR frTrans (Preserves.liftO FrameR FrameR.refl _) fun b => ?_
  exact Preserves.pure FrameR FrameR.refl _

/-- `R` only rewrites `MATE`: every other member variable is untouched
by a normally-returning call. -/
theorem R_only_MATE : ∀ f v w, Preserves FrameR (R f v w) := by
  intro f
  induction f with
  | zero =>
      intro v w s s' a h
      simp [R] at h
  | succ f ih =>
      intro v w
      rw [R]
      refine Preserves.bind FrameR frTrans (mateGet_frame v) fun t => ?_
      refine Preserves.bind FrameR frTrans (mateSet_frame v w) fun _ => ?_
      refine Preserves.bind FrameR frTrans (mateGet_frame t) fun mt => ?_
      refine Preserves.ite FrameR _ (Preserves.pure FrameR FrameR.refl _) ?_
      refine Preserves.bind FrameR frTrans (hasVertexLabel_frame v) fun hv => ?_
      refine Preserves.ite FrameR _ ?_ ?_
      · refine Preserves.bind FrameR frTrans (labelGet_frame v) fun lv => ?_
        refine Preserves.bind FrameR frTrans (mateSet_frame t lv) fun _ => ?_
        exact ih lv t
      · refine Preserves.bind FrameR frTrans (labelGet_frame v) fun lv => ?_
        refine Preserves.bind FrameR frTrans (getEdge_frame lv) fun e => ?_
        refine Preserves.bind FrameR frTrans (ih e.1 e.2) fun _ => ?_
        exact ih e.2 e.1

/-! ## Operation- and procedure-level specifications for the
outer-iff invariant (claim C7) -/

theorem pyXor_nonneg (a b : Int) : 0 ≤ pyXor a b := by
  unfold pyXor
  exact Int.ofNat_nonneg _

/-- `Good` only looks at non-`MATE` fields, so it transports along the
frame relation of `R`. -/
theorem good_of_frameR {s s' : MM} (hf : FrameR s s') (h : Good s) : Good s' := by
  obtain ⟨hV, hVP, hEND, hG, hOE, hOV, hOI, hLAB, hFIR⟩ := hf
  obtain ⟨⟨l1, l2, l3⟩, h2, h3, h4, h5⟩ := h
  refine ⟨⟨?_, ?_, ?_⟩, ?_, ?_, ?_, ?_⟩
  · rw [hLAB, hV]; exact l1
  · rw [hVP, hV]; exact l2
  · rw [hV]; exact l3
  · intro x hx
    rw [hFIR] at hx
    exact h2 x hx
  · intro l hl
    rw [hG] at hl
    exact h3 l hl
  · intro p hp
    rw [hOE] at hp
    exact h4 p hp
  · intro i hi l hl h0
    rw [hOV]
    rw [hLAB] at hl
    exact h5 i hi l hl h0

theorem getS_ok {s s' : MM} {a : MM} (h : getS s = Py.ok s' a) : s' = s ∧ a = s := by
  simp only [getS_apply, Py.ok.injEq] at h
  exact ⟨h.1.symm, h.2.symm⟩

theorem liftO_ok {α : Type} {o : Option α} {s s' : MM} {a : α}
    (h : liftO o s = Py.ok s' a) : s' = s ∧ o = some a := by
  cases o with
  | some b => simp only [liftO_some, Py.ok.injEq] at h; exact ⟨h.1.symm, by rw [h.2]⟩
  | none => simp at h

theorem mateGet_ok {v : Int} {s s' : MM} {m : Int} (h : mateGet v s = Py.ok s' m) :
    s' = s ∧ pyGet s.MATE v = some m := by
  simp only [mateGet_apply] at h
  exact liftO_ok h

theorem labelGet_ok {v : Int} {s s' : MM} {m : Int} (h : labelGet v s = Py.ok s' m) :
    s' = s ∧ pyGet s.LABEL v = some m := by
  simp only [labelGet_apply] at h
  exact liftO_ok h

theorem firstGet_ok {v : Int} {s s' : MM} {m : Int} (h : firstGet v s = Py.ok s' m) :
    s' = s ∧ pyGet s.FIRST v = some m := by
  simp only [firstGet_apply] at h
  exact liftO_ok h

/-- A `FirstNN` state only hands out nonnegative values through
`firstGet`. -/
theorem firstGet_nonneg {v : Int} {s s' : MM} {m : Int}
    (h : firstGet v s = Py.ok s' m) (hF : FirstNN s) : 0 ≤ m := by
  obtain ⟨-, h2⟩ := firstGet_ok h
  exact hF m (pyGet_mem h2)

theorem isMatched_ok {v : Int} {s s' : MM} {b : Bool}
    (h : isMatched v s = Py.ok s' b) :
    s' = s ∧ ∃ m, pyGet s.MATE v = some m ∧ b = decide (0 < m) := by
  unfold isMatched at h
  simp only [bind_apply] at h
  cases hm : pyGet s.MATE v with
  | none => simp [hm] at h
  | some m =>
      simp only [mateGet_apply, hm, liftO_some, Py.bind_ok, pure_apply,
        Py.ok.injEq] at h
      exact ⟨h.1.symm, m, rfl, h.2.symm⟩

theorem isOuterVertex_ok {v : Int} {s s' : MM} {b : Bool}
    (h : isOuterVertex v s = Py.ok s' b) :
    s' = s ∧ b = (v ∈ s.outerVertices : Bool) := by
  simp only [isOuterVertex_apply, Py.ok.injEq] at h
  exact ⟨h.1.symm, h.2.symm⟩

theorem getEdge_ok {n : Int} {s s' : MM} {p : Int × Int}
    (h : getEdge n s = Py.ok s' p) : s' = s := by
  unfold getEdge at h
  simp only [bind_apply, getS_apply, Py.bind_ok] at h
  cases ha : pyGet s.END (n - s.VPlusOne) with
  | none => simp [ha] at h
  | some a =>
      simp only [ha, liftO_some, Py.bind_ok] at h
      cases hb : pyGet s.END (n - s.VPlusOne + 1) with
      | none => simp [hb] at h
      | some b =>
          simp only [hb, liftO_some, Py.bind_ok, bind_apply, pure_apply,
            Py.ok.injEq] at h
          exact h.1.symm

theorem chooseAnEdge_ok {s s' : MM} {c : Option (Int × Int)}
    (h : chooseAnEdge s = Py.ok s' c) :
    (c = none ∧ s' = s) ∨
    (∃ x e, c = some (x, e) ∧ (x, e) ∈ s.outerEdges ∧
      s' = { s with outerIdx := s.outerIdx + 1 }) := by
  unfold chooseAnEdge at h
  by_cases hlt : s.outerIdx < s.outerEdges.length
  · simp only [hlt, dif_pos, Py.ok.injEq] at h
    right
    refine ⟨(s.outerEdges.get ⟨s.outerIdx, hlt⟩).1,
      (s.outerEdges.get ⟨s.outerIdx, hlt⟩).2, ?_, ?_, h.1.symm⟩
    · rw [← h.2]
    · exact List.get_mem _ _ _
  · simp only [hlt, dif_neg, not_false_iff, Py.ok.injEq] at h
    left
    exact ⟨h.2.symm, h.1.symm⟩

/-- Complete case analysis of a normally-returning `setLabel`. -/
theorem setLabel_ok_cases {v l : Int} {s s' : MM} {a : Unit}
    (h : setLabel v l s = Py.ok s' a) :
    ∃ L', pySet s.LABEL v l = some L' ∧
      ((0 ≤ l ∧ v ∉ s.outerVertices ∧ ∃ gv, pyGet s.graph v = some gv ∧
         s' = { s with
                LABEL := L'
                outerVertices := s.outerVertices ++ [v]
                outerEdges := s.outerEdges ++ gv.map (fun e => (v, e)) }) ∨
       (¬ (0 ≤ l ∧ v ∉ s.outerVertices) ∧ s' = { s with LABEL := L' })) := by
  unfold setLabel at h
  simp only [bind_apply] at h
  rw [labelSet_apply] at h
  cases hL : pySet s.LABEL v l with
  | none => simp [hL] at h
  | some L' =>
      simp only [hL, Py.bind_ok, bind_apply, getS_apply] at h
      refine ⟨L', rfl, ?_⟩
      have e1 : ({ s with LABEL := L' } : MM).outerVertices = s.outerVertices := rfl
      have e2 : ({ s with LABEL := L' } : MM).graph = s.graph := rfl
      rw [e1, e2] at h
      by_cases hc : 0 ≤ l ∧ v ∉ s.outerVertices
      · rw [if_pos hc] at h
        simp only [bind_apply] at h
        cases hg : pyGet s.graph v with
        | none => simp [hg] at h
        | some gv =>
            simp only [hg, liftO_some, Py.bind_ok, setS_apply, Py.ok.injEq] at h
            left
            exact ⟨hc.1, hc.2, gv, rfl, h.1.symm⟩
      · rw [if_neg hc] at h
        simp only [pure_apply, Py.ok.injEq] at h
        right
        exact ⟨hc, h.1.symm⟩

theorem pySet_get?_all {α : Type} {l l' : List α} {i : Int} {a : α}
    (h : pySet l i a = some l') (j : Nat) :
    l'.get? j = l.get? j ∨ l'.get? j = some a := by
  rcases pySet_get? h j with ⟨hj, he⟩ | ⟨_, he⟩
  · right
    rw [he, if_pos (pyIdx_lt hj)]
  · left
    exact he

theorem pySet_get?_at {α : Type} {l l' : List α} {i : Int} {a : α}
    (h : pySet l i a = some l') (h0 : 0 ≤ i) (hlt : i < (l.length : Int)) :
    l'.get? i.toNat = some a := by
  have hidx := pyIdx_nonneg h0 hlt
  rcases pySet_get? h i.toNat with ⟨hj, he⟩ | ⟨hne, _⟩
  · rw [he, if_pos]
    omega
  · exact absurd hidx hne

/-- The effect of `setLabel` on the label array and the untouched
fields, plus: a negative label never changes the outer set or queue. -/
theorem setLabel_write_spec {v l : Int} {s s' : MM} {a : Unit}
    (h : setLabel v l s = Py.ok s' a) :
    s'.LABEL.length = s.LABEL.length ∧
    (∀ p : Nat, s'.LABEL.get? p = s.LABEL.get? p ∨ s'.LABEL.get? p = some l) ∧
    (0 ≤ v → v < (s.LABEL.length : Int) → s'.LABEL.get? v.toNat = some l) ∧
    s'.V = s.V ∧ s'.VPlusOne = s.VPlusOne ∧ s'.graph = s.graph ∧
    s'.MATE = s.MATE ∧ s'.FIRST = s.FIRST ∧ s'.END = s.END ∧
    (l < 0 → s'.outerVertices = s.outerVertices ∧ s'.outerEdges = s.outerEdges ∧
      s'.outerIdx = s.outerIdx) := by
  obtain ⟨L', hL, hcase⟩ := setLabel_ok_cases h
  rcases hcase with ⟨hl0, hnotin, gv, hgv, rfl⟩ | ⟨hneg, rfl⟩
  · refine ⟨pySet_length hL, pySet_get?_all hL, ?_, rfl, rfl, rfl, rfl, rfl, rfl, ?_⟩
    · intro h0 hlt
      exact pySet_get?_at hL h0 hlt
    · intro hlneg
      omega
  · refine ⟨pySet_length hL, pySet_get?_all hL, ?_, rfl, rfl, rfl, rfl, rfl, rfl, ?_⟩
    · intro h0 hlt
      exact pySet_get?_at hL h0 hlt
    · intro _
      exact ⟨rfl, rfl, rfl⟩

/-- `setLabel` preserves `Good` whenever a nonnegative label is only
ever written at a nonnegative vertex id, keeps the outer set monotone,
and guarantees membership of the written vertex for nonnegative
labels. -/
theorem setLabel_spec {v l : Int} {s s' : MM} {a : Unit}
    (h : setLabel v l s = Py.ok s' a) (hGood : GoodX s) (hsafe : 0 ≤ l → 0 ≤ v) :
    GoodX s' ∧ (∀ x ∈ s.outerVertices, x ∈ s'.outerVertices) ∧
    (0 ≤ l → v ∈ s'.outerVertices) := by
  obtain ⟨L', hL, hcase⟩ := setLabel_ok_cases h
  obtain ⟨⟨⟨k1, k2, k3⟩, kF, kG, kQ, kLO⟩, kM, kE, kQF⟩ := hGood
  have hlen := pySet_length hL
  rcases hcase with ⟨hl0, hnotin, gv, hgv, rfl⟩ | ⟨hneg, rfl⟩
  · have hv0 : 0 ≤ v := hsafe hl0
    refine ⟨⟨⟨⟨by simpa [hlen] using k1, k2, k3⟩, kF, kG, ?_, ?_⟩, kM, kE, ?_⟩, ?_, ?_⟩
    · intro p hp
      rcases List.mem_append.1 hp with hold | hnew
      · exact kQ p hold
      · obtain ⟨e, he, rfl⟩ := List.mem_map.1 hnew
        exact kG gv (pyGet_mem hgv) e he
    · intro p hp lp hlp h0
      rcases pySet_get?_of_nonneg hL hv0 p with ⟨hvp, he⟩ | ⟨hvp, he⟩
      · apply List.mem_append.2
        right
        rw [← hvp]
        exact List.mem_singleton.2 rfl
      · rw [he] at hlp
        exact List.mem_append.2 (Or.inl (kLO p hp lp hlp h0))
    · intro p hp
      rcases List.mem_append.1 hp with hold | hnew
      · exact kQF p hold
      · obtain ⟨e, he, rfl⟩ := List.mem_map.1 hnew
        exact hv0
    · intro x hx
      exact List.mem_append.2 (Or.inl hx)
    · intro _
      exact List.mem_append.2 (Or.inr (List.mem_singleton.2 rfl))
  · refine ⟨⟨⟨⟨by simpa [hlen] using k1, k2, k3⟩, kF, kG, kQ, ?_⟩, kM, kE, kQF⟩, ?_, ?_⟩
    · intro p hp lp hlp h0
      by_cases hl0 : 0 ≤ l
      · have hv0 : 0 ≤ v := hsafe hl0
        rcases pySet_get?_of_nonneg hL hv0 p with ⟨hvp, he⟩ | ⟨hvp, he⟩
        · have hvin : v ∈ s.outerVertices := by
            by_contra hc
            exact hneg ⟨hl0, hc⟩
          rw [← hvp]
          exact hvin
        · rw [he] at hlp
          exact kLO p hp lp hlp h0
      · rcases pySet_get?_all hL p with he | he
        · rw [he] at hlp
          exact kLO p hp lp hlp h0
        · rw [he] at hlp
          cases hlp
          omega
    · intro x hx
      exact hx
    · intro hl0
      by_contra hc
      exact hneg ⟨hl0, fun hvin => hc hvin⟩

/-- Inversion of a successful bind. -/
theorem bind_ok_inv {α β : Type} {m : PyM α} {f : α → PyM β} {s s' : MM} {b : β}
    (h : (m >>= f) s = Py.ok s' b) :
    ∃ s₁ a, m s = Py.ok s₁ a ∧ f a s₁ = Py.ok s' b := by
  simp only [bind_apply] at h
  cases hm : m s with
  | ok s₁ a => rw [hm] at h; exact ⟨s₁, a, rfl, h⟩
  | exn s₁ => rw [hm] at h; cases h
  | oom => rw [hm] at h; cases h

theorem isFlagged_ok {v e : Int} {s s' : MM} {b : Bool}
    (h : isFlagged v e s = Py.ok s' b) : s' = s := by
  unfold isFlagged at h
  obtain ⟨s₁, m, h1, hk1⟩ := bind_ok_inv h
  obtain ⟨he1, -⟩ := labelGet_ok h1
  subst he1
  simp only [pure_apply, Py.ok.injEq] at hk1
  exact hk1.1.symm

theorem setFlag_spec {r e : Int} {s s' : MM} {a : Unit}
    (h : setFlag r e s = Py.ok s' a) (hGood : GoodX s) (he : 0 < e) :
    GoodX s' ∧ (∀ x ∈ s.outerVertices, x ∈ s'.outerVertices) := by
  unfold setFlag at h
  obtain ⟨hg1, hg2, -⟩ := setLabel_spec h hGood (fun h0 => absurd h0 (by omega))
  exact ⟨hg1, hg2⟩

theorem firstSet_spec {v x : Int} {s s' : MM} {a : Unit}
    (h : firstSet v x s = Py.ok s' a) (hGood : GoodX s) (hx : 0 ≤ x) :
    GoodX s' ∧ s'.outerVertices = s.outerVertices := by
  rw [firstSet_apply] at h
  cases hF : pySet s.FIRST v x with
  | none => rw [hF] at h; cases h
  | some F =>
      rw [hF] at h
      simp only [Py.ok.injEq] at h
      obtain ⟨⟨⟨k1, k2, k3⟩, kF, kG, kQ, kLO⟩, kM, kE, kQF⟩ := hGood
      rw [← h.1]
      refine ⟨⟨⟨⟨k1, k2, k3⟩, ?_, kG, kQ, kLO⟩, kM, kE, kQF⟩, rfl⟩
      intro z hz
      rcases pySet_mem hF z hz with hold | hnew
      · exact kF z hold
      · rw [hnew]
        exact hx

theorem l12_body_spec (f : Nat)
    (ih : ∀ (e r0 s0 : Int), 0 < e →
      ∀ s s' j, l12 f e r0 s0 s = Py.ok s' j → GoodX s →
        GoodX s' ∧ (∀ x ∈ s.outerVertices, x ∈ s'.outerVertices) ∧ 0 ≤ j)
    (e r1 s1 : Int) (he : 0 < e) (s s' : MM) (j : Int)
    (h : (do
        let m ← mateGet r1
        let lm ← labelGet m
        let r ← firstGet lm
        let fl ← isFlagged r e
        if fl then
          pure r
        else do
          setFlag r e
          l12 f e r s1) s = Py.ok s' j)
    (hGood : GoodX s) :
    GoodX s' ∧ (∀ x ∈ s.outerVertices, x ∈ s'.outerVertices) ∧ 0 ≤ j := by
  obtain ⟨s₁, m, h1, hk1⟩ := bind_ok_inv h
  obtain ⟨he1, -⟩ := mateGet_ok h1
  subst he1
  obtain ⟨s₂, lm, h2, hk2⟩ := bind_ok_inv hk1
  obtain ⟨he2, -⟩ := labelGet_ok h2
  subst he2
  obtain ⟨s₃, r2, h3, hk3⟩ := bind_ok_inv hk2
  obtain ⟨he3, hr2⟩ := firstGet_ok h3
  subst he3
  obtain ⟨s₄, fl, h4, hk4⟩ := bind_ok_inv hk3
  have hs4 := isFlagged_ok h4
  subst hs4
  by_cases hfl : fl = true
  · rw [if_pos hfl] at hk4
    simp only [pure_apply, Py.ok.injEq] at hk4
    obtain ⟨heq1, heq2⟩ := hk4
    subst heq1
    subst heq2
    refine ⟨hGood, fun x hx => hx, ?_⟩
    exact hGood.1.2.1 r2 (pyGet_mem hr2)
  · rw [if_neg hfl] at hk4
    obtain ⟨s₅, u, h5, hk5⟩ := bind_ok_inv hk4
    obtain ⟨hG5, hmono5⟩ := setFlag_spec h5 hGood he
    obtain ⟨hG6, hmono6, hj6⟩ := ih e r2 s1 he s₅ s' j hk5 hG5
    exact ⟨hG6, fun x hx => hmono6 x (hmono5 x hx), hj6⟩

theorem l12_spec : ∀ (f : Nat) (e r0 s0 : Int), 0 < e →
    ∀ s s' j, l12 f e r0 s0 s = Py.ok s' j → GoodX s →
      GoodX s' ∧ (∀ x ∈ s.outerVertices, x ∈ s'.outerVertices) ∧ 0 ≤ j := by
  intro f
  induction f with
  | zero =>
      intro e r0 s0 he s s' j h
      simp [l12, pyOom] at h
  | succ f ih =>
      intro e r0 s0 he s s' j h hGood
      rw [l12] at h
      by_cases hs0 : s0 ≠ 0
      · rw [if_pos hs0] at h
        exact l12_body_spec f ih e s0 r0 he s s' j h hGood
      · rw [if_neg hs0] at h
        exact l12_body_spec f ih e r0 s0 he s s' j h hGood

theorem l34_spec : ∀ (f : Nat) (e join : Int), 0 < e → 0 ≤ join →
    ∀ v s s' a, l34 f v join e s = Py.ok s' a → GoodX s → 0 ≤ v →
      GoodX s' ∧ (∀ x ∈ s.outerVertices, x ∈ s'.outerVertices) := by
  intro f
  induction f with
  | zero =>
      intro e join he hj v s s' a h
      simp [l34, pyOom] at h
  | succ f ih =>
      intro e join he hj v s s' a h hGood hv
      rw [l34] at h
      by_cases hvj : v = join
      · rw [if_pos hvj] at h
        simp only [pure_apply, Py.ok.injEq] at h
        rw [← h.1]
        exact ⟨hGood, fun x hx => hx⟩
      · rw [if_neg hvj] at h
        obtain ⟨s₁, u1, h1, hk1⟩ := bind_ok_inv h
        obtain ⟨hG1, hmono1, -⟩ := setLabel_spec h1 hGood (fun _ => hv)
        obtain ⟨s₂, u2, h2, hk2⟩ := bind_ok_inv hk1
        obtain ⟨hG2, hset2⟩ := firstSet_spec h2 hG1 hj
        obtain ⟨s₃, m, h3, hk3⟩ := bind_ok_inv hk2
        obtain ⟨he3, -⟩ := mateGet_ok h3
        subst he3
        obtain ⟨s₄, lm, h4, hk4⟩ := bind_ok_inv hk3
        obtain ⟨he4, -⟩ := labelGet_ok h4
        subst he4
        obtain ⟨s₅, v2, h5, hk5⟩ := bind_ok_inv hk4
        obtain ⟨he5, hv2⟩ := firstGet_ok h5
        subst he5
        have hv20 : 0 ≤ v2 := hG2.1.2.1 v2 (pyGet_mem hv2)
        obtain ⟨hG6, hmono6⟩ := ih e join he hj v2 _ s' a hk5 hG2 hv20
        refine ⟨hG6, fun x hx => hmono6 x ?_⟩
        rw [hset2]
        exact hmono1 x hx

theorem l5Fold_spec : ∀ (is : List Int) (join : Int), 0 ≤ join →
    ∀ s s' a, l5Fold join is s = Py.ok s' a → GoodX s →
      GoodX s' ∧ s'.outerVertices = s.outerVertices := by
  intro is
  induction is with
  | nil =>
      intro join hj s s' a h hGood
      simp only [l5Fold, pure_apply, Py.ok.injEq] at h
      rw [← h.1]
      exact ⟨hGood, rfl⟩
  | cons i is ih =>
      intro join hj s s' a h hGood
      rw [l5Fold] at h
      obtain ⟨s₁, fi, h1, hk1⟩ := bind_ok_inv h
      obtain ⟨he1, -⟩ := firstGet_ok h1
      subst he1
      obtain ⟨s₂, oi, h2, hk2⟩ := bind_ok_inv hk1
      obtain ⟨he2, -⟩ := isOuterVertex_ok h2
      subst he2
      by_cases hoi : oi = true
      · rw [if_pos hoi] at hk2
        obtain ⟨s₃, u, h3, hk3⟩ := bind_ok_inv hk2
        obtain ⟨hG3, hset3⟩ := firstSet_spec h3 hGood hj
        obtain ⟨hG4, hset4⟩ := ih join hj s₃ s' a hk3 hG3
        rw [hset4, hset3]
        exact ⟨hG4, rfl⟩
      · rw [if_neg hoi] at hk2
        obtain ⟨s₃, u, h3, hk3⟩ := bind_ok_inv hk2
        simp only [pure_apply, Py.ok.injEq] at h3
        obtain ⟨he3, -⟩ := h3
        subst he3
        exact ih join hj _ s' a hk3 hGood

theorem L_spec {f : Nat} {x y e : Int} {s s' : MM} {a : Unit}
    (h : L f x y e s = Py.ok s' a) (hGood : GoodX s) (he : 0 < e) :
    GoodX s' ∧ (∀ z ∈ s.outerVertices, z ∈ s'.outerVertices) := by
  unfold L at h
  obtain ⟨s₁, r0, h1, hk1⟩ := bind_ok_inv h
  obtain ⟨he1, -⟩ := firstGet_ok h1
  subst he1
  obtain ⟨s₂, s0v, h2, hk2⟩ := bind_ok_inv hk1
  obtain ⟨he2, -⟩ := firstGet_ok h2
  subst he2
  by_cases hrs : r0 = s0v
  · rw [if_pos hrs] at hk2
    simp only [pure_apply, Py.ok.injEq] at hk2
    rw [← hk2.1]
    exact ⟨hGood, fun z hz => hz⟩
  · rw [if_neg hrs] at hk2
    obtain ⟨s₃, u1, h3, hk3⟩ := bind_ok_inv hk2
    obtain ⟨hG3, hmono3⟩ := setFlag_spec h3 hGood he
    obtain ⟨s₄, join, h4, hk4⟩ := bind_ok_inv hk3
    obtain ⟨hG4, hmono4, hjoin⟩ := l12_spec f e r0 s0v he s₃ s₄ join h4 hG3
    obtain ⟨s₅, vx, h5, hk5⟩ := bind_ok_inv hk4
    obtain ⟨he5, hvx⟩ := firstGet_ok h5
    subst he5
    obtain ⟨s₆, vy, h6, hk6⟩ := bind_ok_inv hk5
    obtain ⟨he6, hvy⟩ := firstGet_ok h6
    subst he6
    have hvx0 : 0 ≤ vx := hG4.1.2.1 vx (pyGet_mem hvx)
    have hvy0 : 0 ≤ vy := hG4.1.2.1 vy (pyGet_mem hvy)
    obtain ⟨s₇, u2, h7, hk7⟩ := bind_ok_inv hk6
    obtain ⟨hG7, hmono7⟩ := l34_spec f e join he hjoin vx _ s₇ u2 h7 hG4 hvx0
    obtain ⟨s₈, u3, h8, hk8⟩ := bind_ok_inv hk7
    obtain ⟨hG8, hmono8⟩ := l34_spec f e join he hjoin vy s₇ s₈ u3 h8 hG7 hvy0
    obtain ⟨s₉, st, h9, hk9⟩ := bind_ok_inv hk8
    obtain ⟨he9, hst⟩ := getS_ok h9
    subst he9
    obtain ⟨hG10, hset10⟩ := l5Fold_spec st.outerVertices join hjoin _ s' a hk9 hG8
    refine ⟨hG10, fun z hz => ?_⟩
    rw [hset10]
    exact hmono8 z (hmono7 z (hmono4 z (hmono3 z hz)))

theorem hasVertexLabel_ok {v : Int} {s s' : MM} {b : Bool}
    (h : hasVertexLabel v s = Py.ok s' b) :
    s' = s ∧ ∃ l, pyGet s.LABEL v = some l ∧ b = decide (1 ≤ l ∧ l ≤ s.V) := by
  unfold hasVertexLabel at h
  obtain ⟨s₁, st, h1, hk1⟩ := bind_ok_inv h
  obtain ⟨he1, hst⟩ := getS_ok h1
  subst hst
  subst he1
  obtain ⟨s₂, l, h2, hk2⟩ := bind_ok_inv hk1
  obtain ⟨he2, hl⟩ := labelGet_ok h2
  subst he2
  simp only [pure_apply, Py.ok.injEq] at hk2
  exact ⟨hk2.1.symm, l, hl, hk2.2.symm⟩

theorem mateSet_ok_inv {v x : Int} {s s' : MM} {a : Unit}
    (h : mateSet v x s = Py.ok s' a) :
    ∃ M, pySet s.MATE v x = some M ∧ s' = { s with MATE := M } := by
  rw [mateSet_apply] at h
  cases hM : pySet s.MATE v x with
  | none => rw [hM] at h; cases h
  | some M =>
      rw [hM] at h
      simp only [Py.ok.injEq] at h
      exact ⟨M, rfl, h.1.symm⟩

theorem mateSet_spec {v x : Int} {s s' : MM} {a : Unit}
    (h : mateSet v x s = Py.ok s' a) (hX : GoodX s) (hx : 0 ≤ x) :
    GoodX s' ∧ s'.outerVertices = s.outerVertices := by
  obtain ⟨M, hM, rfl⟩ := mateSet_ok_inv h
  obtain ⟨⟨⟨k1, k2, k3⟩, kF, kG, kQ, kLO⟩, kM, kE, kQF⟩ := hX
  refine ⟨⟨⟨⟨k1, k2, k3⟩, kF, kG, kQ, kLO⟩, ?_, kE, kQF⟩, rfl⟩
  intro m hm
  rcases pySet_mem hM m hm with hold | hnew
  · exact kM m hold
  · rw [hnew]
    exact hx

theorem getEdge_mem {n : Int} {s s' : MM} {p : Int × Int}
    (h : getEdge n s = Py.ok s' p) : s' = s ∧ p.1 ∈ s.END ∧ p.2 ∈ s.END := by
  unfold getEdge at h
  obtain ⟨s₁, st, h1, hk1⟩ := bind_ok_inv h
  obtain ⟨he1, hst⟩ := getS_ok h1
  subst hst
  subst he1
  obtain ⟨s₂, a2, h2, hk2⟩ := bind_ok_inv hk1
  obtain ⟨he2, ha⟩ := liftO_ok h2
  subst he2
  obtain ⟨s₃, b2, h3, hk3⟩ := bind_ok_inv hk2
  obtain ⟨he3, hb⟩ := liftO_ok h3
  subst he3
  simp only [pure_apply, Py.ok.injEq] at hk3
  obtain ⟨hs, hp⟩ := hk3
  refine ⟨hs.symm, ?_, ?_⟩
  · rw [← hp]
    exact pyGet_mem ha
  · rw [← hp]
    exact pyGet_mem hb

theorem labelSet_neg_spec {v l : Int} {s s' : MM} {a : Unit}
    (h : labelSet v l s = Py.ok s' a) (hl : l < 0) (hX : GoodX s) :
    GoodX s' ∧ s'.outerVertices = s.outerVertices ∧
    s'.outerEdges = s.outerEdges ∧ s'.outerIdx = s.outerIdx ∧
    (∀ p : Nat, ∀ lp, s'.LABEL.get? p = some lp → 0 ≤ lp → s.LABEL.get? p = some lp) := by
  rw [labelSet_apply] at h
  cases hL : pySet s.LABEL v l with
  | none => rw [hL] at h; cases h
  | some L =>
      rw [hL] at h
      simp only [Py.ok.injEq] at h
      obtain ⟨hs, -⟩ := h
      subst hs
      obtain ⟨⟨⟨k1, k2, k3⟩, kF, kG, kQ, kLO⟩, kM, kE, kQF⟩ := hX
      have hlen := pySet_length hL
      have hchar := pySet_get?_all hL
      refine ⟨⟨⟨⟨?_, k2, k3⟩, kF, kG, kQ, ?_⟩, kM, kE, kQF⟩, rfl, rfl, rfl, ?_⟩
      · show L.length = (s.V + 1).toNat
        rw [hlen]
        exact k1
      · intro p hp lp hlp h0
        rcases hchar p with he | he
        · rw [he] at hlp
          exact kLO p hp lp hlp h0
        · rw [he] at hlp
          have hll := Option.some.inj hlp
          exact absurd h0 (by omega)
      · intro p lp hlp h0
        rcases hchar p with he | he
        · rw [← he]
          exact hlp
        · rw [he] at hlp
          have hll := Option.some.inj hlp
          exact absurd h0 (by omega)

theorem stopFold_spec : ∀ (vs : List Int) (s s' : MM) (a : Unit),
    stopFold vs s = Py.ok s' a → GoodX s →
    GoodX s' ∧ s'.outerVertices = s.outerVertices ∧
    s'.outerEdges = s.outerEdges ∧ s'.outerIdx = s.outerIdx ∧
    (∀ p : Nat, ∀ l, s'.LABEL.get? p = some l → 0 ≤ l →
      s.LABEL.get? p = some l ∧ (p : Int) ∉ vs) := by
  intro vs
  induction vs with
  | nil =>
      intro s s' a h hX
      simp only [stopFold, pure_apply, Py.ok.injEq] at h
      obtain ⟨hs, -⟩ := h
      subst hs
      exact ⟨hX, rfl, rfl, rfl, fun p l hl h0 => ⟨hl, List.not_mem_nil _⟩⟩
  | cons v vs ih =>
      intro s s' a h hX
      rw [stopFold] at h
      obtain ⟨s₁, u1, h1, hk1⟩ := bind_ok_inv h
      obtain ⟨hX1, -, -⟩ := setLabel_spec h1 hX (fun h0 => absurd h0 (by omega))
      have hw1 := setLabel_write_spec h1
      obtain ⟨s₂, t, h2, hk2⟩ := bind_ok_inv hk1
      obtain ⟨he2, -⟩ := mateGet_ok h2
      subst he2
      obtain ⟨s₃, u3, h3, hk3⟩ := bind_ok_inv hk2
      obtain ⟨hX3, -, -⟩ := setLabel_spec h3 hX1 (fun h0 => absurd h0 (by omega))
      have hw3 := setLabel_write_spec h3
      obtain ⟨hXr, hor, hqr, hir, hlabr⟩ := ih s₃ s' a hk3 hX3
      obtain ⟨hlen1, hchar1, hat1, -, -, -, -, -, -, hneg1⟩ := hw1
      obtain ⟨hlen3, hchar3, hat3, -, -, -, -, -, -, hneg3⟩ := hw3
      obtain ⟨hov1, hoe1, hoi1⟩ := hneg1 (by omega)
      obtain ⟨hov3, hoe3, hoi3⟩ := hneg3 (by omega)
      refine ⟨hXr, ?_, ?_, ?_, ?_⟩
      · rw [hor, hov3, hov1]
      · rw [hqr, hoe3, hoe1]
      · rw [hir, hoi3, hoi1]
      · intro p l hl h0
        obtain ⟨hl3, hnotvs⟩ := hlabr p l hl h0
        rcases hchar3 p with he3 | he3
        · rw [he3] at hl3
          rcases hchar1 p with he1 | he1
          · rw [he1] at hl3
            refine ⟨hl3, ?_⟩
            intro hmem
            rcases List.mem_cons.1 hmem with hpv | hpvs
            · have hrange : p < s.LABEL.length := (List.get?_eq_some.1 hl3).1
              have hwrote := hat1 (by omega) (by omega)
              have hvn : v.toNat = p := by omega
              rw [hvn, he1, hl3] at hwrote
              have hll := Option.some.inj hwrote
              exact absurd h0 (by omega)
            · exact hnotvs hpvs
          · rw [he1] at hl3
            have hll := Option.some.inj hl3
            exact absurd h0 (by omega)
        · rw [he3] at hl3
          have hll := Option.some.inj hl3
          exact absurd h0 (by omega)

theorem stopTheSearch_spec {s s' : MM} {a : Unit}
    (h : stopTheSearch s = Py.ok s' a) (hX : GoodX s) :
    GoodX s' ∧ OuterIff s' := by
  unfold stopTheSearch at h
  obtain ⟨s₁, u1, h1, hk1⟩ := bind_ok_inv h
  obtain ⟨hX1, hov1, hoe1, hoi1, hlab1⟩ := labelSet_neg_spec h1 (by omega) hX
  obtain ⟨s₂, st, h2, hk2⟩ := bind_ok_inv hk1
  obtain ⟨he2, hst⟩ := getS_ok h2
  rw [he2, hst] at hk2
  obtain ⟨s₃, u3, h3, hk3⟩ := bind_ok_inv hk2
  obtain ⟨hX3, hov3, hoe3, hoi3, hlab3⟩ := stopFold_spec _ _ _ _ h3 hX1
  obtain ⟨s₄, st4, h4, hk4⟩ := bind_ok_inv hk3
  obtain ⟨he4, hst4⟩ := getS_ok h4
  rw [he4, hst4, setS_apply] at hk4
  simp only [Py.ok.injEq] at hk4
  obtain ⟨hs', -⟩ := hk4
  rw [← hs']
  have hkey : ∀ p : Nat, 1 ≤ p → ∀ l : Int, s₃.LABEL.get? p = some l → ¬ 0 ≤ l := by
    intro p hp l hl h0
    obtain ⟨hl1, hnot⟩ := hlab3 p l hl h0
    exact hnot (hX1.1.2.2.2.2 p hp l hl1 h0)
  obtain ⟨⟨⟨k1, k2, k3⟩, kF, kG, kQ, kLO⟩, kM, kE, kQF⟩ := hX3
  refine ⟨⟨⟨⟨k1, k2, k3⟩, kF, kG, ?_, ?_⟩, kM, kE, ?_⟩, ?_⟩
  · intro p hp
    exact absurd hp (List.not_mem_nil p)
  · intro p hp l hl h0
    exact absurd h0 (hkey p hp l hl)
  · intro p hp
    exact absurd hp (List.not_mem_nil p)
  · intro p hp l hl
    constructor
    · intro hmem
      exact absurd hmem (List.not_mem_nil _)
    · intro h0
      exact absurd h0 (hkey p hp l hl)

theorem R_x_spec : ∀ (f : Nat) (v w : Int) (s s' : MM) (a : Unit),
    R f v w s = Py.ok s' a → GoodX s → 0 ≤ w →
    GoodX s' ∧ s'.outerVertices = s.outerVertices := by
  intro f
  induction f with
  | zero =>
      intro v w s s' a h
      simp [R, pyOom] at h
  | succ f ih =>
      intro v w s s' a h hX hw
      rw [R] at h
      obtain ⟨s₁, t, h1, hk1⟩ := bind_ok_inv h
      obtain ⟨he1, ht⟩ := mateGet_ok h1
      subst he1
      have ht0 : 0 ≤ t := hX.2.1 t (pyGet_mem ht)
      obtain ⟨s₂, u2, h2, hk2⟩ := bind_ok_inv hk1
      obtain ⟨hX2, hov2⟩ := mateSet_spec h2 hX hw
      obtain ⟨s₃, mt, h3, hk3⟩ := bind_ok_inv hk2
      obtain ⟨he3, -⟩ := mateGet_ok h3
      subst he3
      by_cases hmt : mt ≠ v
      · rw [if_pos hmt] at hk3
        simp only [pure_apply, Py.ok.injEq] at hk3
        obtain ⟨hs, -⟩ := hk3
        subst hs
        exact ⟨hX2, hov2⟩
      · rw [if_neg hmt] at hk3
        obtain ⟨s₄, hv, h4, hk4⟩ := bind_ok_inv hk3
        obtain ⟨he4, l4, hl4, hb4⟩ := hasVertexLabel_ok h4
        subst he4
        by_cases hhv : hv = true
        · rw [if_pos hhv] at hk4
          obtain ⟨s₅, lv, h5, hk5⟩ := bind_ok_inv hk4
          obtain ⟨he5, hlv⟩ := labelGet_ok h5
          subst he5
          have hlv4 : lv = l4 := Option.some.inj (hl4.symm.trans hlv).symm
          have hl40 := of_decide_eq_true (hb4.symm.trans hhv)
          obtain ⟨s₆, u6, h6, hk6⟩ := bind_ok_inv hk5
          obtain ⟨hX6, hov6⟩ := mateSet_spec h6 hX2 (by omega)
          obtain ⟨hXr, hovr⟩ := ih lv t s₆ s' a hk6 hX6 ht0
          rw [hovr, hov6, hov2]
          exact ⟨hXr, rfl⟩
        · rw [if_neg hhv] at hk4
          obtain ⟨s₅, lv, h5, hk5⟩ := bind_ok_inv hk4
          obtain ⟨he5, hlv⟩ := labelGet_ok h5
          subst he5
          obtain ⟨s₆, e6, h6, hk6⟩ := bind_ok_inv hk5
          obtain ⟨he6, hm1, hm2⟩ := getEdge_mem h6
          subst he6
          have he1p : 1 ≤ e6.1 := (hX2.2.2.1 e6.1 hm1).1
          have he2p : 1 ≤ e6.2 := (hX2.2.2.1 e6.2 hm2).1
          obtain ⟨s₇, u7, h7, hk7⟩ := bind_ok_inv hk6
          obtain ⟨hX7, hov7⟩ := ih e6.1 e6.2 _ s₇ u7 h7 hX2 (by omega)
          obtain ⟨hXr, hovr⟩ := ih e6.2 e6.1 s₇ s' a hk7 hX7 (by omega)
          rw [hovr, hov7, hov2]
          exact ⟨hXr, rfl⟩

theorem goodX_cursor {s : MM} (k : Nat) (hX : GoodX s) :
    GoodX { s with outerIdx := k } := hX

theorem e2Body_spec {lf rf : Nat} {u : Int} {s s' : MM} {b : Bool}
    (h : e2Body lf rf u s = Py.ok s' b) (hX : GoodX s) :
    GoodX s' ∧ (b = false → OuterIff s') := by
  unfold e2Body at h
  obtain ⟨s₁, c, h1, hk1⟩ := bind_ok_inv h
  rcases chooseAnEdge_ok h1 with ⟨rfl, rfl⟩ | ⟨x, nxy, rfl, hmem, rfl⟩
  · obtain ⟨s₂, u2, h2, hk2⟩ := bind_ok_inv hk1
    obtain ⟨hX2, hOI2⟩ := stopTheSearch_spec h2 hX
    simp only [pure_apply, Py.ok.injEq] at hk2
    obtain ⟨hs, hb⟩ := hk2
    rw [← hs, ← hb]
    exact ⟨hX2, fun _ => hOI2⟩
  · have hX1 : GoodX { s with outerIdx := s.outerIdx + 1 } := hX
    have hnxy : 0 < nxy := hX.1.2.2.2.1 (x, nxy) hmem
    have hx0 : 0 ≤ x := hX.2.2.2 (x, nxy) hmem
    obtain ⟨s₂, e2, h2, hk2⟩ := bind_ok_inv hk1
    obtain ⟨he2, -, -⟩ := getEdge_mem h2
    subst he2
    obtain ⟨s₃, my, h3, hk3⟩ := bind_ok_inv hk2
    obtain ⟨he3, m3, hm3, hmy⟩ := isMatched_ok h3
    subst he3
    by_cases hcond : my = false ∧ pyXor (pyXor x e2.1) e2.2 ≠ u
    · rw [if_pos hcond] at hk3
      obtain ⟨s₄, u4, h4, hk4⟩ := bind_ok_inv hk3
      obtain ⟨hX4, -⟩ := mateSet_spec h4 hX1 hx0
      obtain ⟨s₅, u5, h5, hk5⟩ := bind_ok_inv hk4
      obtain ⟨hX5, -⟩ := R_x_spec rf x _ _ s₅ u5 h5 hX4 (pyXor_nonneg _ _)
      obtain ⟨s₆, u6, h6, hk6⟩ := bind_ok_inv hk5
      obtain ⟨hX6, hOI6⟩ := stopTheSearch_spec h6 hX5
      simp only [pure_apply, Py.ok.injEq] at hk6
      obtain ⟨hs, hb⟩ := hk6
      rw [← hs, ← hb]
      exact ⟨hX6, fun _ => hOI6⟩
    · rw [if_neg hcond] at hk3
      obtain ⟨s₄, oy, h4, hk4⟩ := bind_ok_inv hk3
      obtain ⟨he4, -⟩ := isOuterVertex_ok h4
      subst he4
      by_cases hoy : oy = true
      · rw [if_pos hoy] at hk4
        obtain ⟨s₅, u5, h5, hk5⟩ := bind_ok_inv hk4
        obtain ⟨hX5, -⟩ := L_spec h5 hX1 hnxy
        simp only [pure_apply, Py.ok.injEq] at hk5
        obtain ⟨hs, hb⟩ := hk5
        rw [← hs, ← hb]
        exact ⟨hX5, fun hfb => Bool.noConfusion hfb⟩
      · rw [if_neg hoy] at hk4
        obtain ⟨s₅, v5, h5, hk5⟩ := bind_ok_inv hk4
        obtain ⟨he5, hv5⟩ := mateGet_ok h5
        subst he5
        have hv50 : 0 ≤ v5 := hX1.2.1 v5 (pyGet_mem hv5)
        obtain ⟨s₆, ov, h6, hk6⟩ := bind_ok_inv hk5
        obtain ⟨he6, -⟩ := isOuterVertex_ok h6
        subst he6
        by_cases hov : ov = false
        · rw [if_pos hov] at hk6
          obtain ⟨s₇, u7, h7, hk7⟩ := bind_ok_inv hk6
          obtain ⟨hX7, -, -⟩ := setLabel_spec h7 hX1 (fun _ => hv50)
          obtain ⟨s₈, u8, h8, hk8⟩ := bind_ok_inv hk7
          obtain ⟨hX8, -⟩ := firstSet_spec h8 hX7 (pyXor_nonneg _ _)
          simp only [pure_apply, Py.ok.injEq] at hk8
          obtain ⟨hs, hb⟩ := hk8
          rw [← hs, ← hb]
          exact ⟨hX8, fun hfb => Bool.noConfusion hfb⟩
        · rw [if_neg hov] at hk6
          simp only [pure_apply, Py.ok.injEq] at hk6
          obtain ⟨hs, hb⟩ := hk6
          rw [← hs, ← hb]
          exact ⟨hX1, fun hfb => Bool.noConfusion hfb⟩

theorem e2Loop_spec : ∀ (fl lf rf : Nat) (u : Int) (s s' : MM) (a : Unit),
    e2Loop lf rf u fl s = Py.ok s' a → GoodX s → GoodX s' ∧ OuterIff s' := by
  intro fl
  induction fl with
  | zero =>
      intro lf rf u s s' a h
      simp [e2Loop, pyOom] at h
  | succ fl ih =>
      intro lf rf u s s' a h hX
      rw [e2Loop] at h
      obtain ⟨s₁, cont, h1, hk1⟩ := bind_ok_inv h
      obtain ⟨hX1, hOI1⟩ := e2Body_spec h1 hX
      by_cases hc : cont = true
      · rw [if_pos hc] at hk1
        exact ih lf rf u s₁ s' a hk1 hX1
      · rw [if_neg hc] at hk1
        simp only [pure_apply, Py.ok.injEq] at hk1
        obtain ⟨hs, -⟩ := hk1
        rw [← hs]
        have hcf : cont = false := by
          cases cont
          · rfl
          · exact absurd rfl hc
        exact ⟨hX1, hOI1 hcf⟩

theorem eRoots_spec : ∀ (us : List Int) (lf rf : Nat) (s s' : MM) (a : Unit),
    eRoots lf rf us s = Py.ok s' a → (∀ u ∈ us, 1 ≤ u) → GoodX s → OuterIff s →
    GoodX s' ∧ OuterIff s' := by
  intro us
  induction us with
  | nil =>
      intro lf rf s s' a h hus hX hOI
      simp only [eRoots, pure_apply, Py.ok.injEq] at h
      obtain ⟨hs, -⟩ := h
      rw [← hs]
      exact ⟨hX, hOI⟩
  | cons u us ih =>
      intro lf rf s s' a h hus hX hOI
      rw [eRoots] at h
      obtain ⟨s₁, mu, h1, hk1⟩ := bind_ok_inv h
      obtain ⟨he1, -⟩ := mateGet_ok h1
      subst he1
      by_cases hmu : 0 < mu
      · rw [if_pos hmu] at hk1
        exact ih lf rf _ s' a hk1 (fun z hz => hus z (List.mem_cons_of_mem u hz)) hX hOI
      · rw [if_neg hmu] at hk1
        obtain ⟨s₂, u2, h2, hk2⟩ := bind_ok_inv hk1
        have hu1 : 1 ≤ u := hus u (List.mem_cons_self u us)
        obtain ⟨hX2, -, -⟩ := setLabel_spec h2 hX (fun _ => by omega)
        obtain ⟨s₃, u3, h3, hk3⟩ := bind_ok_inv hk2
        obtain ⟨hX3, -⟩ := firstSet_spec h3 hX2 (by omega)
        obtain ⟨s₄, u4, h4, hk4⟩ := bind_ok_inv hk3
        obtain ⟨hX4, hOI4⟩ := e2Loop_spec lf lf rf u _ s₄ u4 h4 hX3
        exact ih lf rf s₄ s' a hk4 (fun z hz => hus z (List.mem_cons_of_mem u hz)) hX4 hOI4

theorem intRange_one_le {b u : Int} (h : u ∈ intRange 1 b) : 1 ≤ u := by
  unfold intRange at h
  obtain ⟨k, hk, heq⟩ := List.mem_map.1 h
  have heq2 : 1 + k = u := heq
  simp only [bind_pure_comp] at hk
  obtain ⟨m, hm, hmk⟩ := List.mem_map.1 hk
  have hmk2 : (m : Int) = k := hmk
  omega

theorem E_spec {lf rf : Nat} {s s' : MM} {a : Unit}
    (h : E lf rf s = Py.ok s' a) (hX : GoodX s) (hOI : OuterIff s) :
    GoodX s' ∧ OuterIff s' := by
  unfold E at h
  obtain ⟨s₁, st, h1, hk1⟩ := bind_ok_inv h
  obtain ⟨he1, hst⟩ := getS_ok h1
  rw [he1, hst] at hk1
  exact eRoots_spec _ lf rf _ s' a hk1 (fun z hz => intRange_one_le hz) hX hOI

theorem addEdge_spec {v w : Int} {s s' : MM} {a : Unit}
    (h : addEdge v w s = Py.ok s' a) (hX : GoodX s) (hOI : OuterIff s)
    (hv1 : 1 ≤ v) (hv2 : v ≤ s.V) (hw1 : 1 ≤ w) (hw2 : w ≤ s.V) :
    GoodX s' ∧ OuterIff s' := by
  obtain ⟨⟨⟨k1, k2, k3⟩, kF, kG, kQ, kLO⟩, kM, kE, kQF⟩ := hX
  have hn : 0 < (s.END.length : Int) + s.VPlusOne := by omega
  cases hgv : pyGet s.graph v with
  | none =>
      simp [addEdge, bind_apply, getS_apply, Py.bind_ok, setS_apply, liftO_apply,
        hgv] at h
  | some gv =>
  cases hsv : pySet s.graph v (gv ++ [(s.END.length : Int) + s.VPlusOne]) with
  | none =>
      simp [addEdge, bind_apply, getS_apply, Py.bind_ok, setS_apply, liftO_apply,
        hgv, hsv] at h
  | some g =>
  cases hgw : pyGet g w with
  | none =>
      simp [addEdge, bind_apply, getS_apply, Py.bind_ok, setS_apply, liftO_apply,
        hgv, hsv, hgw] at h
  | some gw =>
  cases hsw : pySet g w (gw ++ [(s.END.length : Int) + s.VPlusOne]) with
  | none =>
      simp [addEdge, bind_apply, getS_apply, Py.bind_ok, setS_apply, liftO_apply,
        hgv, hsv, hgw, hsw] at h
  | some g2 =>
  simp only [addEdge, bind_apply, getS_apply, Py.bind_ok, setS_apply, liftO_apply,
    hgv, hsv, hgw, hsw, liftO_some, Py.ok.injEq] at h
  obtain ⟨hfin, -⟩ := h
  have hgP : ∀ l ∈ g, ∀ e ∈ l, 0 < e := by
    intro l hl e he
    rcases pySet_mem hsv l hl with hold | hnew
    · exact kG l hold e he
    · rw [hnew] at he
      rcases List.mem_append.1 he with hegv | hen
      · exact kG gv (pyGet_mem hgv) e hegv
      · rw [List.mem_singleton.1 hen]
        exact hn
  have hg2P : ∀ l ∈ g2, ∀ e ∈ l, 0 < e := by
    intro l hl e he
    rcases pySet_mem hsw l hl with hold | hnew
    · exact hgP l hold e he
    · rw [hnew] at he
      rcases List.mem_append.1 he with hegw | hen
      · exact hgP gw (pyGet_mem hgw) e hegw
      · rw [List.mem_singleton.1 hen]
        exact hn
  rw [← hfin]
  refine ⟨⟨⟨⟨k1, k2, k3⟩, kF, hg2P, kQ, kLO⟩, kM, ?_, kQF⟩, hOI⟩
  intro x hx
  rcases List.mem_append.1 hx with hold | hnew
  · exact kE x hold
  · rcases List.mem_cons.1 hnew with hxv | hxw
    · constructor
      · omega
      · show x ≤ s.V
        omega
    · rw [List.mem_singleton.1 hxw]
      exact ⟨hw1, hw2⟩

theorem init_spec : ∀ V : Int, 0 ≤ V → GoodX (init V) ∧ OuterIff (init V) := by
  intro V hV
  have hlab : ∀ p : Nat, ∀ l : Int, (init V).LABEL.get? p = some l → l = -1 := by
    intro p l hl
    exact List.eq_of_mem_replicate (List.get?_mem hl)
  refine ⟨⟨⟨⟨?_, rfl, hV⟩, ?_, ?_, ?_, ?_⟩, ?_, ?_, ?_⟩, ?_⟩
  · show (List.replicate (V + 1).toNat (-1 : Int)).length = (V + 1).toNat
    exact List.length_replicate _ _
  · intro x hx
    have hx0 := List.eq_of_mem_replicate hx
    omega
  · intro l hl e he
    have hle := List.eq_of_mem_replicate hl
    rw [hle] at he
    exact absurd he (List.not_mem_nil e)
  · intro p hp
    exact absurd hp (List.not_mem_nil p)
  · intro p hp l hl h0
    have he := hlab p l hl
    exact absurd h0 (by omega)
  · intro m hm
    have hm0 := List.eq_of_mem_replicate hm
    omega
  · intro x hx
    exact absurd hx (List.not_mem_nil x)
  · intro p hp
    exact absurd hp (List.not_mem_nil p)
  · intro p hp l hl
    constructor
    · intro hmem
      exact absurd hmem (List.not_mem_nil _)
    · intro h0
      have he := hlab p l hl
      exact absurd h0 (by omega)

/-! ## Small-step composition lemmas

Concrete executions are proved by chaining one-operation evaluations on
literal states (the kernel evaluates each small step cheaply) through
the following lemmas, one per control-flow shape of the source. -/

theorem addEdges_nil (s : MM) : addEdges [] s = Py.ok s () := rfl

theorem addEdges_cons {s s' : MM} (e : Int × Int) (es : List (Int × Int))
    (h : addEdge e.1 e.2 s = Py.ok s' ()) :
    addEdges (e :: es) s = addEdges es s' := by
  rw [addEdges]
  simp [bind_apply, h]

theorem E_run (lf rf : Nat) (s : MM) :
    E lf rf s = eRoots lf rf (intRange 1 (s.V + 1)) s := rfl

theorem eRoots_nil (lf rf : Nat) (s : MM) : eRoots lf rf [] s = Py.ok s () := rfl

theorem eRoots_cons_skip {lf rf : Nat} {u : Int} (us : List Int) {s : MM} {m : Int}
    (h : pyGet s.MATE u = some m) (hm : 0 < m) :
    eRoots lf rf (u :: us) s = eRoots lf rf us s := by
  rw [eRoots]
  simp [bind_apply, h, hm]

theorem eRoots_cons_search {lf rf : Nat} {u : Int} (us : List Int)
    {s sa s₁ s₂ : MM} {m : Int}
    (h : pyGet s.MATE u = some m) (hm : ¬ 0 < m)
    (hseed1 : setLabel u 0 s = Py.ok sa ())
    (hseed2 : firstSet u 0 sa = Py.ok s₁ ())
    (hloop : e2Loop lf rf u lf s₁ = Py.ok s₂ ()) :
    eRoots lf rf (u :: us) s = eRoots lf rf us s₂ := by
  rw [eRoots]
  simp [bind_apply, h, hm, hseed1, hseed2, hloop]

theorem eRoots_cons_search_exn {lf rf : Nat} {u : Int} (us : List Int)
    {s sa s₁ s₂ : MM} {m : Int}
    (h : pyGet s.MATE u = some m) (hm : ¬ 0 < m)
    (hseed1 : setLabel u 0 s = Py.ok sa ())
    (hseed2 : firstSet u 0 sa = Py.ok s₁ ())
    (hloop : e2Loop lf rf u lf s₁ = Py.exn s₂) :
    eRoots lf rf (u :: us) s = Py.exn s₂ := by
  rw [eRoots]
  simp [bind_apply, h, hm, hseed1, hseed2, hloop]

theorem e2Loop_cont {lf rf : Nat} {u : Int} {s s' : MM} (n : Nat)
    (h : e2Body lf rf u s = Py.ok s' true) :
    e2Loop lf rf u (n + 1) s = e2Loop lf rf u n s' := by
  rw [e2Loop]
  simp [bind_apply, h]

theorem e2Loop_stop {lf rf : Nat} {u : Int} {s s' : MM} (n : Nat)
    (h : e2Body lf rf u s = Py.ok s' false) :
    e2Loop lf rf u (n + 1) s = Py.ok s' () := by
  rw [e2Loop]
  simp [bind_apply, h]

theorem e2Loop_exn {lf rf : Nat} {u : Int} {s s' : MM} (n : Nat)
    (h : e2Body lf rf u s = Py.exn s') :
    e2Loop lf rf u (n + 1) s = Py.exn s' := by
  rw [e2Loop]
  simp [bind_apply, h]

theorem e2Body_exhaust {lf rf : Nat} {u : Int} {s s₁ : MM}
    (hc : chooseAnEdge s = Py.ok s none)
    (hstop : stopTheSearch s = Py.ok s₁ ()) :
    e2Body lf rf u s = Py.ok s₁ false := by
  rw [e2Body]
  simp [bind_apply, hc, hstop]

theorem e2Body_augment {lf rf : Nat} {u x n_xy e1 e2 y : Int} {s s₁ s₂ s₃ s₄ : MM}
    (hc : chooseAnEdge s = Py.ok s₁ (some (x, n_xy)))
    (hg : getEdge n_xy s₁ = Py.ok s₁ (e1, e2))
    (hy : pyXor (pyXor x e1) e2 = y)
    (hmy : isMatched y s₁ = Py.ok s₁ false)
    (hyu : y ≠ u)
    (hset : mateSet y x s₁ = Py.ok s₂ ())
    (hR : R rf x y s₂ = Py.ok s₃ ())
    (hstop : stopTheSearch s₃ = Py.ok s₄ ()) :
    e2Body lf rf u s = Py.ok s₄ false := by
  rw [e2Body]
  simp [bind_apply, hc, hg, hy, hmy, hyu, hset, hR, hstop]

theorem e2Body_blossom {lf rf : Nat} {u x n_xy e1 e2 y : Int} {mv : Bool}
    {s s₁ s₂ : MM}
    (hc : chooseAnEdge s = Py.ok s₁ (some (x, n_xy)))
    (hg : getEdge n_xy s₁ = Py.ok s₁ (e1, e2))
    (hy : pyXor (pyXor x e1) e2 = y)
    (hmy : isMatched y s₁ = Py.ok s₁ mv)
    (hcond : ¬ (mv = false ∧ y ≠ u))
    (hoy : (y ∈ s₁.outerVertices : Bool) = true)
    (hL : L lf x y n_xy s₁ = Py.ok s₂ ()) :
    e2Body lf rf u s = Py.ok s₂ true := by
  rw [e2Body]
  simp [bind_apply, hc, hg, hy, hmy, hcond, hoy, hL]

theorem e2Body_blossom_exn {lf rf : Nat} {u x n_xy e1 e2 y : Int} {mv : Bool}
    {s s₁ s₂ : MM}
    (hc : chooseAnEdge s = Py.ok s₁ (some (x, n_xy)))
    (hg : getEdge n_xy s₁ = Py.ok s₁ (e1, e2))
    (hy : pyXor (pyXor x e1) e2 = y)
    (hmy : isMatched y s₁ = Py.ok s₁ mv)
    (hcond : ¬ (mv = false ∧ y ≠ u))
    (hoy : (y ∈ s₁.outerVertices : Bool) = true)
    (hL : L lf x y n_xy s₁ = Py.exn s₂) :
    e2Body lf rf u s = Py.exn s₂ := by
  rw [e2Body]
  simp [bind_apply, hc, hg, hy, hmy, hcond, hoy, hL]

theorem e2Body_vertexLabel {lf rf : Nat} {u x n_xy e1 e2 y v : Int} {mv : Bool}
    {s s₁ s₂ s₃ : MM}
    (hc : chooseAnEdge s = Py.ok s₁ (some (x, n_xy)))
    (hg : getEdge n_xy s₁ = Py.ok s₁ (e1, e2))
    (hy : pyXor (pyXor x e1) e2 = y)
    (hmy : isMatched y s₁ = Py.ok s₁ mv)
    (hcond : ¬ (mv = false ∧ y ≠ u))
    (hoy : (y ∈ s₁.outerVertices : Bool) = false)
    (hv : pyGet s₁.MATE y = some v)
    (hov : (v ∈ s₁.outerVertices : Bool) = false)
    (hset : setLabel v x s₁ = Py.ok s₂ ())
    (hfs : firstSet v y s₂ = Py.ok s₃ ()) :
    e2Body lf rf u s = Py.ok s₃ true := by
  rw [e2Body]
  simp [bind_apply, hc, hg, hy, hmy, hcond, hoy, hv, hov, hset, hfs]

theorem e2Body_skipLabeled {lf rf : Nat} {u x n_xy e1 e2 y v : Int} {mv : Bool}
    {s s₁ : MM}
    (hc : chooseAnEdge s = Py.ok s₁ (some (x, n_xy)))
    (hg : getEdge n_xy s₁ = Py.ok s₁ (e1, e2))
    (hy : pyXor (pyXor x e1) e2 = y)
    (hmy : isMatched y s₁ = Py.ok s₁ mv)
    (hcond : ¬ (mv = false ∧ y ≠ u))
    (hoy : (y ∈ s₁.outerVertices : Bool) = false)
    (hv : pyGet s₁.MATE y = some v)
    (hov : (v ∈ s₁.outerVertices : Bool) = true) :
    e2Body lf rf u s = Py.ok s₁ true := by
  rw [e2Body]
  simp [bind_apply, hc, hg, hy, hmy, hcond, hoy, hv, hov]

theorem L_trivial {fuel : Nat} {x y n_xy r0 : Int} {st : MM}
    (hx : pyGet st.FIRST x = some r0) (hy : pyGet st.FIRST y = some r0) :
    L fuel x y n_xy st = Py.ok st () := by
  rw [L]
  simp [bind_apply, hx, hy]

theorem L_full {fuel : Nat} {x y n_xy r0 s0 join vx vy : Int}
    {st st₁ st₂ st₃ st₄ st₅ : MM}
    (hx : pyGet st.FIRST x = some r0) (hy : pyGet st.FIRST y = some s0)
    (hne : r0 ≠ s0)
    (hflag : setFlag r0 n_xy st = Py.ok st₁ ())
    (hwalk : l12 fuel n_xy r0 s0 st₁ = Py.ok st₂ join)
    (hvx : pyGet st₂.FIRST x = some vx) (hvy : pyGet st₂.FIRST y = some vy)
    (h34x : l34 fuel vx join n_xy st₂ = Py.ok st₃ ())
    (h34y : l34 fuel vy join n_xy st₃ = Py.ok st₄ ())
    (h5 : l5Fold join st₄.outerVertices st₄ = Py.ok st₅ ()) :
    L fuel x y n_xy st = Py.ok st₅ () := by
  rw [L]
  simp [bind_apply, hx, hy, hne, hflag, hwalk, hvx, hvy, h34x, h34y, h5]

theorem L_exn {fuel : Nat} {x y n_xy r0 s0 : Int} {st st₁ st₂ : MM}
    (hx : pyGet st.FIRST x = some r0) (hy : pyGet st.FIRST y = some s0)
    (hne : r0 ≠ s0)
    (hflag : setFlag r0 n_xy st = Py.ok st₁ ())
    (hwalk : l12 fuel n_xy r0 s0 st₁ = Py.exn st₂) :
    L fuel x y n_xy st = Py.exn st₂ := by
  rw [L]
  simp [bind_apply, hx, hy, hne, hflag, hwalk]

theorem stop_run {s s₁ s₂ s₃ : MM}
    (h0 : labelSet 0 (-1) s = Py.ok s₁ ())
    (hf : stopFold s₁.outerVertices s₁ = Py.ok s₂ ())
    (hclear : { s₂ with outerVertices := [], outerEdges := [], outerIdx := 0 } = s₃) :
    stopTheSearch s = Py.ok s₃ () := by
  rw [stopTheSearch]
  simp [bind_apply, h0, hf, ← hclear]

theorem stopFold_nil (s : MM) : stopFold [] s = Py.ok s () := rfl

theorem stopFold_cons {v : Int} (vs : List Int) {s s₁ s₂ : MM} {t : Int}
    (h1 : setLabel v (-1) s = Py.ok s₁ ())
    (h2 : pyGet s₁.MATE v = some t)
    (h3 : setLabel t (-1) s₁ = Py.ok s₂ ()) :
    stopFold (v :: vs) s = stopFold vs s₂ := by
  rw [stopFold]
  simp [bind_apply, h1, h2, h3]

theorem l5Fold_nil (join : Int) (s : MM) : l5Fold join [] s = Py.ok s () := rfl

theorem l5Fold_cons_out {join i : Int} (is : List Int) {s s₁ : MM} {fi : Int}
    (h1 : pyGet s.FIRST i = some fi)
    (h2 : (fi ∈ s.outerVertices : Bool) = true)
    (h3 : firstSet i join s = Py.ok s₁ ()) :
    l5Fold join (i :: is) s = l5Fold join is s₁ := by
  rw [l5Fold]
  simp [bind_apply, h1, h2, h3]

theorem l5Fold_cons_skip {join i : Int} (is : List Int) {s : MM} {fi : Int}
    (h1 : pyGet s.FIRST i = some fi)
    (h2 : (fi ∈ s.outerVertices : Bool) = false) :
    l5Fold join (i :: is) s = l5Fold join is s := by
  rw [l5Fold]
  simp [bind_apply, h1, h2]

/-! ## Small-step evaluations of the concrete executions

Each theorem below evaluates one primitive operation on a literal state
(proved by `decide`) or chains such evaluations through the composition
lemmas above. -/

theorem trif1 :
    addEdge 1 2 (init 3) = Py.ok triq0 () :=
  by decide

theorem trif3 :
    addEdge 2 3 triq0 = Py.ok triq2 () :=
  by decide

theorem trif5 :
    addEdge 1 3 triq2 = Py.ok triq4 () :=
  by decide

theorem tribuild6 :
    addEdges [(1, 2), (2, 3), (1, 3)] (init 3) = Py.ok triq4 () :=
  (addEdges_cons (1, 2) [(2, 3), (1, 3)] trif1).trans ((addEdges_cons (2, 3) [(1, 3)] trif3).trans ((addEdges_cons (1, 3) [] trif5).trans (addEdges_nil triq4)))

theorem trif7 :
    pyGet triq4.MATE 1 = some 0 :=
  by decide

theorem trif8 :
    ¬ (0 : Int) < 0 :=
  by decide

theorem trif10 :
    setLabel 1 0 triq4 = Py.ok triq9 () :=
  by decide

theorem trif12 :
    firstSet 1 0 triq9 = Py.ok triq11 () :=
  by decide

theorem trif14 :
    chooseAnEdge triq11 = Py.ok triq13 (some (1, 4)) :=
  by decide

theorem trif15 :
    getEdge 4 triq13 = Py.ok triq13 (1, 2) :=
  by decide

theorem trif16 :
    pyXor (pyXor 1 1) 2 = 2 :=
  by decide

theorem trif17 :
    isMatched 2 triq13 = Py.ok triq13 false :=
  by decide

theorem trif18 :
    (2 : Int) ≠ 1 :=
  by decide

theorem trif20 :
    mateSet 2 1 triq13 = Py.ok triq19 () :=
  by decide

theorem trif22 :
    R 100 1 2 triq19 = Py.ok triq21 () :=
  by decide

theorem trif24 :
    labelSet 0 (-1) triq21 = Py.ok triq23 () :=
  by decide

theorem trif26 :
    setLabel 1 (-1) triq23 = Py.ok triq25 () :=
  by decide

theorem trif27 :
    pyGet triq25.MATE 1 = some 2 :=
  by decide

theorem trif29 :
    setLabel 2 (-1) triq25 = Py.ok triq28 () :=
  by decide

theorem trifold30 :
    stopFold [1] triq23 = Py.ok triq28 () :=
  (stopFold_cons [] trif26 trif27 trif29).trans (stopFold_nil triq28)

theorem trif32 :
    { triq28 with outerVertices := [], outerEdges := [], outerIdx := 0 } = triq31 :=
  by decide

theorem tristop33 :
    stopTheSearch triq21 = Py.ok triq31 () :=
  stop_run trif24 trifold30 trif32

theorem trib34 :
    e2Body 100 100 1 triq11 = Py.ok triq31 false :=
  e2Body_augment trif14 trif15 trif16 trif17 trif18 trif20 trif22 tristop33

theorem triloop35 :
    e2Loop 100 100 1 100 triq11 = Py.ok triq31 () :=
  (e2Loop_stop 99 trib34)

theorem trif36 :
    pyGet triq31.MATE 2 = some 1 :=
  by decide

theorem trif37 :
    (0 : Int) < 1 :=
  by decide

theorem trif38 :
    pyGet triq31.MATE 3 = some 0 :=
  by decide

theorem trif39 :
    ¬ (0 : Int) < 0 :=
  by decide

theorem trif41 :
    setLabel 3 0 triq31 = Py.ok triq40 () :=
  by decide

theorem trif43 :
    firstSet 3 0 triq40 = Py.ok triq42 () :=
  by decide

theorem trif45 :
    chooseAnEdge triq42 = Py.ok triq44 (some (3, 6)) :=
  by decide

theorem trif46 :
    getEdge 6 triq44 = Py.ok triq44 (2, 3) :=
  by decide

theorem trif47 :
    pyXor (pyXor 3 2) 3 = 2 :=
  by decide

theorem trif48 :
    isMatched 2 triq44 = Py.ok triq44 true :=
  by decide

theorem trif49 :
    ¬ ((true : Bool) = false ∧ (2 : Int) ≠ 3) :=
  by decide

theorem trif50 :
    ((2 : Int) ∈ triq44.outerVertices : Bool) = false :=
  by decide

theorem trif51 :
    pyGet triq44.MATE 2 = some 1 :=
  by decide

theorem trif52 :
    ((1 : Int) ∈ triq44.outerVertices : Bool) = false :=
  by decide

theorem trif54 :
    setLabel 1 3 triq44 = Py.ok triq53 () :=
  by decide

theorem trif56 :
    firstSet 1 2 triq53 = Py.ok triq55 () :=
  by decide

theorem trib57 :
    e2Body 100 100 3 triq42 = Py.ok triq55 true :=
  e2Body_vertexLabel trif45 trif46 trif47 trif48 trif49 trif50 trif51 trif52 trif54 trif56

theorem trif59 :
    chooseAnEdge triq55 = Py.ok triq58 (some (3, 8)) :=
  by decide

theorem trif60 :
    getEdge 8 triq58 = Py.ok triq58 (1, 3) :=
  by decide

theorem trif61 :
    pyXor (pyXor 3 1) 3 = 1 :=
  by decide

theorem trif62 :
    isMatched 1 triq58 = Py.ok triq58 true :=
  by decide

theorem trif63 :
    ¬ ((true : Bool) = false ∧ (1 : Int) ≠ 3) :=
  by decide

theorem trif64 :
    ((1 : Int) ∈ triq58.outerVertices : Bool) = true :=
  by decide

theorem trif65 :
    pyGet triq58.FIRST 3 = some 0 :=
  by decide

theorem trif66 :
    pyGet triq58.FIRST 1 = some 2 :=
  by decide

theorem trif67 :
    (0 : Int) ≠ 2 :=
  by decide

theorem trif69 :
    setFlag 0 8 triq58 = Py.ok triq68 () :=
  by decide

theorem trif71 :
    l12 100 8 0 2 triq68 = Py.ok triq70 0 :=
  by decide

theorem trif72 :
    pyGet triq70.FIRST 3 = some 0 :=
  by decide

theorem trif73 :
    pyGet triq70.FIRST 1 = some 2 :=
  by decide

theorem trif75 :
    l34 100 0 0 8 triq70 = Py.ok triq74 () :=
  by decide

theorem trif77 :
    l34 100 2 0 8 triq74 = Py.ok triq76 () :=
  by decide

theorem trif78 :
    pyGet triq76.FIRST 3 = some 0 :=
  by decide

theorem trif79 :
    ((0 : Int) ∈ triq76.outerVertices : Bool) = false :=
  by decide

theorem trif80 :
    pyGet triq76.FIRST 1 = some 2 :=
  by decide

theorem trif81 :
    ((2 : Int) ∈ triq76.outerVertices : Bool) = true :=
  by decide

theorem trif83 :
    firstSet 1 0 triq76 = Py.ok triq82 () :=
  by decide

theorem trif84 :
    pyGet triq82.FIRST 2 = some 0 :=
  by decide

theorem trif85 :
    ((0 : Int) ∈ triq82.outerVertices : Bool) = false :=
  by decide

theorem tril586 :
    l5Fold 0 [3, 1, 2] triq76 = Py.ok triq82 () :=
  (l5Fold_cons_skip [1, 2] trif78 trif79).trans ((l5Fold_cons_out [2] trif80 trif81 trif83).trans ((l5Fold_cons_skip [] trif84 trif85).trans (l5Fold_nil 0 triq82)))

theorem triL87 :
    L 100 3 1 8 triq58 = Py.ok triq82 () :=
  L_full trif65 trif66 trif67 trif69 trif71 trif72 trif73 trif75 trif77 tril586

theorem trib88 :
    e2Body 100 100 3 triq55 = Py.ok triq82 true :=
  e2Body_blossom trif59 trif60 trif61 trif62 trif63 trif64 triL87

theorem trif90 :
    chooseAnEdge triq82 = Py.ok triq89 (some (1, 4)) :=
  by decide

theorem trif91 :
    getEdge 4 triq89 = Py.ok triq89 (1, 2) :=
  by decide

theorem trif92 :
    pyXor (pyXor 1 1) 2 = 2 :=
  by decide

theorem trif93 :
    isMatched 2 triq89 = Py.ok triq89 true :=
  by decide

theorem trif94 :
    ¬ ((true : Bool) = false ∧ (2 : Int) ≠ 3) :=
  by decide

theorem trif95 :
    ((2 : Int) ∈ triq89.outerVertices : Bool) = true :=
  by decide

theorem trif96 :
    pyGet triq89.FIRST 1 = some 0 :=
  by decide

theorem trif97 :
    pyGet triq89.FIRST 2 = some 0 :=
  by decide

theorem triL98 :
    L 100 1 2 4 triq89 = Py.ok triq89 () :=
  L_trivial trif96 trif97

theorem trib99 :
    e2Body 100 100 3 triq82 = Py.ok triq89 true :=
  e2Body_blossom trif90 trif91 trif92 trif93 trif94 trif95 triL98

theorem trif101 :
    chooseAnEdge triq89 = Py.ok triq100 (some (1, 8)) :=
  by decide

theorem trif102 :
    getEdge 8 triq100 = Py.ok triq100 (1, 3) :=
  by decide

theorem trif103 :
    pyXor (pyXor 1 1) 3 = 3 :=
  by decide

theorem trif104 :
    isMatched 3 triq100 = Py.ok triq100 false :=
  by decide

theorem trif105 :
    ¬ ((false : Bool) = false ∧ (3 : Int) ≠ 3) :=
  by decide

theorem trif106 :
    ((3 : Int) ∈ triq100.outerVertices : Bool) = true :=
  by decide

theorem trif107 :
    pyGet triq100.FIRST 1 = some 0 :=
  by decide

theorem trif108 :
    pyGet triq100.FIRST 3 = some 0 :=
  by decide

theorem triL109 :
    L 100 1 3 8 triq100 = Py.ok triq100 () :=
  L_trivial trif107 trif108

theorem trib110 :
    e2Body 100 100 3 triq89 = Py.ok triq100 true :=
  e2Body_blossom trif101 trif102 trif103 trif104 trif105 trif106 triL109

theorem trif112 :
    chooseAnEdge triq100 = Py.ok triq111 (some (2, 4)) :=
  by decide

theorem trif113 :
    getEdge 4 triq111 = Py.ok triq111 (1, 2) :=
  by decide

theorem trif114 :
    pyXor (pyXor 2 1) 2 = 1 :=
  by decide

theorem trif115 :
    isMatched 1 triq111 = Py.ok triq111 true :=
  by decide

theorem trif116 :
    ¬ ((true : Bool) = false ∧ (1 : Int) ≠ 3) :=
  by decide

theorem trif117 :
    ((1 : Int) ∈ triq111.outerVertices : Bool) = true :=
  by decide

theorem trif118 :
    pyGet triq111.FIRST 2 = some 0 :=
  by decide

theorem trif119 :
    pyGet triq111.FIRST 1 = some 0 :=
  by decide

theorem triL120 :
    L 100 2 1 4 triq111 = Py.ok triq111 () :=
  L_trivial trif118 trif119

theorem trib121 :
    e2Body 100 100 3 triq100 = Py.ok triq111 true :=
  e2Body_blossom trif112 trif113 trif114 trif115 trif116 trif117 triL120

theorem trif123 :
    chooseAnEdge triq111 = Py.ok triq122 (some (2, 6)) :=
  by decide

theorem trif124 :
    getEdge 6 triq122 = Py.ok triq122 (2, 3) :=
  by decide

theorem trif125 :
    pyXor (pyXor 2 2) 3 = 3 :=
  by decide

theorem trif126 :
    isMatched 3 triq122 = Py.ok triq122 false :=
  by decide

theorem trif127 :
    ¬ ((false : Bool) = false ∧ (3 : Int) ≠ 3) :=
  by decide

theorem trif128 :
    ((3 : Int) ∈ triq122.outerVertices : Bool) = true :=
  by decide

theorem trif129 :
    pyGet triq122.FIRST 2 = some 0 :=
  by decide

theorem trif130 :
    pyGet triq122.FIRST 3 = some 0 :=
  by decide

theorem triL131 :
    L 100 2 3 6 triq122 = Py.ok triq122 () :=
  L_trivial trif129 trif130

theorem trib132 :
    e2Body 100 100 3 triq111 = Py.ok triq122 true :=
  e2Body_blossom trif123 trif124 trif125 trif126 trif127 trif128 triL131

theorem trif133 :
    chooseAnEdge triq122 = Py.ok triq122 none :=
  by decide

theorem trif135 :
    labelSet 0 (-1) triq122 = Py.ok triq134 () :=
  by decide

theorem trif137 :
    setLabel 3 (-1) triq134 = Py.ok triq136 () :=
  by decide

theorem trif138 :
    pyGet triq136.MATE 3 = some 0 :=
  by decide

theorem trif140 :
    setLabel 0 (-1) triq136 = Py.ok triq139 () :=
  by decide

theorem trif142 :
    setLabel 1 (-1) triq139 = Py.ok triq141 () :=
  by decide

theorem trif143 :
    pyGet triq141.MATE 1 = some 2 :=
  by decide

theorem trif145 :
    setLabel 2 (-1) triq141 = Py.ok triq144 () :=
  by decide

theorem trif147 :
    setLabel 2 (-1) triq144 = Py.ok triq146 () :=
  by decide

theorem trif148 :
    pyGet triq146.MATE 2 = some 1 :=
  by decide

theorem trif150 :
    setLabel 1 (-1) triq146 = Py.ok triq149 () :=
  by decide

theorem trifold151 :
    stopFold [3, 1, 2] triq134 = Py.ok triq149 () :=
  (stopFold_cons [1, 2] trif137 trif138 trif140).trans ((stopFold_cons [2] trif142 trif143 trif145).trans ((stopFold_cons [] trif147 trif148 trif150).trans (stopFold_nil triq149)))

theorem trif153 :
    { triq149 with outerVertices := [], outerEdges := [], outerIdx := 0 } = triq152 :=
  by decide

theorem tristop154 :
    stopTheSearch triq122 = Py.ok triq152 () :=
  stop_run trif135 trifold151 trif153

theorem trib155 :
    e2Body 100 100 3 triq122 = Py.ok triq152 false :=
  e2Body_exhaust trif133 tristop154

theorem triloop156 :
    e2Loop 100 100 3 100 triq42 = Py.ok triq152 () :=
  (e2Loop_cont 99 trib57).trans ((e2Loop_cont 98 trib88).trans ((e2Loop_cont 97 trib99).trans ((e2Loop_cont 96 trib110).trans ((e2Loop_cont 95 trib121).trans ((e2Loop_cont 94 trib132).trans ((e2Loop_stop 93 trib155)))))))

theorem triroots157 :
    eRoots 100 100 [1, 2, 3] triq4 = Py.ok triq152 () :=
  (eRoots_cons_search [2, 3] trif7 trif8 trif10 trif12 triloop35).trans ((eRoots_cons_skip [3] trif36 trif37).trans ((eRoots_cons_search [] trif38 trif39 trif41 trif43 triloop156).trans (eRoots_nil 100 100 triq152)))

theorem trirun158 :
    E 100 100 triq4 = Py.ok triq152 () :=
  by
    rw [E_run]
    have h : intRange 1 (triq4.V + 1) = [1, 2, 3] := by decide
    rw [h]
    exact triroots157

theorem trif159 :
    getMatchingSize triq152 = Py.ok triq152 2 :=
  by decide

theorem twof1 :
    addEdge 1 2 (init 4) = Py.ok twoq0 () :=
  by decide

theorem twof3 :
    addEdge 3 4 twoq0 = Py.ok twoq2 () :=
  by decide

theorem twobuild4 :
    addEdges [(1, 2), (3, 4)] (init 4) = Py.ok twoq2 () :=
  (addEdges_cons (1, 2) [(3, 4)] twof1).trans ((addEdges_cons (3, 4) [] twof3).trans (addEdges_nil twoq2))

theorem twof5 :
    pyGet twoq2.MATE 1 = some 0 :=
  by decide

theorem twof6 :
    ¬ (0 : Int) < 0 :=
  by decide

theorem twof8 :
    setLabel 1 0 twoq2 = Py.ok twoq7 () :=
  by decide

theorem twof10 :
    firstSet 1 0 twoq7 = Py.ok twoq9 () :=
  by decide

theorem twof12 :
    chooseAnEdge twoq9 = Py.ok twoq11 (some (1, 5)) :=
  by decide

theorem twof13 :
    getEdge 5 twoq11 = Py.ok twoq11 (1, 2) :=
  by decide

theorem twof14 :
    pyXor (pyXor 1 1) 2 = 2 :=
  by decide

theorem twof15 :
    isMatched 2 twoq11 = Py.ok twoq11 false :=
  by decide

theorem twof16 :
    (2 : Int) ≠ 1 :=
  by decide

theorem twof18 :
    mateSet 2 1 twoq11 = Py.ok twoq17 () :=
  by decide

theorem twof20 :
    R 100 1 2 twoq17 = Py.ok twoq19 () :=
  by decide

theorem twof22 :
    labelSet 0 (-1) twoq19 = Py.ok twoq21 () :=
  by decide

theorem twof24 :
    setLabel 1 (-1) twoq21 = Py.ok twoq23 () :=
  by decide

theorem twof25 :
    pyGet twoq23.MATE 1 = some 2 :=
  by decide

theorem twof27 :
    setLabel 2 (-1) twoq23 = Py.ok twoq26 () :=
  by decide

theorem twofold28 :
    stopFold [1] twoq21 = Py.ok twoq26 () :=
  (stopFold_cons [] twof24 twof25 twof27).trans (stopFold_nil twoq26)

theorem twof30 :
    { twoq26 with outerVertices := [], outerEdges := [], outerIdx := 0 } = twoq29 :=
  by decide

theorem twostop31 :
    stopTheSearch twoq19 = Py.ok twoq29 () :=
  stop_run twof22 twofold28 twof30

theorem twob32 :
    e2Body 100 100 1 twoq9 = Py.ok twoq29 false :=
  e2Body_augment twof12 twof13 twof14 twof15 twof16 twof18 twof20 twostop31

theorem twoloop33 :
    e2Loop 100 100 1 100 twoq9 = Py.ok twoq29 () :=
  (e2Loop_stop 99 twob32)

theorem twof34 :
    pyGet twoq29.MATE 2 = some 1 :=
  by decide

theorem twof35 :
    (0 : Int) < 1 :=
  by decide

theorem twof36 :
    pyGet twoq29.MATE 3 = some 0 :=
  by decide

theorem twof37 :
    ¬ (0 : Int) < 0 :=
  by decide

theorem twof39 :
    setLabel 3 0 twoq29 = Py.ok twoq38 () :=
  by decide

theorem twof41 :
    firstSet 3 0 twoq38 = Py.ok twoq40 () :=
  by decide

theorem twof43 :
    chooseAnEdge twoq40 = Py.ok twoq42 (some (3, 7)) :=
  by decide

theorem twof44 :
    getEdge 7 twoq42 = Py.ok twoq42 (3, 4) :=
  by decide

theorem twof45 :
    pyXor (pyXor 3 3) 4 = 4 :=
  by decide

theorem twof46 :
    isMatched 4 twoq42 = Py.ok twoq42 false :=
  by decide

theorem twof47 :
    (4 : Int) ≠ 3 :=
  by decide

theorem twof49 :
    mateSet 4 3 twoq42 = Py.ok twoq48 () :=
  by decide

theorem twof51 :
    R 100 3 4 twoq48 = Py.ok twoq50 () :=
  by decide

theorem twof53 :
    labelSet 0 (-1) twoq50 = Py.ok twoq52 () :=
  by decide

theorem twof55 :
    setLabel 3 (-1) twoq52 = Py.ok twoq54 () :=
  by decide

theorem twof56 :
    pyGet twoq54.MATE 3 = some 4 :=
  by decide

theorem twof58 :
    setLabel 4 (-1) twoq54 = Py.ok twoq57 () :=
  by decide

theorem twofold59 :
    stopFold [3] twoq52 = Py.ok twoq57 () :=
  (stopFold_cons [] twof55 twof56 twof58).trans (stopFold_nil twoq57)

theorem twof61 :
    { twoq57 with outerVertices := [], outerEdges := [], outerIdx := 0 } = twoq60 :=
  by decide

theorem twostop62 :
    stopTheSearch twoq50 = Py.ok twoq60 () :=
  stop_run twof53 twofold59 twof61

theorem twob63 :
    e2Body 100 100 3 twoq40 = Py.ok twoq60 false :=
  e2Body_augment twof43 twof44 twof45 twof46 twof47 twof49 twof51 twostop62

theorem twoloop64 :
    e2Loop 100 100 3 100 twoq40 = Py.ok twoq60 () :=
  (e2Loop_stop 99 twob63)

theorem twof65 :
    pyGet twoq60.MATE 4 = some 3 :=
  by decide

theorem twof66 :
    (0 : Int) < 3 :=
  by decide

theorem tworoots67 :
    eRoots 100 100 [1, 2, 3, 4] twoq2 = Py.ok twoq60 () :=
  (eRoots_cons_search [2, 3, 4] twof5 twof6 twof8 twof10 twoloop33).trans ((eRoots_cons_skip [3, 4] twof34 twof35).trans ((eRoots_cons_search [4] twof36 twof37 twof39 twof41 twoloop64).trans ((eRoots_cons_skip [] twof65 twof66).trans (eRoots_nil 100 100 twoq60))))

theorem tworun68 :
    E 100 100 twoq2 = Py.ok twoq60 () :=
  by
    rw [E_run]
    have h : intRange 1 (twoq2.V + 1) = [1, 2, 3, 4] := by decide
    rw [h]
    exact tworoots67

theorem twof69 :
    getMatchingSize twoq60 = Py.ok twoq60 4 :=
  by decide

theorem cycf1 :
    addEdge 1 2 (init 5) = Py.ok cycq0 () :=
  by decide

theorem cycf3 :
    addEdge 2 3 cycq0 = Py.ok cycq2 () :=
  by decide

theorem cycf5 :
    addEdge 3 4 cycq2 = Py.ok cycq4 () :=
  by decide

theorem cycf7 :
    addEdge 4 5 cycq4 = Py.ok cycq6 () :=
  by decide

theorem cycf9 :
    addEdge 5 1 cycq6 = Py.ok cycq8 () :=
  by decide

theorem cycbuild10 :
    addEdges [(1, 2), (2, 3), (3, 4), (4, 5), (5, 1)] (init 5) = Py.ok cycq8 () :=
  (addEdges_cons (1, 2) [(2, 3), (3, 4), (4, 5), (5, 1)] cycf1).trans ((addEdges_cons (2, 3) [(3, 4), (4, 5), (5, 1)] cycf3).trans ((addEdges_cons (3, 4) [(4, 5), (5, 1)] cycf5).trans ((addEdges_cons (4, 5) [(5, 1)] cycf7).trans ((addEdges_cons (5, 1) [] cycf9).trans (addEdges_nil cycq8)))))

theorem cycf11 :
    pyGet cycq8.MATE 1 = some 0 :=
  by decide

theorem cycf12 :
    ¬ (0 : Int) < 0 :=
  by decide

theorem cycf14 :
    setLabel 1 0 cycq8 = Py.ok cycq13 () :=
  by decide

theorem cycf16 :
    firstSet 1 0 cycq13 = Py.ok cycq15 () :=
  by decide

theorem cycf18 :
    chooseAnEdge cycq15 = Py.ok cycq17 (some (1, 6)) :=
  by decide

theorem cycf19 :
    getEdge 6 cycq17 = Py.ok cycq17 (1, 2) :=
  by decide

theorem cycf20 :
    pyXor (pyXor 1 1) 2 = 2 :=
  by decide

theorem cycf21 :
    isMatched 2 cycq17 = Py.ok cycq17 false :=
  by decide

theorem cycf22 :
    (2 : Int) ≠ 1 :=
  by decide

theorem cycf24 :
    mateSet 2 1 cycq17 = Py.ok cycq23 () :=
  by decide

theorem cycf26 :
    R 100 1 2 cycq23 = Py.ok cycq25 () :=
  by decide

theorem cycf28 :
    labelSet 0 (-1) cycq25 = Py.ok cycq27 () :=
  by decide

theorem cycf30 :
    setLabel 1 (-1) cycq27 = Py.ok cycq29 () :=
  by decide

theorem cycf31 :
    pyGet cycq29.MATE 1 = some 2 :=
  by decide

theorem cycf33 :
    setLabel 2 (-1) cycq29 = Py.ok cycq32 () :=
  by decide

theorem cycfold34 :
    stopFold [1] cycq27 = Py.ok cycq32 () :=
  (stopFold_cons [] cycf30 cycf31 cycf33).trans (stopFold_nil cycq32)

theorem cycf36 :
    { cycq32 with outerVertices := [], outerEdges := [], outerIdx := 0 } = cycq35 :=
  by decide

theorem cycstop37 :
    stopTheSearch cycq25 = Py.ok cycq35 () :=
  stop_run cycf28 cycfold34 cycf36

theorem cycb38 :
    e2Body 100 100 1 cycq15 = Py.ok cycq35 false :=
  e2Body_augment cycf18 cycf19 cycf20 cycf21 cycf22 cycf24 cycf26 cycstop37

theorem cycloop39 :
    e2Loop 100 100 1 100 cycq15 = Py.ok cycq35 () :=
  (e2Loop_stop 99 cycb38)

theorem cycf40 :
    pyGet cycq35.MATE 2 = some 1 :=
  by decide

theorem cycf41 :
    (0 : Int) < 1 :=
  by decide

theorem cycf42 :
    pyGet cycq35.MATE 3 = some 0 :=
  by decide

theorem cycf43 :
    ¬ (0 : Int) < 0 :=
  by decide

theorem cycf45 :
    setLabel 3 0 cycq35 = Py.ok cycq44 () :=
  by decide

theorem cycf47 :
    firstSet 3 0 cycq44 = Py.ok cycq46 () :=
  by decide

theorem cycf49 :
    chooseAnEdge cycq46 = Py.ok cycq48 (some (3, 8)) :=
  by decide

theorem cycf50 :
    getEdge 8 cycq48 = Py.ok cycq48 (2, 3) :=
  by decide

theorem cycf51 :
    pyXor (pyXor 3 2) 3 = 2 :=
  by decide

theorem cycf52 :
    isMatched 2 cycq48 = Py.ok cycq48 true :=
  by decide

theorem cycf53 :
    ¬ ((true : Bool) = false ∧ (2 : Int) ≠ 3) :=
  by decide

theorem cycf54 :
    ((2 : Int) ∈ cycq48.outerVertices : Bool) = false :=
  by decide

theorem cycf55 :
    pyGet cycq48.MATE 2 = some 1 :=
  by decide

theorem cycf56 :
    ((1 : Int) ∈ cycq48.outerVertices : Bool) = false :=
  by decide

theorem cycf58 :
    setLabel 1 3 cycq48 = Py.ok cycq57 () :=
  by decide

theorem cycf60 :
    firstSet 1 2 cycq57 = Py.ok cycq59 () :=
  by decide

theorem cycb61 :
    e2Body 100 100 3 cycq46 = Py.ok cycq59 true :=
  e2Body_vertexLabel cycf49 cycf50 cycf51 cycf52 cycf53 cycf54 cycf55 cycf56 cycf58 cycf60

theorem cycf63 :
    chooseAnEdge cycq59 = Py.ok cycq62 (some (3, 10)) :=
  by decide

theorem cycf64 :
    getEdge 10 cycq62 = Py.ok cycq62 (3, 4) :=
  by decide

theorem cycf65 :
    pyXor (pyXor 3 3) 4 = 4 :=
  by decide

theorem cycf66 :
    isMatched 4 cycq62 = Py.ok cycq62 false :=
  by decide

theorem cycf67 :
    (4 : Int) ≠ 3 :=
  by decide

theorem cycf69 :
    mateSet 4 3 cycq62 = Py.ok cycq68 () :=
  by decide

theorem cycf71 :
    R 100 3 4 cycq68 = Py.ok cycq70 () :=
  by decide

theorem cycf73 :
    labelSet 0 (-1) cycq70 = Py.ok cycq72 () :=
  by decide

theorem cycf75 :
    setLabel 3 (-1) cycq72 = Py.ok cycq74 () :=
  by decide

theorem cycf76 :
    pyGet cycq74.MATE 3 = some 4 :=
  by decide

theorem cycf78 :
    setLabel 4 (-1) cycq74 = Py.ok cycq77 () :=
  by decide

theorem cycf80 :
    setLabel 1 (-1) cycq77 = Py.ok cycq79 () :=
  by decide

theorem cycf81 :
    pyGet cycq79.MATE 1 = some 2 :=
  by decide

theorem cycf83 :
    setLabel 2 (-1) cycq79 = Py.ok cycq82 () :=
  by decide

theorem cycfold84 :
    stopFold [3, 1] cycq72 = Py.ok cycq82 () :=
  (stopFold_cons [1] cycf75 cycf76 cycf78).trans ((stopFold_cons [] cycf80 cycf81 cycf83).trans (stopFold_nil cycq82))

theorem cycf86 :
    { cycq82 with outerVertices := [], outerEdges := [], outerIdx := 0 } = cycq85 :=
  by decide

theorem cycstop87 :
    stopTheSearch cycq70 = Py.ok cycq85 () :=
  stop_run cycf73 cycfold84 cycf86

theorem cycb88 :
    e2Body 100 100 3 cycq59 = Py.ok cycq85 false :=
  e2Body_augment cycf63 cycf64 cycf65 cycf66 cycf67 cycf69 cycf71 cycstop87

theorem cycloop89 :
    e2Loop 100 100 3 100 cycq46 = Py.ok cycq85 () :=
  (e2Loop_cont 99 cycb61).trans ((e2Loop_stop 98 cycb88))

theorem cycf90 :
    pyGet cycq85.MATE 4 = some 3 :=
  by decide

theorem cycf91 :
    (0 : Int) < 3 :=
  by decide

theorem cycf92 :
    pyGet cycq85.MATE 5 = some 0 :=
  by decide

theorem cycf93 :
    ¬ (0 : Int) < 0 :=
  by decide

theorem cycf95 :
    setLabel 5 0 cycq85 = Py.ok cycq94 () :=
  by decide

theorem cycf97 :
    firstSet 5 0 cycq94 = Py.ok cycq96 () :=
  by decide

theorem cycf99 :
    chooseAnEdge cycq96 = Py.ok cycq98 (some (5, 12)) :=
  by decide

theorem cycf100 :
    getEdge 12 cycq98 = Py.ok cycq98 (4, 5) :=
  by decide

theorem cycf101 :
    pyXor (pyXor 5 4) 5 = 4 :=
  by decide

theorem cycf102 :
    isMatched 4 cycq98 = Py.ok cycq98 true :=
  by decide

theorem cycf103 :
    ¬ ((true : Bool) = false ∧ (4 : Int) ≠ 5) :=
  by decide

theorem cycf104 :
    ((4 : Int) ∈ cycq98.outerVertices : Bool) = false :=
  by decide

theorem cycf105 :
    pyGet cycq98.MATE 4 = some 3 :=
  by decide

theorem cycf106 :
    ((3 : Int) ∈ cycq98.outerVertices : Bool) = false :=
  by decide

theorem cycf108 :
    setLabel 3 5 cycq98 = Py.ok cycq107 () :=
  by decide

theorem cycf110 :
    firstSet 3 4 cycq107 = Py.ok cycq109 () :=
  by decide

theorem cycb111 :
    e2Body 100 100 5 cycq96 = Py.ok cycq109 true :=
  e2Body_vertexLabel cycf99 cycf100 cycf101 cycf102 cycf103 cycf104 cycf105 cycf106 cycf108 cycf110

theorem cycf113 :
    chooseAnEdge cycq109 = Py.ok cycq112 (some (5, 14)) :=
  by decide

theorem cycf114 :
    getEdge 14 cycq112 = Py.ok cycq112 (5, 1) :=
  by decide

theorem cycf115 :
    pyXor (pyXor 5 5) 1 = 1 :=
  by decide

theorem cycf116 :
    isMatched 1 cycq112 = Py.ok cycq112 true :=
  by decide

theorem cycf117 :
    ¬ ((true : Bool) = false ∧ (1 : Int) ≠ 5) :=
  by decide

theorem cycf118 :
    ((1 : Int) ∈ cycq112.outerVertices : Bool) = false :=
  by decide

theorem cycf119 :
    pyGet cycq112.MATE 1 = some 2 :=
  by decide

theorem cycf120 :
    ((2 : Int) ∈ cycq112.outerVertices : Bool) = false :=
  by decide

theorem cycf122 :
    setLabel 2 5 cycq112 = Py.ok cycq121 () :=
  by decide

theorem cycf124 :
    firstSet 2 1 cycq121 = Py.ok cycq123 () :=
  by decide

theorem cycb125 :
    e2Body 100 100 5 cycq109 = Py.ok cycq123 true :=
  e2Body_vertexLabel cycf113 cycf114 cycf115 cycf116 cycf117 cycf118 cycf119 cycf120 cycf122 cycf124

theorem cycf127 :
    chooseAnEdge cycq123 = Py.ok cycq126 (some (3, 8)) :=
  by decide

theorem cycf128 :
    getEdge 8 cycq126 = Py.ok cycq126 (2, 3) :=
  by decide

theorem cycf129 :
    pyXor (pyXor 3 2) 3 = 2 :=
  by decide

theorem cycf130 :
    isMatched 2 cycq126 = Py.ok cycq126 true :=
  by decide

theorem cycf131 :
    ¬ ((true : Bool) = false ∧ (2 : Int) ≠ 5) :=
  by decide

theorem cycf132 :
    ((2 : Int) ∈ cycq126.outerVertices : Bool) = true :=
  by decide

theorem cycf133 :
    pyGet cycq126.FIRST 3 = some 4 :=
  by decide

theorem cycf134 :
    pyGet cycq126.FIRST 2 = some 1 :=
  by decide

theorem cycf135 :
    (4 : Int) ≠ 1 :=
  by decide

theorem cycf137 :
    setFlag 4 8 cycq126 = Py.ok cycq136 () :=
  by decide

theorem cycf139 :
    l12 100 8 4 1 cycq136 = Py.ok cycq138 0 :=
  by decide

theorem cycf140 :
    pyGet cycq138.FIRST 3 = some 4 :=
  by decide

theorem cycf141 :
    pyGet cycq138.FIRST 2 = some 1 :=
  by decide

theorem cycf143 :
    l34 100 4 0 8 cycq138 = Py.ok cycq142 () :=
  by decide

theorem cycf145 :
    l34 100 1 0 8 cycq142 = Py.ok cycq144 () :=
  by decide

theorem cycf146 :
    pyGet cycq144.FIRST 5 = some 0 :=
  by decide

theorem cycf147 :
    ((0 : Int) ∈ cycq144.outerVertices : Bool) = false :=
  by decide

theorem cycf148 :
    pyGet cycq144.FIRST 3 = some 4 :=
  by decide

theorem cycf149 :
    ((4 : Int) ∈ cycq144.outerVertices : Bool) = true :=
  by decide

theorem cycf151 :
    firstSet 3 0 cycq144 = Py.ok cycq150 () :=
  by decide

theorem cycf152 :
    pyGet cycq150.FIRST 2 = some 1 :=
  by decide

theorem cycf153 :
    ((1 : Int) ∈ cycq150.outerVertices : Bool) = true :=
  by decide

theorem cycf155 :
    firstSet 2 0 cycq150 = Py.ok cycq154 () :=
  by decide

theorem cycf156 :
    pyGet cycq154.FIRST 4 = some 0 :=
  by decide

theorem cycf157 :
    ((0 : Int) ∈ cycq154.outerVertices : Bool) = false :=
  by decide

theorem cycf158 :
    pyGet cycq154.FIRST 1 = some 0 :=
  by decide

theorem cycf159 :
    ((0 : Int) ∈ cycq154.outerVertices : Bool) = false :=
  by decide

theorem cycl5160 :
    l5Fold 0 [5, 3, 2, 4, 1] cycq144 = Py.ok cycq154 () :=
  (l5Fold_cons_skip [3, 2, 4, 1] cycf146 cycf147).trans ((l5Fold_cons_out [2, 4, 1] cycf148 cycf149 cycf151).trans ((l5Fold_cons_out [4, 1] cycf152 cycf153 cycf155).trans ((l5Fold_cons_skip [1] cycf156 cycf157).trans ((l5Fold_cons_skip [] cycf158 cycf159).trans (l5Fold_nil 0 cycq154)))))

theorem cycL161 :
    L 100 3 2 8 cycq126 = Py.ok cycq154 () :=
  L_full cycf133 cycf134 cycf135 cycf137 cycf139 cycf140 cycf141 cycf143 cycf145 cycl5160

theorem cycb162 :
    e2Body 100 100 5 cycq123 = Py.ok cycq154 true :=
  e2Body_blossom cycf127 cycf128 cycf129 cycf130 cycf131 cycf132 cycL161

theorem cycf164 :
    chooseAnEdge cycq154 = Py.ok cycq163 (some (3, 10)) :=
  by decide

theorem cycf165 :
    getEdge 10 cycq163 = Py.ok cycq163 (3, 4) :=
  by decide

theorem cycf166 :
    pyXor (pyXor 3 3) 4 = 4 :=
  by decide

theorem cycf167 :
    isMatched 4 cycq163 = Py.ok cycq163 true :=
  by decide

theorem cycf168 :
    ¬ ((true : Bool) = false ∧ (4 : Int) ≠ 5) :=
  by decide

theorem cycf169 :
    ((4 : Int) ∈ cycq163.outerVertices : Bool) = true :=
  by decide

theorem cycf170 :
    pyGet cycq163.FIRST 3 = some 0 :=
  by decide

theorem cycf171 :
    pyGet cycq163.FIRST 4 = some 0 :=
  by decide

theorem cycL172 :
    L 100 3 4 10 cycq163 = Py.ok cycq163 () :=
  L_trivial cycf170 cycf171

theorem cycb173 :
    e2Body 100 100 5 cycq154 = Py.ok cycq163 true :=
  e2Body_blossom cycf164 cycf165 cycf166 cycf167 cycf168 cycf169 cycL172

theorem cycf175 :
    chooseAnEdge cycq163 = Py.ok cycq174 (some (2, 6)) :=
  by decide

theorem cycf176 :
    getEdge 6 cycq174 = Py.ok cycq174 (1, 2) :=
  by decide

theorem cycf177 :
    pyXor (pyXor 2 1) 2 = 1 :=
  by decide

theorem cycf178 :
    isMatched 1 cycq174 = Py.ok cycq174 true :=
  by decide

theorem cycf179 :
    ¬ ((true : Bool) = false ∧ (1 : Int) ≠ 5) :=
  by decide

theorem cycf180 :
    ((1 : Int) ∈ cycq174.outerVertices : Bool) = true :=
  by decide

theorem cycf181 :
    pyGet cycq174.FIRST 2 = some 0 :=
  by decide

theorem cycf182 :
    pyGet cycq174.FIRST 1 = some 0 :=
  by decide

theorem cycL183 :
    L 100 2 1 6 cycq174 = Py.ok cycq174 () :=
  L_trivial cycf181 cycf182

theorem cycb184 :
    e2Body 100 100 5 cycq163 = Py.ok cycq174 true :=
  e2Body_blossom cycf175 cycf176 cycf177 cycf178 cycf179 cycf180 cycL183

theorem cycf186 :
    chooseAnEdge cycq174 = Py.ok cycq185 (some (2, 8)) :=
  by decide

theorem cycf187 :
    getEdge 8 cycq185 = Py.ok cycq185 (2, 3) :=
  by decide

theorem cycf188 :
    pyXor (pyXor 2 2) 3 = 3 :=
  by decide

theorem cycf189 :
    isMatched 3 cycq185 = Py.ok cycq185 true :=
  by decide

theorem cycf190 :
    ¬ ((true : Bool) = false ∧ (3 : Int) ≠ 5) :=
  by decide

theorem cycf191 :
    ((3 : Int) ∈ cycq185.outerVertices : Bool) = true :=
  by decide

theorem cycf192 :
    pyGet cycq185.FIRST 2 = some 0 :=
  by decide

theorem cycf193 :
    pyGet cycq185.FIRST 3 = some 0 :=
  by decide

theorem cycL194 :
    L 100 2 3 8 cycq185 = Py.ok cycq185 () :=
  L_trivial cycf192 cycf193

theorem cycb195 :
    e2Body 100 100 5 cycq174 = Py.ok cycq185 true :=
  e2Body_blossom cycf186 cycf187 cycf188 cycf189 cycf190 cycf191 cycL194

theorem cycf197 :
    chooseAnEdge cycq185 = Py.ok cycq196 (some (4, 10)) :=
  by decide

theorem cycf198 :
    getEdge 10 cycq196 = Py.ok cycq196 (3, 4) :=
  by decide

theorem cycf199 :
    pyXor (pyXor 4 3) 4 = 3 :=
  by decide

theorem cycf200 :
    isMatched 3 cycq196 = Py.ok cycq196 true :=
  by decide

theorem cycf201 :
    ¬ ((true : Bool) = false ∧ (3 : Int) ≠ 5) :=
  by decide

theorem cycf202 :
    ((3 : Int) ∈ cycq196.outerVertices : Bool) = true :=
  by decide

theorem cycf203 :
    pyGet cycq196.FIRST 4 = some 0 :=
  by decide

theorem cycf204 :
    pyGet cycq196.FIRST 3 = some 0 :=
  by decide

theorem cycL205 :
    L 100 4 3 10 cycq196 = Py.ok cycq196 () :=
  L_trivial cycf203 cycf204

theorem cycb206 :
    e2Body 100 100 5 cycq185 = Py.ok cycq196 true :=
  e2Body_blossom cycf197 cycf198 cycf199 cycf200 cycf201 cycf202 cycL205

theorem cycf208 :
    chooseAnEdge cycq196 = Py.ok cycq207 (some (4, 12)) :=
  by decide

theorem cycf209 :
    getEdge 12 cycq207 = Py.ok cycq207 (4, 5) :=
  by decide

theorem cycf210 :
    pyXor (pyXor 4 4) 5 = 5 :=
  by decide

theorem cycf211 :
    isMatched 5 cycq207 = Py.ok cycq207 false :=
  by decide

theorem cycf212 :
    ¬ ((false : Bool) = false ∧ (5 : Int) ≠ 5) :=
  by decide

theorem cycf213 :
    ((5 : Int) ∈ cycq207.outerVertices : Bool) = true :=
  by decide

theorem cycf214 :
    pyGet cycq207.FIRST 4 = some 0 :=
  by decide

theorem cycf215 :
    pyGet cycq207.FIRST 5 = some 0 :=
  by decide

theorem cycL216 :
    L 100 4 5 12 cycq207 = Py.ok cycq207 () :=
  L_trivial cycf214 cycf215

theorem cycb217 :
    e2Body 100 100 5 cycq196 = Py.ok cycq207 true :=
  e2Body_blossom cycf208 cycf209 cycf210 cycf211 cycf212 cycf213 cycL216

theorem cycf219 :
    chooseAnEdge cycq207 = Py.ok cycq218 (some (1, 6)) :=
  by decide

theorem cycf220 :
    getEdge 6 cycq218 = Py.ok cycq218 (1, 2) :=
  by decide

theorem cycf221 :
    pyXor (pyXor 1 1) 2 = 2 :=
  by decide

theorem cycf222 :
    isMatched 2 cycq218 = Py.ok cycq218 true :=
  by decide

theorem cycf223 :
    ¬ ((true : Bool) = false ∧ (2 : Int) ≠ 5) :=
  by decide

theorem cycf224 :
    ((2 : Int) ∈ cycq218.outerVertices : Bool) = true :=
  by decide

theorem cycf225 :
    pyGet cycq218.FIRST 1 = some 0 :=
  by decide

theorem cycf226 :
    pyGet cycq218.FIRST 2 = some 0 :=
  by decide

theorem cycL227 :
    L 100 1 2 6 cycq218 = Py.ok cycq218 () :=
  L_trivial cycf225 cycf226

theorem cycb228 :
    e2Body 100 100 5 cycq207 = Py.ok cycq218 true :=
  e2Body_blossom cycf219 cycf220 cycf221 cycf222 cycf223 cycf224 cycL227

theorem cycf230 :
    chooseAnEdge cycq218 = Py.ok cycq229 (some (1, 14)) :=
  by decide

theorem cycf231 :
    getEdge 14 cycq229 = Py.ok cycq229 (5, 1) :=
  by decide

theorem cycf232 :
    pyXor (pyXor 1 5) 1 = 5 :=
  by decide

theorem cycf233 :
    isMatched 5 cycq229 = Py.ok cycq229 false :=
  by decide

theorem cycf234 :
    ¬ ((false : Bool) = false ∧ (5 : Int) ≠ 5) :=
  by decide

theorem cycf235 :
    ((5 : Int) ∈ cycq229.outerVertices : Bool) = true :=
  by decide

theorem cycf236 :
    pyGet cycq229.FIRST 1 = some 0 :=
  by decide

theorem cycf237 :
    pyGet cycq229.FIRST 5 = some 0 :=
  by decide

theorem cycL238 :
    L 100 1 5 14 cycq229 = Py.ok cycq229 () :=
  L_trivial cycf236 cycf237

theorem cycb239 :
    e2Body 100 100 5 cycq218 = Py.ok cycq229 true :=
  e2Body_blossom cycf230 cycf231 cycf232 cycf233 cycf234 cycf235 cycL238

theorem cycf240 :
    chooseAnEdge cycq229 = Py.ok cycq229 none :=
  by decide

theorem cycf242 :
    labelSet 0 (-1) cycq229 = Py.ok cycq241 () :=
  by decide

theorem cycf244 :
    setLabel 5 (-1) cycq241 = Py.ok cycq243 () :=
  by decide

theorem cycf245 :
    pyGet cycq243.MATE 5 = some 0 :=
  by decide

theorem cycf247 :
    setLabel 0 (-1) cycq243 = Py.ok cycq246 () :=
  by decide

theorem cycf249 :
    setLabel 3 (-1) cycq246 = Py.ok cycq248 () :=
  by decide

theorem cycf250 :
    pyGet cycq248.MATE 3 = some 4 :=
  by decide

theorem cycf252 :
    setLabel 4 (-1) cycq248 = Py.ok cycq251 () :=
  by decide

theorem cycf254 :
    setLabel 2 (-1) cycq251 = Py.ok cycq253 () :=
  by decide

theorem cycf255 :
    pyGet cycq253.MATE 2 = some 1 :=
  by decide

theorem cycf257 :
    setLabel 1 (-1) cycq253 = Py.ok cycq256 () :=
  by decide

theorem cycf259 :
    setLabel 4 (-1) cycq256 = Py.ok cycq258 () :=
  by decide

theorem cycf260 :
    pyGet cycq258.MATE 4 = some 3 :=
  by decide

theorem cycf262 :
    setLabel 3 (-1) cycq258 = Py.ok cycq261 () :=
  by decide

theorem cycf264 :
    setLabel 1 (-1) cycq261 = Py.ok cycq263 () :=
  by decide

theorem cycf265 :
    pyGet cycq263.MATE 1 = some 2 :=
  by decide

theorem cycf267 :
    setLabel 2 (-1) cycq263 = Py.ok cycq266 () :=
  by decide

theorem cycfold268 :
    stopFold [5, 3, 2, 4, 1] cycq241 = Py.ok cycq266 () :=
  (stopFold_cons [3, 2, 4, 1] cycf244 cycf245 cycf247).trans ((stopFold_cons [2, 4, 1] cycf249 cycf250 cycf252).trans ((stopFold_cons [4, 1] cycf254 cycf255 cycf257).trans ((stopFold_cons [1] cycf259 cycf260 cycf262).trans ((stopFold_cons [] cycf264 cycf265 cycf267).trans (stopFold_nil cycq266)))))

theorem cycf270 :
    { cycq266 with outerVertices := [], outerEdges := [], outerIdx := 0 } = cycq269 :=
  by decide

theorem cycstop271 :
    stopTheSearch cycq229 = Py.ok cycq269 () :=
  stop_run cycf242 cycfold268 cycf270

theorem cycb272 :
    e2Body 100 100 5 cycq229 = Py.ok cycq269 false :=
  e2Body_exhaust cycf240 cycstop271

theorem cycloop273 :
    e2Loop 100 100 5 100 cycq96 = Py.ok cycq269 () :=
  (e2Loop_cont 99 cycb111).trans ((e2Loop_cont 98 cycb125).trans ((e2Loop_cont 97 cycb162).trans ((e2Loop_cont 96 cycb173).trans ((e2Loop_cont 95 cycb184).trans ((e2Loop_cont 94 cycb195).trans ((e2Loop_cont 93 cycb206).trans ((e2Loop_cont 92 cycb217).trans ((e2Loop_cont 91 cycb228).trans ((e2Loop_cont 90 cycb239).trans ((e2Loop_stop 89 cycb272)))))))))))

theorem cycroots274 :
    eRoots 100 100 [1, 2, 3, 4, 5] cycq8 = Py.ok cycq269 () :=
  (eRoots_cons_search [2, 3, 4, 5] cycf11 cycf12 cycf14 cycf16 cycloop39).trans ((eRoots_cons_skip [3, 4, 5] cycf40 cycf41).trans ((eRoots_cons_search [4, 5] cycf42 cycf43 cycf45 cycf47 cycloop89).trans ((eRoots_cons_skip [5] cycf90 cycf91).trans ((eRoots_cons_search [] cycf92 cycf93 cycf95 cycf97 cycloop273).trans (eRoots_nil 100 100 cycq269)))))

theorem cycrun275 :
    E 100 100 cycq8 = Py.ok cycq269 () :=
  by
    rw [E_run]
    have h : intRange 1 (cycq8.V + 1) = [1, 2, 3, 4, 5] := by decide
    rw [h]
    exact cycroots274

theorem cycf276 :
    getMatchingSize cycq269 = Py.ok cycq269 4 :=
  by decide

theorem eAf1 :
    addEdge 1 2 (init 5) = Py.ok eAq0 () :=
  by decide

theorem eAf3 :
    addEdge 3 4 eAq0 = Py.ok eAq2 () :=
  by decide

theorem eAf5 :
    addEdge 5 1 eAq2 = Py.ok eAq4 () :=
  by decide

theorem eAf7 :
    addEdge 5 3 eAq4 = Py.ok eAq6 () :=
  by decide

theorem eAf9 :
    addEdge 5 4 eAq6 = Py.ok eAq8 () :=
  by decide

theorem eAf11 :
    addEdge 2 3 eAq8 = Py.ok eAq10 () :=
  by decide

theorem eAbuild12 :
    addEdges [(1, 2), (3, 4), (5, 1), (5, 3), (5, 4), (2, 3)] (init 5) = Py.ok eAq10 () :=
  (addEdges_cons (1, 2) [(3, 4), (5, 1), (5, 3), (5, 4), (2, 3)] eAf1).trans ((addEdges_cons (3, 4) [(5, 1), (5, 3), (5, 4), (2, 3)] eAf3).trans ((addEdges_cons (5, 1) [(5, 3), (5, 4), (2, 3)] eAf5).trans ((addEdges_cons (5, 3) [(5, 4), (2, 3)] eAf7).trans ((addEdges_cons (5, 4) [(2, 3)] eAf9).trans ((addEdges_cons (2, 3) [] eAf11).trans (addEdges_nil eAq10))))))

theorem eAf13 :
    pyGet eAq10.MATE 1 = some 0 :=
  by decide

theorem eAf14 :
    ¬ (0 : Int) < 0 :=
  by decide

theorem eAf16 :
    setLabel 1 0 eAq10 = Py.ok eAq15 () :=
  by decide

theorem eAf18 :
    firstSet 1 0 eAq15 = Py.ok eAq17 () :=
  by decide

theorem eAf20 :
    chooseAnEdge eAq17 = Py.ok eAq19 (some (1, 6)) :=
  by decide

theorem eAf21 :
    getEdge 6 eAq19 = Py.ok eAq19 (1, 2) :=
  by decide

theorem eAf22 :
    pyXor (pyXor 1 1) 2 = 2 :=
  by decide

theorem eAf23 :
    isMatched 2 eAq19 = Py.ok eAq19 false :=
  by decide

theorem eAf24 :
    (2 : Int) ≠ 1 :=
  by decide

theorem eAf26 :
    mateSet 2 1 eAq19 = Py.ok eAq25 () :=
  by decide

theorem eAf28 :
    R 100 1 2 eAq25 = Py.ok eAq27 () :=
  by decide

theorem eAf30 :
    labelSet 0 (-1) eAq27 = Py.ok eAq29 () :=
  by decide

theorem eAf32 :
    setLabel 1 (-1) eAq29 = Py.ok eAq31 () :=
  by decide

theorem eAf33 :
    pyGet eAq31.MATE 1 = some 2 :=
  by decide

theorem eAf35 :
    setLabel 2 (-1) eAq31 = Py.ok eAq34 () :=
  by decide

theorem eAfold36 :
    stopFold [1] eAq29 = Py.ok eAq34 () :=
  (stopFold_cons [] eAf32 eAf33 eAf35).trans (stopFold_nil eAq34)

theorem eAf38 :
    { eAq34 with outerVertices := [], outerEdges := [], outerIdx := 0 } = eAq37 :=
  by decide

theorem eAstop39 :
    stopTheSearch eAq27 = Py.ok eAq37 () :=
  stop_run eAf30 eAfold36 eAf38

theorem eAb40 :
    e2Body 100 100 1 eAq17 = Py.ok eAq37 false :=
  e2Body_augment eAf20 eAf21 eAf22 eAf23 eAf24 eAf26 eAf28 eAstop39

theorem eAloop41 :
    e2Loop 100 100 1 100 eAq17 = Py.ok eAq37 () :=
  (e2Loop_stop 99 eAb40)

theorem eAf42 :
    pyGet eAq37.MATE 2 = some 1 :=
  by decide

theorem eAf43 :
    (0 : Int) < 1 :=
  by decide

theorem eAf44 :
    pyGet eAq37.MATE 3 = some 0 :=
  by decide

theorem eAf45 :
    ¬ (0 : Int) < 0 :=
  by decide

theorem eAf47 :
    setLabel 3 0 eAq37 = Py.ok eAq46 () :=
  by decide

theorem eAf49 :
    firstSet 3 0 eAq46 = Py.ok eAq48 () :=
  by decide

theorem eAf51 :
    chooseAnEdge eAq48 = Py.ok eAq50 (some (3, 8)) :=
  by decide

theorem eAf52 :
    getEdge 8 eAq50 = Py.ok eAq50 (3, 4) :=
  by decide

theorem eAf53 :
    pyXor (pyXor 3 3) 4 = 4 :=
  by decide

theorem eAf54 :
    isMatched 4 eAq50 = Py.ok eAq50 false :=
  by decide

theorem eAf55 :
    (4 : Int) ≠ 3 :=
  by decide

theorem eAf57 :
    mateSet 4 3 eAq50 = Py.ok eAq56 () :=
  by decide

theorem eAf59 :
    R 100 3 4 eAq56 = Py.ok eAq58 () :=
  by decide

theorem eAf61 :
    labelSet 0 (-1) eAq58 = Py.ok eAq60 () :=
  by decide

theorem eAf63 :
    setLabel 3 (-1) eAq60 = Py.ok eAq62 () :=
  by decide

theorem eAf64 :
    pyGet eAq62.MATE 3 = some 4 :=
  by decide

theorem eAf66 :
    setLabel 4 (-1) eAq62 = Py.ok eAq65 () :=
  by decide

theorem eAfold67 :
    stopFold [3] eAq60 = Py.ok eAq65 () :=
  (stopFold_cons [] eAf63 eAf64 eAf66).trans (stopFold_nil eAq65)

theorem eAf69 :
    { eAq65 with outerVertices := [], outerEdges := [], outerIdx := 0 } = eAq68 :=
  by decide

theorem eAstop70 :
    stopTheSearch eAq58 = Py.ok eAq68 () :=
  stop_run eAf61 eAfold67 eAf69

theorem eAb71 :
    e2Body 100 100 3 eAq48 = Py.ok eAq68 false :=
  e2Body_augment eAf51 eAf52 eAf53 eAf54 eAf55 eAf57 eAf59 eAstop70

theorem eAloop72 :
    e2Loop 100 100 3 100 eAq48 = Py.ok eAq68 () :=
  (e2Loop_stop 99 eAb71)

theorem eAf73 :
    pyGet eAq68.MATE 4 = some 3 :=
  by decide

theorem eAf74 :
    (0 : Int) < 3 :=
  by decide

theorem eAf75 :
    pyGet eAq68.MATE 5 = some 0 :=
  by decide

theorem eAf76 :
    ¬ (0 : Int) < 0 :=
  by decide

theorem eAf78 :
    setLabel 5 0 eAq68 = Py.ok eAq77 () :=
  by decide

theorem eAf80 :
    firstSet 5 0 eAq77 = Py.ok eAq79 () :=
  by decide

theorem eAf82 :
    chooseAnEdge eAq79 = Py.ok eAq81 (some (5, 10)) :=
  by decide

theorem eAf83 :
    getEdge 10 eAq81 = Py.ok eAq81 (5, 1) :=
  by decide

theorem eAf84 :
    pyXor (pyXor 5 5) 1 = 1 :=
  by decide

theorem eAf85 :
    isMatched 1 eAq81 = Py.ok eAq81 true :=
  by decide

theorem eAf86 :
    ¬ ((true : Bool) = false ∧ (1 : Int) ≠ 5) :=
  by decide

theorem eAf87 :
    ((1 : Int) ∈ eAq81.outerVertices : Bool) = false :=
  by decide

theorem eAf88 :
    pyGet eAq81.MATE 1 = some 2 :=
  by decide

theorem eAf89 :
    ((2 : Int) ∈ eAq81.outerVertices : Bool) = false :=
  by decide

theorem eAf91 :
    setLabel 2 5 eAq81 = Py.ok eAq90 () :=
  by decide

theorem eAf93 :
    firstSet 2 1 eAq90 = Py.ok eAq92 () :=
  by decide

theorem eAb94 :
    e2Body 100 100 5 eAq79 = Py.ok eAq92 true :=
  e2Body_vertexLabel eAf82 eAf83 eAf84 eAf85 eAf86 eAf87 eAf88 eAf89 eAf91 eAf93

theorem eAf96 :
    chooseAnEdge eAq92 = Py.ok eAq95 (some (5, 12)) :=
  by decide

theorem eAf97 :
    getEdge 12 eAq95 = Py.ok eAq95 (5, 3) :=
  by decide

theorem eAf98 :
    pyXor (pyXor 5 5) 3 = 3 :=
  by decide

theorem eAf99 :
    isMatched 3 eAq95 = Py.ok eAq95 true :=
  by decide

theorem eAf100 :
    ¬ ((true : Bool) = false ∧ (3 : Int) ≠ 5) :=
  by decide

theorem eAf101 :
    ((3 : Int) ∈ eAq95.outerVertices : Bool) = false :=
  by decide

theorem eAf102 :
    pyGet eAq95.MATE 3 = some 4 :=
  by decide

theorem eAf103 :
    ((4 : Int) ∈ eAq95.outerVertices : Bool) = false :=
  by decide

theorem eAf105 :
    setLabel 4 5 eAq95 = Py.ok eAq104 () :=
  by decide

theorem eAf107 :
    firstSet 4 3 eAq104 = Py.ok eAq106 () :=
  by decide

theorem eAb108 :
    e2Body 100 100 5 eAq92 = Py.ok eAq106 true :=
  e2Body_vertexLabel eAf96 eAf97 eAf98 eAf99 eAf100 eAf101 eAf102 eAf103 eAf105 eAf107

theorem eAf110 :
    chooseAnEdge eAq106 = Py.ok eAq109 (some (5, 14)) :=
  by decide

theorem eAf111 :
    getEdge 14 eAq109 = Py.ok eAq109 (5, 4) :=
  by decide

theorem eAf112 :
    pyXor (pyXor 5 5) 4 = 4 :=
  by decide

theorem eAf113 :
    isMatched 4 eAq109 = Py.ok eAq109 true :=
  by decide

theorem eAf114 :
    ¬ ((true : Bool) = false ∧ (4 : Int) ≠ 5) :=
  by decide

theorem eAf115 :
    ((4 : Int) ∈ eAq109.outerVertices : Bool) = true :=
  by decide

theorem eAf116 :
    pyGet eAq109.FIRST 5 = some 0 :=
  by decide

theorem eAf117 :
    pyGet eAq109.FIRST 4 = some 3 :=
  by decide

theorem eAf118 :
    (0 : Int) ≠ 3 :=
  by decide

theorem eAf120 :
    setFlag 0 14 eAq109 = Py.ok eAq119 () :=
  by decide

theorem eAf122 :
    l12 100 14 0 3 eAq119 = Py.ok eAq121 0 :=
  by decide

theorem eAf123 :
    pyGet eAq121.FIRST 5 = some 0 :=
  by decide

theorem eAf124 :
    pyGet eAq121.FIRST 4 = some 3 :=
  by decide

theorem eAf126 :
    l34 100 0 0 14 eAq121 = Py.ok eAq125 () :=
  by decide

theorem eAf128 :
    l34 100 3 0 14 eAq125 = Py.ok eAq127 () :=
  by decide

theorem eAf129 :
    pyGet eAq127.FIRST 5 = some 0 :=
  by decide

theorem eAf130 :
    ((0 : Int) ∈ eAq127.outerVertices : Bool) = false :=
  by decide

theorem eAf131 :
    pyGet eAq127.FIRST 2 = some 1 :=
  by decide

theorem eAf132 :
    ((1 : Int) ∈ eAq127.outerVertices : Bool) = false :=
  by decide

theorem eAf133 :
    pyGet eAq127.FIRST 4 = some 3 :=
  by decide

theorem eAf134 :
    ((3 : Int) ∈ eAq127.outerVertices : Bool) = true :=
  by decide

theorem eAf136 :
    firstSet 4 0 eAq127 = Py.ok eAq135 () :=
  by decide

theorem eAf137 :
    pyGet eAq135.FIRST 3 = some 0 :=
  by decide

theorem eAf138 :
    ((0 : Int) ∈ eAq135.outerVertices : Bool) = false :=
  by decide

theorem eAl5139 :
    l5Fold 0 [5, 2, 4, 3] eAq127 = Py.ok eAq135 () :=
  (l5Fold_cons_skip [2, 4, 3] eAf129 eAf130).trans ((l5Fold_cons_skip [4, 3] eAf131 eAf132).trans ((l5Fold_cons_out [3] eAf133 eAf134 eAf136).trans ((l5Fold_cons_skip [] eAf137 eAf138).trans (l5Fold_nil 0 eAq135))))

theorem eAL140 :
    L 100 5 4 14 eAq109 = Py.ok eAq135 () :=
  L_full eAf116 eAf117 eAf118 eAf120 eAf122 eAf123 eAf124 eAf126 eAf128 eAl5139

theorem eAb141 :
    e2Body 100 100 5 eAq106 = Py.ok eAq135 true :=
  e2Body_blossom eAf110 eAf111 eAf112 eAf113 eAf114 eAf115 eAL140

theorem eAf143 :
    chooseAnEdge eAq135 = Py.ok eAq142 (some (2, 6)) :=
  by decide

theorem eAf144 :
    getEdge 6 eAq142 = Py.ok eAq142 (1, 2) :=
  by decide

theorem eAf145 :
    pyXor (pyXor 2 1) 2 = 1 :=
  by decide

theorem eAf146 :
    isMatched 1 eAq142 = Py.ok eAq142 true :=
  by decide

theorem eAf147 :
    ¬ ((true : Bool) = false ∧ (1 : Int) ≠ 5) :=
  by decide

theorem eAf148 :
    ((1 : Int) ∈ eAq142.outerVertices : Bool) = false :=
  by decide

theorem eAf149 :
    pyGet eAq142.MATE 1 = some 2 :=
  by decide

theorem eAf150 :
    ((2 : Int) ∈ eAq142.outerVertices : Bool) = true :=
  by decide

theorem eAb151 :
    e2Body 100 100 5 eAq135 = Py.ok eAq142 true :=
  e2Body_skipLabeled eAf143 eAf144 eAf145 eAf146 eAf147 eAf148 eAf149 eAf150

theorem eAf153 :
    chooseAnEdge eAq142 = Py.ok eAq152 (some (2, 16)) :=
  by decide

theorem eAf154 :
    getEdge 16 eAq152 = Py.ok eAq152 (2, 3) :=
  by decide

theorem eAf155 :
    pyXor (pyXor 2 2) 3 = 3 :=
  by decide

theorem eAf156 :
    isMatched 3 eAq152 = Py.ok eAq152 true :=
  by decide

theorem eAf157 :
    ¬ ((true : Bool) = false ∧ (3 : Int) ≠ 5) :=
  by decide

theorem eAf158 :
    ((3 : Int) ∈ eAq152.outerVertices : Bool) = true :=
  by decide

theorem eAf159 :
    pyGet eAq152.FIRST 2 = some 1 :=
  by decide

theorem eAf160 :
    pyGet eAq152.FIRST 3 = some 0 :=
  by decide

theorem eAf161 :
    (1 : Int) ≠ 0 :=
  by decide

theorem eAf163 :
    setFlag 1 16 eAq152 = Py.ok eAq162 () :=
  by decide

theorem eAf165 :
    l12 100 16 1 0 eAq162 = Py.exn eAq164 :=
  by decide

theorem eAL166 :
    L 100 2 3 16 eAq152 = Py.exn eAq164 :=
  L_exn eAf159 eAf160 eAf161 eAf163 eAf165

theorem eAb167 :
    e2Body 100 100 5 eAq142 = Py.exn eAq164 :=
  e2Body_blossom_exn eAf153 eAf154 eAf155 eAf156 eAf157 eAf158 eAL166

theorem eAloop168 :
    e2Loop 100 100 5 100 eAq79 = Py.exn eAq164 :=
  (e2Loop_cont 99 eAb94).trans ((e2Loop_cont 98 eAb108).trans ((e2Loop_cont 97 eAb141).trans ((e2Loop_cont 96 eAb151).trans ((e2Loop_exn 95 eAb167)))))

theorem eAroots169 :
    eRoots 100 100 [1, 2, 3, 4, 5] eAq10 = Py.exn eAq164 :=
  (eRoots_cons_search [2, 3, 4, 5] eAf13 eAf14 eAf16 eAf18 eAloop41).trans ((eRoots_cons_skip [3, 4, 5] eAf42 eAf43).trans ((eRoots_cons_search [4, 5] eAf44 eAf45 eAf47 eAf49 eAloop72).trans ((eRoots_cons_skip [5] eAf73 eAf74).trans ((eRoots_cons_search_exn [] eAf75 eAf76 eAf78 eAf80 eAloop168)))))

theorem eArun170 :
    E 100 100 eAq10 = Py.exn eAq164 :=
  by
    rw [E_run]
    have h : intRange 1 (eAq10.V + 1) = [1, 2, 3, 4, 5] := by decide
    rw [h]
    exact eAroots169

theorem eBf1 :
    addEdge 2 3 (init 5) = Py.ok eBq0 () :=
  by decide

theorem eBf3 :
    addEdge 5 4 eBq0 = Py.ok eBq2 () :=
  by decide

theorem eBf5 :
    addEdge 5 3 eBq2 = Py.ok eBq4 () :=
  by decide

theorem eBf7 :
    addEdge 5 1 eBq4 = Py.ok eBq6 () :=
  by decide

theorem eBf9 :
    addEdge 3 4 eBq6 = Py.ok eBq8 () :=
  by decide

theorem eBf11 :
    addEdge 1 2 eBq8 = Py.ok eBq10 () :=
  by decide

theorem eBbuild12 :
    addEdges [(2, 3), (5, 4), (5, 3), (5, 1), (3, 4), (1, 2)] (init 5) = Py.ok eBq10 () :=
  (addEdges_cons (2, 3) [(5, 4), (5, 3), (5, 1), (3, 4), (1, 2)] eBf1).trans ((addEdges_cons (5, 4) [(5, 3), (5, 1), (3, 4), (1, 2)] eBf3).trans ((addEdges_cons (5, 3) [(5, 1), (3, 4), (1, 2)] eBf5).trans ((addEdges_cons (5, 1) [(3, 4), (1, 2)] eBf7).trans ((addEdges_cons (3, 4) [(1, 2)] eBf9).trans ((addEdges_cons (1, 2) [] eBf11).trans (addEdges_nil eBq10))))))

theorem eBf13 :
    pyGet eBq10.MATE 1 = some 0 :=
  by decide

theorem eBf14 :
    ¬ (0 : Int) < 0 :=
  by decide

theorem eBf16 :
    setLabel 1 0 eBq10 = Py.ok eBq15 () :=
  by decide

theorem eBf18 :
    firstSet 1 0 eBq15 = Py.ok eBq17 () :=
  by decide

theorem eBf20 :
    chooseAnEdge eBq17 = Py.ok eBq19 (some (1, 12)) :=
  by decide

theorem eBf21 :
    getEdge 12 eBq19 = Py.ok eBq19 (5, 1) :=
  by decide

theorem eBf22 :
    pyXor (pyXor 1 5) 1 = 5 :=
  by decide

theorem eBf23 :
    isMatched 5 eBq19 = Py.ok eBq19 false :=
  by decide

theorem eBf24 :
    (5 : Int) ≠ 1 :=
  by decide

theorem eBf26 :
    mateSet 5 1 eBq19 = Py.ok eBq25 () :=
  by decide

theorem eBf28 :
    R 100 1 5 eBq25 = Py.ok eBq27 () :=
  by decide

theorem eBf30 :
    labelSet 0 (-1) eBq27 = Py.ok eBq29 () :=
  by decide

theorem eBf32 :
    setLabel 1 (-1) eBq29 = Py.ok eBq31 () :=
  by decide

theorem eBf33 :
    pyGet eBq31.MATE 1 = some 5 :=
  by decide

theorem eBf35 :
    setLabel 5 (-1) eBq31 = Py.ok eBq34 () :=
  by decide

theorem eBfold36 :
    stopFold [1] eBq29 = Py.ok eBq34 () :=
  (stopFold_cons [] eBf32 eBf33 eBf35).trans (stopFold_nil eBq34)

theorem eBf38 :
    { eBq34 with outerVertices := [], outerEdges := [], outerIdx := 0 } = eBq37 :=
  by decide

theorem eBstop39 :
    stopTheSearch eBq27 = Py.ok eBq37 () :=
  stop_run eBf30 eBfold36 eBf38

theorem eBb40 :
    e2Body 100 100 1 eBq17 = Py.ok eBq37 false :=
  e2Body_augment eBf20 eBf21 eBf22 eBf23 eBf24 eBf26 eBf28 eBstop39

theorem eBloop41 :
    e2Loop 100 100 1 100 eBq17 = Py.ok eBq37 () :=
  (e2Loop_stop 99 eBb40)

theorem eBf42 :
    pyGet eBq37.MATE 2 = some 0 :=
  by decide

theorem eBf43 :
    ¬ (0 : Int) < 0 :=
  by decide

theorem eBf45 :
    setLabel 2 0 eBq37 = Py.ok eBq44 () :=
  by decide

theorem eBf47 :
    firstSet 2 0 eBq44 = Py.ok eBq46 () :=
  by decide

theorem eBf49 :
    chooseAnEdge eBq46 = Py.ok eBq48 (some (2, 6)) :=
  by decide

theorem eBf50 :
    getEdge 6 eBq48 = Py.ok eBq48 (2, 3) :=
  by decide

theorem eBf51 :
    pyXor (pyXor 2 2) 3 = 3 :=
  by decide

theorem eBf52 :
    isMatched 3 eBq48 = Py.ok eBq48 false :=
  by decide

theorem eBf53 :
    (3 : Int) ≠ 2 :=
  by decide

theorem eBf55 :
    mateSet 3 2 eBq48 = Py.ok eBq54 () :=
  by decide

theorem eBf57 :
    R 100 2 3 eBq54 = Py.ok eBq56 () :=
  by decide

theorem eBf59 :
    labelSet 0 (-1) eBq56 = Py.ok eBq58 () :=
  by decide

theorem eBf61 :
    setLabel 2 (-1) eBq58 = Py.ok eBq60 () :=
  by decide

theorem eBf62 :
    pyGet eBq60.MATE 2 = some 3 :=
  by decide

theorem eBf64 :
    setLabel 3 (-1) eBq60 = Py.ok eBq63 () :=
  by decide

theorem eBfold65 :
    stopFold [2] eBq58 = Py.ok eBq63 () :=
  (stopFold_cons [] eBf61 eBf62 eBf64).trans (stopFold_nil eBq63)

theorem eBf67 :
    { eBq63 with outerVertices := [], outerEdges := [], outerIdx := 0 } = eBq66 :=
  by decide

theorem eBstop68 :
    stopTheSearch eBq56 = Py.ok eBq66 () :=
  stop_run eBf59 eBfold65 eBf67

theorem eBb69 :
    e2Body 100 100 2 eBq46 = Py.ok eBq66 false :=
  e2Body_augment eBf49 eBf50 eBf51 eBf52 eBf53 eBf55 eBf57 eBstop68

theorem eBloop70 :
    e2Loop 100 100 2 100 eBq46 = Py.ok eBq66 () :=
  (e2Loop_stop 99 eBb69)

theorem eBf71 :
    pyGet eBq66.MATE 3 = some 2 :=
  by decide

theorem eBf72 :
    (0 : Int) < 2 :=
  by decide

theorem eBf73 :
    pyGet eBq66.MATE 4 = some 0 :=
  by decide

theorem eBf74 :
    ¬ (0 : Int) < 0 :=
  by decide

theorem eBf76 :
    setLabel 4 0 eBq66 = Py.ok eBq75 () :=
  by decide

theorem eBf78 :
    firstSet 4 0 eBq75 = Py.ok eBq77 () :=
  by decide

theorem eBf80 :
    chooseAnEdge eBq77 = Py.ok eBq79 (some (4, 8)) :=
  by decide

theorem eBf81 :
    getEdge 8 eBq79 = Py.ok eBq79 (5, 4) :=
  by decide

theorem eBf82 :
    pyXor (pyXor 4 5) 4 = 5 :=
  by decide

theorem eBf83 :
    isMatched 5 eBq79 = Py.ok eBq79 true :=
  by decide

theorem eBf84 :
    ¬ ((true : Bool) = false ∧ (5 : Int) ≠ 4) :=
  by decide

theorem eBf85 :
    ((5 : Int) ∈ eBq79.outerVertices : Bool) = false :=
  by decide

theorem eBf86 :
    pyGet eBq79.MATE 5 = some 1 :=
  by decide

theorem eBf87 :
    ((1 : Int) ∈ eBq79.outerVertices : Bool) = false :=
  by decide

theorem eBf89 :
    setLabel 1 4 eBq79 = Py.ok eBq88 () :=
  by decide

theorem eBf91 :
    firstSet 1 5 eBq88 = Py.ok eBq90 () :=
  by decide

theorem eBb92 :
    e2Body 100 100 4 eBq77 = Py.ok eBq90 true :=
  e2Body_vertexLabel eBf80 eBf81 eBf82 eBf83 eBf84 eBf85 eBf86 eBf87 eBf89 eBf91

theorem eBf94 :
    chooseAnEdge eBq90 = Py.ok eBq93 (some (4, 14)) :=
  by decide

theorem eBf95 :
    getEdge 14 eBq93 = Py.ok eBq93 (3, 4) :=
  by decide

theorem eBf96 :
    pyXor (pyXor 4 3) 4 = 3 :=
  by decide

theorem eBf97 :
    isMatched 3 eBq93 = Py.ok eBq93 true :=
  by decide

theorem eBf98 :
    ¬ ((true : Bool) = false ∧ (3 : Int) ≠ 4) :=
  by decide

theorem eBf99 :
    ((3 : Int) ∈ eBq93.outerVertices : Bool) = false :=
  by decide

theorem eBf100 :
    pyGet eBq93.MATE 3 = some 2 :=
  by decide

theorem eBf101 :
    ((2 : Int) ∈ eBq93.outerVertices : Bool) = false :=
  by decide

theorem eBf103 :
    setLabel 2 4 eBq93 = Py.ok eBq102 () :=
  by decide

theorem eBf105 :
    firstSet 2 3 eBq102 = Py.ok eBq104 () :=
  by decide

theorem eBb106 :
    e2Body 100 100 4 eBq90 = Py.ok eBq104 true :=
  e2Body_vertexLabel eBf94 eBf95 eBf96 eBf97 eBf98 eBf99 eBf100 eBf101 eBf103 eBf105

theorem eBf108 :
    chooseAnEdge eBq104 = Py.ok eBq107 (some (1, 12)) :=
  by decide

theorem eBf109 :
    getEdge 12 eBq107 = Py.ok eBq107 (5, 1) :=
  by decide

theorem eBf110 :
    pyXor (pyXor 1 5) 1 = 5 :=
  by decide

theorem eBf111 :
    isMatched 5 eBq107 = Py.ok eBq107 true :=
  by decide

theorem eBf112 :
    ¬ ((true : Bool) = false ∧ (5 : Int) ≠ 4) :=
  by decide

theorem eBf113 :
    ((5 : Int) ∈ eBq107.outerVertices : Bool) = false :=
  by decide

theorem eBf114 :
    pyGet eBq107.MATE 5 = some 1 :=
  by decide

theorem eBf115 :
    ((1 : Int) ∈ eBq107.outerVertices : Bool) = true :=
  by decide

theorem eBb116 :
    e2Body 100 100 4 eBq104 = Py.ok eBq107 true :=
  e2Body_skipLabeled eBf108 eBf109 eBf110 eBf111 eBf112 eBf113 eBf114 eBf115

theorem eBf118 :
    chooseAnEdge eBq107 = Py.ok eBq117 (some (1, 16)) :=
  by decide

theorem eBf119 :
    getEdge 16 eBq117 = Py.ok eBq117 (1, 2) :=
  by decide

theorem eBf120 :
    pyXor (pyXor 1 1) 2 = 2 :=
  by decide

theorem eBf121 :
    isMatched 2 eBq117 = Py.ok eBq117 true :=
  by decide

theorem eBf122 :
    ¬ ((true : Bool) = false ∧ (2 : Int) ≠ 4) :=
  by decide

theorem eBf123 :
    ((2 : Int) ∈ eBq117.outerVertices : Bool) = true :=
  by decide

theorem eBf124 :
    pyGet eBq117.FIRST 1 = some 5 :=
  by decide

theorem eBf125 :
    pyGet eBq117.FIRST 2 = some 3 :=
  by decide

theorem eBf126 :
    (5 : Int) ≠ 3 :=
  by decide

theorem eBf128 :
    setFlag 5 16 eBq117 = Py.ok eBq127 () :=
  by decide

theorem eBf130 :
    l12 100 16 5 3 eBq127 = Py.ok eBq129 0 :=
  by decide

theorem eBf131 :
    pyGet eBq129.FIRST 1 = some 5 :=
  by decide

theorem eBf132 :
    pyGet eBq129.FIRST 2 = some 3 :=
  by decide

theorem eBf134 :
    l34 100 5 0 16 eBq129 = Py.ok eBq133 () :=
  by decide

theorem eBf136 :
    l34 100 3 0 16 eBq133 = Py.ok eBq135 () :=
  by decide

theorem eBf137 :
    pyGet eBq135.FIRST 4 = some 0 :=
  by decide

theorem eBf138 :
    ((0 : Int) ∈ eBq135.outerVertices : Bool) = false :=
  by decide

theorem eBf139 :
    pyGet eBq135.FIRST 1 = some 5 :=
  by decide

theorem eBf140 :
    ((5 : Int) ∈ eBq135.outerVertices : Bool) = true :=
  by decide

theorem eBf142 :
    firstSet 1 0 eBq135 = Py.ok eBq141 () :=
  by decide

theorem eBf143 :
    pyGet eBq141.FIRST 2 = some 3 :=
  by decide

theorem eBf144 :
    ((3 : Int) ∈ eBq141.outerVertices : Bool) = true :=
  by decide

theorem eBf146 :
    firstSet 2 0 eBq141 = Py.ok eBq145 () :=
  by decide

theorem eBf147 :
    pyGet eBq145.FIRST 5 = some 0 :=
  by decide

theorem eBf148 :
    ((0 : Int) ∈ eBq145.outerVertices : Bool) = false :=
  by decide

theorem eBf149 :
    pyGet eBq145.FIRST 3 = some 0 :=
  by decide

theorem eBf150 :
    ((0 : Int) ∈ eBq145.outerVertices : Bool) = false :=
  by decide

theorem eBl5151 :
    l5Fold 0 [4, 1, 2, 5, 3] eBq135 = Py.ok eBq145 () :=
  (l5Fold_cons_skip [1, 2, 5, 3] eBf137 eBf138).trans ((l5Fold_cons_out [2, 5, 3] eBf139 eBf140 eBf142).trans ((l5Fold_cons_out [5, 3] eBf143 eBf144 eBf146).trans ((l5Fold_cons_skip [3] eBf147 eBf148).trans ((l5Fold_cons_skip [] eBf149 eBf150).trans (l5Fold_nil 0 eBq145)))))

theorem eBL152 :
    L 100 1 2 16 eBq117 = Py.ok eBq145 () :=
  L_full eBf124 eBf125 eBf126 eBf128 eBf130 eBf131 eBf132 eBf134 eBf136 eBl5151

theorem eBb153 :
    e2Body 100 100 4 eBq107 = Py.ok eBq145 true :=
  e2Body_blossom eBf118 eBf119 eBf120 eBf121 eBf122 eBf123 eBL152

theorem eBf155 :
    chooseAnEdge eBq145 = Py.ok eBq154 (some (2, 6)) :=
  by decide

theorem eBf156 :
    getEdge 6 eBq154 = Py.ok eBq154 (2, 3) :=
  by decide

theorem eBf157 :
    pyXor (pyXor 2 2) 3 = 3 :=
  by decide

theorem eBf158 :
    isMatched 3 eBq154 = Py.ok eBq154 true :=
  by decide

theorem eBf159 :
    ¬ ((true : Bool) = false ∧ (3 : Int) ≠ 4) :=
  by decide

theorem eBf160 :
    ((3 : Int) ∈ eBq154.outerVertices : Bool) = true :=
  by decide

theorem eBf161 :
    pyGet eBq154.FIRST 2 = some 0 :=
  by decide

theorem eBf162 :
    pyGet eBq154.FIRST 3 = some 0 :=
  by decide

theorem eBL163 :
    L 100 2 3 6 eBq154 = Py.ok eBq154 () :=
  L_trivial eBf161 eBf162

theorem eBb164 :
    e2Body 100 100 4 eBq145 = Py.ok eBq154 true :=
  e2Body_blossom eBf155 eBf156 eBf157 eBf158 eBf159 eBf160 eBL163

theorem eBf166 :
    chooseAnEdge eBq154 = Py.ok eBq165 (some (2, 16)) :=
  by decide

theorem eBf167 :
    getEdge 16 eBq165 = Py.ok eBq165 (1, 2) :=
  by decide

theorem eBf168 :
    pyXor (pyXor 2 1) 2 = 1 :=
  by decide

theorem eBf169 :
    isMatched 1 eBq165 = Py.ok eBq165 true :=
  by decide

theorem eBf170 :
    ¬ ((true : Bool) = false ∧ (1 : Int) ≠ 4) :=
  by decide

theorem eBf171 :
    ((1 : Int) ∈ eBq165.outerVertices : Bool) = true :=
  by decide

theorem eBf172 :
    pyGet eBq165.FIRST 2 = some 0 :=
  by decide

theorem eBf173 :
    pyGet eBq165.FIRST 1 = some 0 :=
  by decide

theorem eBL174 :
    L 100 2 1 16 eBq165 = Py.ok eBq165 () :=
  L_trivial eBf172 eBf173

theorem eBb175 :
    e2Body 100 100 4 eBq154 = Py.ok eBq165 true :=
  e2Body_blossom eBf166 eBf167 eBf168 eBf169 eBf170 eBf171 eBL174

theorem eBf177 :
    chooseAnEdge eBq165 = Py.ok eBq176 (some (5, 8)) :=
  by decide

theorem eBf178 :
    getEdge 8 eBq176 = Py.ok eBq176 (5, 4) :=
  by decide

theorem eBf179 :
    pyXor (pyXor 5 5) 4 = 4 :=
  by decide

theorem eBf180 :
    isMatched 4 eBq176 = Py.ok eBq176 false :=
  by decide

theorem eBf181 :
    ¬ ((false : Bool) = false ∧ (4 : Int) ≠ 4) :=
  by decide

theorem eBf182 :
    ((4 : Int) ∈ eBq176.outerVertices : Bool) = true :=
  by decide

theorem eBf183 :
    pyGet eBq176.FIRST 5 = some 0 :=
  by decide

theorem eBf184 :
    pyGet eBq176.FIRST 4 = some 0 :=
  by decide

theorem eBL185 :
    L 100 5 4 8 eBq176 = Py.ok eBq176 () :=
  L_trivial eBf183 eBf184

theorem eBb186 :
    e2Body 100 100 4 eBq165 = Py.ok eBq176 true :=
  e2Body_blossom eBf177 eBf178 eBf179 eBf180 eBf181 eBf182 eBL185

theorem eBf188 :
    chooseAnEdge eBq176 = Py.ok eBq187 (some (5, 10)) :=
  by decide

theorem eBf189 :
    getEdge 10 eBq187 = Py.ok eBq187 (5, 3) :=
  by decide

theorem eBf190 :
    pyXor (pyXor 5 5) 3 = 3 :=
  by decide

theorem eBf191 :
    isMatched 3 eBq187 = Py.ok eBq187 true :=
  by decide

theorem eBf192 :
    ¬ ((true : Bool) = false ∧ (3 : Int) ≠ 4) :=
  by decide

theorem eBf193 :
    ((3 : Int) ∈ eBq187.outerVertices : Bool) = true :=
  by decide

theorem eBf194 :
    pyGet eBq187.FIRST 5 = some 0 :=
  by decide

theorem eBf195 :
    pyGet eBq187.FIRST 3 = some 0 :=
  by decide

theorem eBL196 :
    L 100 5 3 10 eBq187 = Py.ok eBq187 () :=
  L_trivial eBf194 eBf195

theorem eBb197 :
    e2Body 100 100 4 eBq176 = Py.ok eBq187 true :=
  e2Body_blossom eBf188 eBf189 eBf190 eBf191 eBf192 eBf193 eBL196

theorem eBf199 :
    chooseAnEdge eBq187 = Py.ok eBq198 (some (5, 12)) :=
  by decide

theorem eBf200 :
    getEdge 12 eBq198 = Py.ok eBq198 (5, 1) :=
  by decide

theorem eBf201 :
    pyXor (pyXor 5 5) 1 = 1 :=
  by decide

theorem eBf202 :
    isMatched 1 eBq198 = Py.ok eBq198 true :=
  by decide

theorem eBf203 :
    ¬ ((true : Bool) = false ∧ (1 : Int) ≠ 4) :=
  by decide

theorem eBf204 :
    ((1 : Int) ∈ eBq198.outerVertices : Bool) = true :=
  by decide

theorem eBf205 :
    pyGet eBq198.FIRST 5 = some 0 :=
  by decide

theorem eBf206 :
    pyGet eBq198.FIRST 1 = some 0 :=
  by decide

theorem eBL207 :
    L 100 5 1 12 eBq198 = Py.ok eBq198 () :=
  L_trivial eBf205 eBf206

theorem eBb208 :
    e2Body 100 100 4 eBq187 = Py.ok eBq198 true :=
  e2Body_blossom eBf199 eBf200 eBf201 eBf202 eBf203 eBf204 eBL207

theorem eBf210 :
    chooseAnEdge eBq198 = Py.ok eBq209 (some (3, 6)) :=
  by decide

theorem eBf211 :
    getEdge 6 eBq209 = Py.ok eBq209 (2, 3) :=
  by decide

theorem eBf212 :
    pyXor (pyXor 3 2) 3 = 2 :=
  by decide

theorem eBf213 :
    isMatched 2 eBq209 = Py.ok eBq209 true :=
  by decide

theorem eBf214 :
    ¬ ((true : Bool) = false ∧ (2 : Int) ≠ 4) :=
  by decide

theorem eBf215 :
    ((2 : Int) ∈ eBq209.outerVertices : Bool) = true :=
  by decide

theorem eBf216 :
    pyGet eBq209.FIRST 3 = some 0 :=
  by decide

theorem eBf217 :
    pyGet eBq209.FIRST 2 = some 0 :=
  by decide

theorem eBL218 :
    L 100 3 2 6 eBq209 = Py.ok eBq209 () :=
  L_trivial eBf216 eBf217

theorem eBb219 :
    e2Body 100 100 4 eBq198 = Py.ok eBq209 true :=
  e2Body_blossom eBf210 eBf211 eBf212 eBf213 eBf214 eBf215 eBL218

theorem eBf221 :
    chooseAnEdge eBq209 = Py.ok eBq220 (some (3, 10)) :=
  by decide

theorem eBf222 :
    getEdge 10 eBq220 = Py.ok eBq220 (5, 3) :=
  by decide

theorem eBf223 :
    pyXor (pyXor 3 5) 3 = 5 :=
  by decide

theorem eBf224 :
    isMatched 5 eBq220 = Py.ok eBq220 true :=
  by decide

theorem eBf225 :
    ¬ ((true : Bool) = false ∧ (5 : Int) ≠ 4) :=
  by decide

theorem eBf226 :
    ((5 : Int) ∈ eBq220.outerVertices : Bool) = true :=
  by decide

theorem eBf227 :
    pyGet eBq220.FIRST 3 = some 0 :=
  by decide

theorem eBf228 :
    pyGet eBq220.FIRST 5 = some 0 :=
  by decide

theorem eBL229 :
    L 100 3 5 10 eBq220 = Py.ok eBq220 () :=
  L_trivial eBf227 eBf228

theorem eBb230 :
    e2Body 100 100 4 eBq209 = Py.ok eBq220 true :=
  e2Body_blossom eBf221 eBf222 eBf223 eBf224 eBf225 eBf226 eBL229

theorem eBf232 :
    chooseAnEdge eBq220 = Py.ok eBq231 (some (3, 14)) :=
  by decide

theorem eBf233 :
    getEdge 14 eBq231 = Py.ok eBq231 (3, 4) :=
  by decide

theorem eBf234 :
    pyXor (pyXor 3 3) 4 = 4 :=
  by decide

theorem eBf235 :
    isMatched 4 eBq231 = Py.ok eBq231 false :=
  by decide

theorem eBf236 :
    ¬ ((false : Bool) = false ∧ (4 : Int) ≠ 4) :=
  by decide

theorem eBf237 :
    ((4 : Int) ∈ eBq231.outerVertices : Bool) = true :=
  by decide

theorem eBf238 :
    pyGet eBq231.FIRST 3 = some 0 :=
  by decide

theorem eBf239 :
    pyGet eBq231.FIRST 4 = some 0 :=
  by decide

theorem eBL240 :
    L 100 3 4 14 eBq231 = Py.ok eBq231 () :=
  L_trivial eBf238 eBf239

theorem eBb241 :
    e2Body 100 100 4 eBq220 = Py.ok eBq231 true :=
  e2Body_blossom eBf232 eBf233 eBf234 eBf235 eBf236 eBf237 eBL240

theorem eBf242 :
    chooseAnEdge eBq231 = Py.ok eBq231 none :=
  by decide

theorem eBf244 :
    labelSet 0 (-1) eBq231 = Py.ok eBq243 () :=
  by decide

theorem eBf246 :
    setLabel 4 (-1) eBq243 = Py.ok eBq245 () :=
  by decide

theorem eBf247 :
    pyGet eBq245.MATE 4 = some 0 :=
  by decide

theorem eBf249 :
    setLabel 0 (-1) eBq245 = Py.ok eBq248 () :=
  by decide

theorem eBf251 :
    setLabel 1 (-1) eBq248 = Py.ok eBq250 () :=
  by decide

theorem eBf252 :
    pyGet eBq250.MATE 1 = some 5 :=
  by decide

theorem eBf254 :
    setLabel 5 (-1) eBq250 = Py.ok eBq253 () :=
  by decide

theorem eBf256 :
    setLabel 2 (-1) eBq253 = Py.ok eBq255 () :=
  by decide

theorem eBf257 :
    pyGet eBq255.MATE 2 = some 3 :=
  by decide

theorem eBf259 :
    setLabel 3 (-1) eBq255 = Py.ok eBq258 () :=
  by decide

theorem eBf261 :
    setLabel 5 (-1) eBq258 = Py.ok eBq260 () :=
  by decide

theorem eBf262 :
    pyGet eBq260.MATE 5 = some 1 :=
  by decide

theorem eBf264 :
    setLabel 1 (-1) eBq260 = Py.ok eBq263 () :=
  by decide

theorem eBf266 :
    setLabel 3 (-1) eBq263 = Py.ok eBq265 () :=
  by decide

theorem eBf267 :
    pyGet eBq265.MATE 3 = some 2 :=
  by decide

theorem eBf269 :
    setLabel 2 (-1) eBq265 = Py.ok eBq268 () :=
  by decide

theorem eBfold270 :
    stopFold [4, 1, 2, 5, 3] eBq243 = Py.ok eBq268 () :=
  (stopFold_cons [1, 2, 5, 3] eBf246 eBf247 eBf249).trans ((stopFold_cons [2, 5, 3] eBf251 eBf252 eBf254).trans ((stopFold_cons [5, 3] eBf256 eBf257 eBf259).trans ((stopFold_cons [3] eBf261 eBf262 eBf264).trans ((stopFold_cons [] eBf266 eBf267 eBf269).trans (stopFold_nil eBq268)))))

theorem eBf272 :
    { eBq268 with outerVertices := [], outerEdges := [], outerIdx := 0 } = eBq271 :=
  by decide

theorem eBstop273 :
    stopTheSearch eBq231 = Py.ok eBq271 () :=
  stop_run eBf244 eBfold270 eBf272

theorem eBb274 :
    e2Body 100 100 4 eBq231 = Py.ok eBq271 false :=
  e2Body_exhaust eBf242 eBstop273

theorem eBloop275 :
    e2Loop 100 100 4 100 eBq77 = Py.ok eBq271 () :=
  (e2Loop_cont 99 eBb92).trans ((e2Loop_cont 98 eBb106).trans ((e2Loop_cont 97 eBb116).trans ((e2Loop_cont 96 eBb153).trans ((e2Loop_cont 95 eBb164).trans ((e2Loop_cont 94 eBb175).trans ((e2Loop_cont 93 eBb186).trans ((e2Loop_cont 92 eBb197).trans ((e2Loop_cont 91 eBb208).trans ((e2Loop_cont 90 eBb219).trans ((e2Loop_cont 89 eBb230).trans ((e2Loop_cont 88 eBb241).trans ((e2Loop_stop 87 eBb274)))))))))))))

theorem eBf276 :
    pyGet eBq271.MATE 5 = some 1 :=
  by decide

theorem eBf277 :
    (0 : Int) < 1 :=
  by decide

theorem eBroots278 :
    eRoots 100 100 [1, 2, 3, 4, 5] eBq10 = Py.ok eBq271 () :=
  (eRoots_cons_search [2, 3, 4, 5] eBf13 eBf14 eBf16 eBf18 eBloop41).trans ((eRoots_cons_search [3, 4, 5] eBf42 eBf43 eBf45 eBf47 eBloop70).trans ((eRoots_cons_skip [4, 5] eBf71 eBf72).trans ((eRoots_cons_search [5] eBf73 eBf74 eBf76 eBf78 eBloop275).trans ((eRoots_cons_skip [] eBf276 eBf277).trans (eRoots_nil 100 100 eBq271)))))

theorem eBrun279 :
    E 100 100 eBq10 = Py.ok eBq271 () :=
  by
    rw [E_run]
    have h : intRange 1 (eBq10.V + 1) = [1, 2, 3, 4, 5] := by decide
    rw [h]
    exact eBroots278

theorem eBf280 :
    getMatchingSize eBq271 = Py.ok eBq271 4 :=
  by decide

theorem gff1 :
    addEdge 1 2 (init 5) = Py.ok gfq0 () :=
  by decide

theorem gff3 :
    addEdge 3 4 gfq0 = Py.ok gfq2 () :=
  by decide

theorem gff5 :
    addEdge 5 1 gfq2 = Py.ok gfq4 () :=
  by decide

theorem gff7 :
    addEdge 2 3 gfq4 = Py.ok gfq6 () :=
  by decide

theorem gff9 :
    addEdge 2 4 gfq6 = Py.ok gfq8 () :=
  by decide

theorem gfbuild10 :
    addEdges [(1, 2), (3, 4), (5, 1), (2, 3), (2, 4)] (init 5) = Py.ok gfq8 () :=
  (addEdges_cons (1, 2) [(3, 4), (5, 1), (2, 3), (2, 4)] gff1).trans ((addEdges_cons (3, 4) [(5, 1), (2, 3), (2, 4)] gff3).trans ((addEdges_cons (5, 1) [(2, 3), (2, 4)] gff5).trans ((addEdges_cons (2, 3) [(2, 4)] gff7).trans ((addEdges_cons (2, 4) [] gff9).trans (addEdges_nil gfq8)))))

theorem gff11 :
    pyGet gfq8.MATE 1 = some 0 :=
  by decide

theorem gff12 :
    ¬ (0 : Int) < 0 :=
  by decide

theorem gff14 :
    setLabel 1 0 gfq8 = Py.ok gfq13 () :=
  by decide

theorem gff16 :
    firstSet 1 0 gfq13 = Py.ok gfq15 () :=
  by decide

theorem gff18 :
    chooseAnEdge gfq15 = Py.ok gfq17 (some (1, 6)) :=
  by decide

theorem gff19 :
    getEdge 6 gfq17 = Py.ok gfq17 (1, 2) :=
  by decide

theorem gff20 :
    pyXor (pyXor 1 1) 2 = 2 :=
  by decide

theorem gff21 :
    isMatched 2 gfq17 = Py.ok gfq17 false :=
  by decide

theorem gff22 :
    (2 : Int) ≠ 1 :=
  by decide

theorem gff24 :
    mateSet 2 1 gfq17 = Py.ok gfq23 () :=
  by decide

theorem gff26 :
    R 100 1 2 gfq23 = Py.ok gfq25 () :=
  by decide

theorem gff28 :
    labelSet 0 (-1) gfq25 = Py.ok gfq27 () :=
  by decide

theorem gff30 :
    setLabel 1 (-1) gfq27 = Py.ok gfq29 () :=
  by decide

theorem gff31 :
    pyGet gfq29.MATE 1 = some 2 :=
  by decide

theorem gff33 :
    setLabel 2 (-1) gfq29 = Py.ok gfq32 () :=
  by decide

theorem gffold34 :
    stopFold [1] gfq27 = Py.ok gfq32 () :=
  (stopFold_cons [] gff30 gff31 gff33).trans (stopFold_nil gfq32)

theorem gff36 :
    { gfq32 with outerVertices := [], outerEdges := [], outerIdx := 0 } = gfq35 :=
  by decide

theorem gfstop37 :
    stopTheSearch gfq25 = Py.ok gfq35 () :=
  stop_run gff28 gffold34 gff36

theorem gfb38 :
    e2Body 100 100 1 gfq15 = Py.ok gfq35 false :=
  e2Body_augment gff18 gff19 gff20 gff21 gff22 gff24 gff26 gfstop37

theorem gfloop39 :
    e2Loop 100 100 1 100 gfq15 = Py.ok gfq35 () :=
  (e2Loop_stop 99 gfb38)

theorem gff40 :
    pyGet gfq35.MATE 2 = some 1 :=
  by decide

theorem gff41 :
    (0 : Int) < 1 :=
  by decide

theorem gff42 :
    pyGet gfq35.MATE 3 = some 0 :=
  by decide

theorem gff43 :
    ¬ (0 : Int) < 0 :=
  by decide

theorem gff45 :
    setLabel 3 0 gfq35 = Py.ok gfq44 () :=
  by decide

theorem gff47 :
    firstSet 3 0 gfq44 = Py.ok gfq46 () :=
  by decide

theorem gff49 :
    chooseAnEdge gfq46 = Py.ok gfq48 (some (3, 8)) :=
  by decide

theorem gff50 :
    getEdge 8 gfq48 = Py.ok gfq48 (3, 4) :=
  by decide

theorem gff51 :
    pyXor (pyXor 3 3) 4 = 4 :=
  by decide

theorem gff52 :
    isMatched 4 gfq48 = Py.ok gfq48 false :=
  by decide

theorem gff53 :
    (4 : Int) ≠ 3 :=
  by decide

theorem gff55 :
    mateSet 4 3 gfq48 = Py.ok gfq54 () :=
  by decide

theorem gff57 :
    R 100 3 4 gfq54 = Py.ok gfq56 () :=
  by decide

theorem gff59 :
    labelSet 0 (-1) gfq56 = Py.ok gfq58 () :=
  by decide

theorem gff61 :
    setLabel 3 (-1) gfq58 = Py.ok gfq60 () :=
  by decide

theorem gff62 :
    pyGet gfq60.MATE 3 = some 4 :=
  by decide

theorem gff64 :
    setLabel 4 (-1) gfq60 = Py.ok gfq63 () :=
  by decide

theorem gffold65 :
    stopFold [3] gfq58 = Py.ok gfq63 () :=
  (stopFold_cons [] gff61 gff62 gff64).trans (stopFold_nil gfq63)

theorem gff67 :
    { gfq63 with outerVertices := [], outerEdges := [], outerIdx := 0 } = gfq66 :=
  by decide

theorem gfstop68 :
    stopTheSearch gfq56 = Py.ok gfq66 () :=
  stop_run gff59 gffold65 gff67

theorem gfb69 :
    e2Body 100 100 3 gfq46 = Py.ok gfq66 false :=
  e2Body_augment gff49 gff50 gff51 gff52 gff53 gff55 gff57 gfstop68

theorem gfloop70 :
    e2Loop 100 100 3 100 gfq46 = Py.ok gfq66 () :=
  (e2Loop_stop 99 gfb69)

theorem gff71 :
    pyGet gfq66.MATE 4 = some 3 :=
  by decide

theorem gff72 :
    (0 : Int) < 3 :=
  by decide

theorem gff73 :
    pyGet gfq66.MATE 5 = some 0 :=
  by decide

theorem gff74 :
    ¬ (0 : Int) < 0 :=
  by decide

theorem gff76 :
    setLabel 5 0 gfq66 = Py.ok gfq75 () :=
  by decide

theorem gff78 :
    firstSet 5 0 gfq75 = Py.ok gfq77 () :=
  by decide

theorem gff80 :
    chooseAnEdge gfq77 = Py.ok gfq79 (some (5, 10)) :=
  by decide

theorem gff81 :
    getEdge 10 gfq79 = Py.ok gfq79 (5, 1) :=
  by decide

theorem gff82 :
    pyXor (pyXor 5 5) 1 = 1 :=
  by decide

theorem gff83 :
    isMatched 1 gfq79 = Py.ok gfq79 true :=
  by decide

theorem gff84 :
    ¬ ((true : Bool) = false ∧ (1 : Int) ≠ 5) :=
  by decide

theorem gff85 :
    ((1 : Int) ∈ gfq79.outerVertices : Bool) = false :=
  by decide

theorem gff86 :
    pyGet gfq79.MATE 1 = some 2 :=
  by decide

theorem gff87 :
    ((2 : Int) ∈ gfq79.outerVertices : Bool) = false :=
  by decide

theorem gff89 :
    setLabel 2 5 gfq79 = Py.ok gfq88 () :=
  by decide

theorem gff91 :
    firstSet 2 1 gfq88 = Py.ok gfq90 () :=
  by decide

theorem gfb92 :
    e2Body 100 100 5 gfq77 = Py.ok gfq90 true :=
  e2Body_vertexLabel gff80 gff81 gff82 gff83 gff84 gff85 gff86 gff87 gff89 gff91

theorem gff94 :
    chooseAnEdge gfq90 = Py.ok gfq93 (some (2, 6)) :=
  by decide

theorem gff95 :
    getEdge 6 gfq93 = Py.ok gfq93 (1, 2) :=
  by decide

theorem gff96 :
    pyXor (pyXor 2 1) 2 = 1 :=
  by decide

theorem gff97 :
    isMatched 1 gfq93 = Py.ok gfq93 true :=
  by decide

theorem gff98 :
    ¬ ((true : Bool) = false ∧ (1 : Int) ≠ 5) :=
  by decide

theorem gff99 :
    ((1 : Int) ∈ gfq93.outerVertices : Bool) = false :=
  by decide

theorem gff100 :
    pyGet gfq93.MATE 1 = some 2 :=
  by decide

theorem gff101 :
    ((2 : Int) ∈ gfq93.outerVertices : Bool) = true :=
  by decide

theorem gfb102 :
    e2Body 100 100 5 gfq90 = Py.ok gfq93 true :=
  e2Body_skipLabeled gff94 gff95 gff96 gff97 gff98 gff99 gff100 gff101

theorem gff104 :
    chooseAnEdge gfq93 = Py.ok gfq103 (some (2, 12)) :=
  by decide

theorem gff105 :
    getEdge 12 gfq103 = Py.ok gfq103 (2, 3) :=
  by decide

theorem gff106 :
    pyXor (pyXor 2 2) 3 = 3 :=
  by decide

theorem gff107 :
    isMatched 3 gfq103 = Py.ok gfq103 true :=
  by decide

theorem gff108 :
    ¬ ((true : Bool) = false ∧ (3 : Int) ≠ 5) :=
  by decide

theorem gff109 :
    ((3 : Int) ∈ gfq103.outerVertices : Bool) = false :=
  by decide

theorem gff110 :
    pyGet gfq103.MATE 3 = some 4 :=
  by decide

theorem gff111 :
    ((4 : Int) ∈ gfq103.outerVertices : Bool) = false :=
  by decide

theorem gff113 :
    setLabel 4 2 gfq103 = Py.ok gfq112 () :=
  by decide

theorem gff115 :
    firstSet 4 3 gfq112 = Py.ok gfq114 () :=
  by decide

theorem gfb116 :
    e2Body 100 100 5 gfq93 = Py.ok gfq114 true :=
  e2Body_vertexLabel gff104 gff105 gff106 gff107 gff108 gff109 gff110 gff111 gff113 gff115

theorem gff118 :
    chooseAnEdge gfq114 = Py.ok gfq117 (some (2, 14)) :=
  by decide

theorem gff119 :
    getEdge 14 gfq117 = Py.ok gfq117 (2, 4) :=
  by decide

theorem gff120 :
    pyXor (pyXor 2 2) 4 = 4 :=
  by decide

theorem gff121 :
    isMatched 4 gfq117 = Py.ok gfq117 true :=
  by decide

theorem gff122 :
    ¬ ((true : Bool) = false ∧ (4 : Int) ≠ 5) :=
  by decide

theorem gff123 :
    ((4 : Int) ∈ gfq117.outerVertices : Bool) = true :=
  by decide

theorem gff124 :
    pyGet gfq117.FIRST 2 = some 1 :=
  by decide

theorem gff125 :
    pyGet gfq117.FIRST 4 = some 3 :=
  by decide

theorem gff126 :
    (1 : Int) ≠ 3 :=
  by decide

theorem gff128 :
    setFlag 1 14 gfq117 = Py.ok gfq127 () :=
  by decide

theorem gff130 :
    l12 100 14 1 3 gfq127 = Py.ok gfq129 1 :=
  by decide

theorem gff131 :
    pyGet gfq129.FIRST 2 = some 1 :=
  by decide

theorem gff132 :
    pyGet gfq129.FIRST 4 = some 3 :=
  by decide

theorem gff134 :
    l34 100 1 1 14 gfq129 = Py.ok gfq133 () :=
  by decide

theorem gff136 :
    l34 100 3 1 14 gfq133 = Py.ok gfq135 () :=
  by decide

theorem gff137 :
    pyGet gfq135.FIRST 5 = some 0 :=
  by decide

theorem gff138 :
    ((0 : Int) ∈ gfq135.outerVertices : Bool) = false :=
  by decide

theorem gff139 :
    pyGet gfq135.FIRST 2 = some 1 :=
  by decide

theorem gff140 :
    ((1 : Int) ∈ gfq135.outerVertices : Bool) = false :=
  by decide

theorem gff141 :
    pyGet gfq135.FIRST 4 = some 3 :=
  by decide

theorem gff142 :
    ((3 : Int) ∈ gfq135.outerVertices : Bool) = true :=
  by decide

theorem gff144 :
    firstSet 4 1 gfq135 = Py.ok gfq143 () :=
  by decide

theorem gff145 :
    pyGet gfq143.FIRST 3 = some 1 :=
  by decide

theorem gff146 :
    ((1 : Int) ∈ gfq143.outerVertices : Bool) = false :=
  by decide

theorem gfl5147 :
    l5Fold 1 [5, 2, 4, 3] gfq135 = Py.ok gfq143 () :=
  (l5Fold_cons_skip [2, 4, 3] gff137 gff138).trans ((l5Fold_cons_skip [4, 3] gff139 gff140).trans ((l5Fold_cons_out [3] gff141 gff142 gff144).trans ((l5Fold_cons_skip [] gff145 gff146).trans (l5Fold_nil 1 gfq143))))

theorem gfL148 :
    L 100 2 4 14 gfq117 = Py.ok gfq143 () :=
  L_full gff124 gff125 gff126 gff128 gff130 gff131 gff132 gff134 gff136 gfl5147

theorem gfb149 :
    e2Body 100 100 5 gfq114 = Py.ok gfq143 true :=
  e2Body_blossom gff118 gff119 gff120 gff121 gff122 gff123 gfL148

theorem gff151 :
    chooseAnEdge gfq143 = Py.ok gfq150 (some (4, 8)) :=
  by decide

theorem gff152 :
    getEdge 8 gfq150 = Py.ok gfq150 (3, 4) :=
  by decide

theorem gff153 :
    pyXor (pyXor 4 3) 4 = 3 :=
  by decide

theorem gff154 :
    isMatched 3 gfq150 = Py.ok gfq150 true :=
  by decide

theorem gff155 :
    ¬ ((true : Bool) = false ∧ (3 : Int) ≠ 5) :=
  by decide

theorem gff156 :
    ((3 : Int) ∈ gfq150.outerVertices : Bool) = true :=
  by decide

theorem gff157 :
    pyGet gfq150.FIRST 4 = some 1 :=
  by decide

theorem gff158 :
    pyGet gfq150.FIRST 3 = some 1 :=
  by decide

theorem gfL159 :
    L 100 4 3 8 gfq150 = Py.ok gfq150 () :=
  L_trivial gff157 gff158

theorem gfb160 :
    e2Body 100 100 5 gfq143 = Py.ok gfq150 true :=
  e2Body_blossom gff151 gff152 gff153 gff154 gff155 gff156 gfL159

theorem gff162 :
    chooseAnEdge gfq150 = Py.ok gfq161 (some (4, 14)) :=
  by decide

theorem gff163 :
    getEdge 14 gfq161 = Py.ok gfq161 (2, 4) :=
  by decide

theorem gff164 :
    pyXor (pyXor 4 2) 4 = 2 :=
  by decide

theorem gff165 :
    isMatched 2 gfq161 = Py.ok gfq161 true :=
  by decide

theorem gff166 :
    ¬ ((true : Bool) = false ∧ (2 : Int) ≠ 5) :=
  by decide

theorem gff167 :
    ((2 : Int) ∈ gfq161.outerVertices : Bool) = true :=
  by decide

theorem gff168 :
    pyGet gfq161.FIRST 4 = some 1 :=
  by decide

theorem gff169 :
    pyGet gfq161.FIRST 2 = some 1 :=
  by decide

theorem gfL170 :
    L 100 4 2 14 gfq161 = Py.ok gfq161 () :=
  L_trivial gff168 gff169

theorem gfb171 :
    e2Body 100 100 5 gfq150 = Py.ok gfq161 true :=
  e2Body_blossom gff162 gff163 gff164 gff165 gff166 gff167 gfL170

theorem gff173 :
    chooseAnEdge gfq161 = Py.ok gfq172 (some (3, 8)) :=
  by decide

theorem gff174 :
    getEdge 8 gfq172 = Py.ok gfq172 (3, 4) :=
  by decide

theorem gff175 :
    pyXor (pyXor 3 3) 4 = 4 :=
  by decide

theorem gff176 :
    isMatched 4 gfq172 = Py.ok gfq172 true :=
  by decide

theorem gff177 :
    ¬ ((true : Bool) = false ∧ (4 : Int) ≠ 5) :=
  by decide

theorem gff178 :
    ((4 : Int) ∈ gfq172.outerVertices : Bool) = true :=
  by decide

theorem gff179 :
    pyGet gfq172.FIRST 3 = some 1 :=
  by decide

theorem gff180 :
    pyGet gfq172.FIRST 4 = some 1 :=
  by decide

theorem gfL181 :
    L 100 3 4 8 gfq172 = Py.ok gfq172 () :=
  L_trivial gff179 gff180

theorem gfb182 :
    e2Body 100 100 5 gfq161 = Py.ok gfq172 true :=
  e2Body_blossom gff173 gff174 gff175 gff176 gff177 gff178 gfL181

theorem gff184 :
    chooseAnEdge gfq172 = Py.ok gfq183 (some (3, 12)) :=
  by decide

theorem gff185 :
    getEdge 12 gfq183 = Py.ok gfq183 (2, 3) :=
  by decide

theorem gff186 :
    pyXor (pyXor 3 2) 3 = 2 :=
  by decide

theorem gff187 :
    isMatched 2 gfq183 = Py.ok gfq183 true :=
  by decide

theorem gff188 :
    ¬ ((true : Bool) = false ∧ (2 : Int) ≠ 5) :=
  by decide

theorem gff189 :
    ((2 : Int) ∈ gfq183.outerVertices : Bool) = true :=
  by decide

theorem gff190 :
    pyGet gfq183.FIRST 3 = some 1 :=
  by decide

theorem gff191 :
    pyGet gfq183.FIRST 2 = some 1 :=
  by decide

theorem gfL192 :
    L 100 3 2 12 gfq183 = Py.ok gfq183 () :=
  L_trivial gff190 gff191

theorem gfb193 :
    e2Body 100 100 5 gfq172 = Py.ok gfq183 true :=
  e2Body_blossom gff184 gff185 gff186 gff187 gff188 gff189 gfL192

theorem gff194 :
    chooseAnEdge gfq183 = Py.ok gfq183 none :=
  by decide

theorem gff196 :
    labelSet 0 (-1) gfq183 = Py.ok gfq195 () :=
  by decide

theorem gff198 :
    setLabel 5 (-1) gfq195 = Py.ok gfq197 () :=
  by decide

theorem gff199 :
    pyGet gfq197.MATE 5 = some 0 :=
  by decide

theorem gff201 :
    setLabel 0 (-1) gfq197 = Py.ok gfq200 () :=
  by decide

theorem gff203 :
    setLabel 2 (-1) gfq200 = Py.ok gfq202 () :=
  by decide

theorem gff204 :
    pyGet gfq202.MATE 2 = some 1 :=
  by decide

theorem gff206 :
    setLabel 1 (-1) gfq202 = Py.ok gfq205 () :=
  by decide

theorem gff208 :
    setLabel 4 (-1) gfq205 = Py.ok gfq207 () :=
  by decide

theorem gff209 :
    pyGet gfq207.MATE 4 = some 3 :=
  by decide

theorem gff211 :
    setLabel 3 (-1) gfq207 = Py.ok gfq210 () :=
  by decide

theorem gff213 :
    setLabel 3 (-1) gfq210 = Py.ok gfq212 () :=
  by decide

theorem gff214 :
    pyGet gfq212.MATE 3 = some 4 :=
  by decide

theorem gff216 :
    setLabel 4 (-1) gfq212 = Py.ok gfq215 () :=
  by decide

theorem gffold217 :
    stopFold [5, 2, 4, 3] gfq195 = Py.ok gfq215 () :=
  (stopFold_cons [2, 4, 3] gff198 gff199 gff201).trans ((stopFold_cons [4, 3] gff203 gff204 gff206).trans ((stopFold_cons [3] gff208 gff209 gff211).trans ((stopFold_cons [] gff213 gff214 gff216).trans (stopFold_nil gfq215))))

theorem gff219 :
    { gfq215 with outerVertices := [], outerEdges := [], outerIdx := 0 } = gfq218 :=
  by decide

theorem gfstop220 :
    stopTheSearch gfq183 = Py.ok gfq218 () :=
  stop_run gff196 gffold217 gff219

theorem gfb221 :
    e2Body 100 100 5 gfq183 = Py.ok gfq218 false :=
  e2Body_exhaust gff194 gfstop220

theorem gfloop222 :
    e2Loop 100 100 5 100 gfq77 = Py.ok gfq218 () :=
  (e2Loop_cont 99 gfb92).trans ((e2Loop_cont 98 gfb102).trans ((e2Loop_cont 97 gfb116).trans ((e2Loop_cont 96 gfb149).trans ((e2Loop_cont 95 gfb160).trans ((e2Loop_cont 94 gfb171).trans ((e2Loop_cont 93 gfb182).trans ((e2Loop_cont 92 gfb193).trans ((e2Loop_stop 91 gfb221)))))))))

theorem gfroots223 :
    eRoots 100 100 [1, 2, 3, 4, 5] gfq8 = Py.ok gfq218 () :=
  (eRoots_cons_search [2, 3, 4, 5] gff11 gff12 gff14 gff16 gfloop39).trans ((eRoots_cons_skip [3, 4, 5] gff40 gff41).trans ((eRoots_cons_search [4, 5] gff42 gff43 gff45 gff47 gfloop70).trans ((eRoots_cons_skip [5] gff71 gff72).trans ((eRoots_cons_search [] gff73 gff74 gff76 gff78 gfloop222).trans (eRoots_nil 100 100 gfq218)))))

theorem gfrun224 :
    E 100 100 gfq8 = Py.ok gfq218 () :=
  by
    rw [E_run]
    have h : intRange 1 (gfq8.V + 1) = [1, 2, 3, 4, 5] := by decide
    rw [h]
    exact gfroots223

theorem gff225 :
    getMatchingSize gfq218 = Py.ok gfq218 4 :=
  by decide

theorem gfpf5001 :
    pyGet gfpq5000.MATE 1 = some 0 :=
  by decide

theorem gfpf5002 :
    ¬ (0 : Int) < 0 :=
  by decide

theorem gfpf5004 :
    setLabel 1 0 gfpq5000 = Py.ok gfpq5003 () :=
  by decide

theorem gfpf5006 :
    firstSet 1 0 gfpq5003 = Py.ok gfpq5005 () :=
  by decide

theorem gfpf5008 :
    chooseAnEdge gfpq5005 = Py.ok gfpq5007 (some (1, 6)) :=
  by decide

theorem gfpf5009 :
    getEdge 6 gfpq5007 = Py.ok gfpq5007 (1, 2) :=
  by decide

theorem gfpf5010 :
    pyXor (pyXor 1 1) 2 = 2 :=
  by decide

theorem gfpf5011 :
    isMatched 2 gfpq5007 = Py.ok gfpq5007 false :=
  by decide

theorem gfpf5012 :
    (2 : Int) ≠ 1 :=
  by decide

theorem gfpf5014 :
    mateSet 2 1 gfpq5007 = Py.ok gfpq5013 () :=
  by decide

theorem gfpf5016 :
    R 100 1 2 gfpq5013 = Py.ok gfpq5015 () :=
  by decide

theorem gfpf5018 :
    labelSet 0 (-1) gfpq5015 = Py.ok gfpq5017 () :=
  by decide

theorem gfpf5020 :
    setLabel 1 (-1) gfpq5017 = Py.ok gfpq5019 () :=
  by decide

theorem gfpf5021 :
    pyGet gfpq5019.MATE 1 = some 2 :=
  by decide

theorem gfpf5023 :
    setLabel 2 (-1) gfpq5019 = Py.ok gfpq5022 () :=
  by decide

theorem gfpfold5024 :
    stopFold [1] gfpq5017 = Py.ok gfpq5022 () :=
  (stopFold_cons [] gfpf5020 gfpf5021 gfpf5023).trans (stopFold_nil gfpq5022)

theorem gfpf5026 :
    { gfpq5022 with outerVertices := [], outerEdges := [], outerIdx := 0 } = gfpq5025 :=
  by decide

theorem gfpstop5027 :
    stopTheSearch gfpq5015 = Py.ok gfpq5025 () :=
  stop_run gfpf5018 gfpfold5024 gfpf5026

theorem gfpb5028 :
    e2Body 100 100 1 gfpq5005 = Py.ok gfpq5025 false :=
  e2Body_augment gfpf5008 gfpf5009 gfpf5010 gfpf5011 gfpf5012 gfpf5014 gfpf5016 gfpstop5027

theorem gfploop5029 :
    e2Loop 100 100 1 100 gfpq5005 = Py.ok gfpq5025 () :=
  (e2Loop_stop 99 gfpb5028)

theorem gfpf5030 :
    pyGet gfpq5025.MATE 2 = some 1 :=
  by decide

theorem gfpf5031 :
    (0 : Int) < 1 :=
  by decide

theorem gfpf5032 :
    pyGet gfpq5025.MATE 3 = some 0 :=
  by decide

theorem gfpf5033 :
    ¬ (0 : Int) < 0 :=
  by decide

theorem gfpf5035 :
    setLabel 3 0 gfpq5025 = Py.ok gfpq5034 () :=
  by decide

theorem gfpf5037 :
    firstSet 3 0 gfpq5034 = Py.ok gfpq5036 () :=
  by decide

theorem gfpf5039 :
    chooseAnEdge gfpq5036 = Py.ok gfpq5038 (some (3, 8)) :=
  by decide

theorem gfpf5040 :
    getEdge 8 gfpq5038 = Py.ok gfpq5038 (3, 4) :=
  by decide

theorem gfpf5041 :
    pyXor (pyXor 3 3) 4 = 4 :=
  by decide

theorem gfpf5042 :
    isMatched 4 gfpq5038 = Py.ok gfpq5038 false :=
  by decide

theorem gfpf5043 :
    (4 : Int) ≠ 3 :=
  by decide

theorem gfpf5045 :
    mateSet 4 3 gfpq5038 = Py.ok gfpq5044 () :=
  by decide

theorem gfpf5047 :
    R 100 3 4 gfpq5044 = Py.ok gfpq5046 () :=
  by decide

theorem gfpf5049 :
    labelSet 0 (-1) gfpq5046 = Py.ok gfpq5048 () :=
  by decide

theorem gfpf5051 :
    setLabel 3 (-1) gfpq5048 = Py.ok gfpq5050 () :=
  by decide

theorem gfpf5052 :
    pyGet gfpq5050.MATE 3 = some 4 :=
  by decide

theorem gfpf5054 :
    setLabel 4 (-1) gfpq5050 = Py.ok gfpq5053 () :=
  by decide

theorem gfpfold5055 :
    stopFold [3] gfpq5048 = Py.ok gfpq5053 () :=
  (stopFold_cons [] gfpf5051 gfpf5052 gfpf5054).trans (stopFold_nil gfpq5053)

theorem gfpf5057 :
    { gfpq5053 with outerVertices := [], outerEdges := [], outerIdx := 0 } = gfpq5056 :=
  by decide

theorem gfpstop5058 :
    stopTheSearch gfpq5046 = Py.ok gfpq5056 () :=
  stop_run gfpf5049 gfpfold5055 gfpf5057

theorem gfpb5059 :
    e2Body 100 100 3 gfpq5036 = Py.ok gfpq5056 false :=
  e2Body_augment gfpf5039 gfpf5040 gfpf5041 gfpf5042 gfpf5043 gfpf5045 gfpf5047 gfpstop5058

theorem gfploop5060 :
    e2Loop 100 100 3 100 gfpq5036 = Py.ok gfpq5056 () :=
  (e2Loop_stop 99 gfpb5059)

theorem gfpf5061 :
    pyGet gfpq5056.MATE 4 = some 3 :=
  by decide

theorem gfpf5062 :
    (0 : Int) < 3 :=
  by decide

theorem gfprootspre5063 :
    eRoots 100 100 [1, 2, 3, 4] gfpq5000 = Py.ok gfpq5056 () :=
  (eRoots_cons_search [2, 3, 4] gfpf5001 gfpf5002 gfpf5004 gfpf5006 gfploop5029).trans ((eRoots_cons_skip [3, 4] gfpf5030 gfpf5031).trans ((eRoots_cons_search [4] gfpf5032 gfpf5033 gfpf5035 gfpf5037 gfploop5060).trans ((eRoots_cons_skip [] gfpf5061 gfpf5062).trans (eRoots_nil 100 100 gfpq5056))))

/-! ## Claim C10 -/

/-- C10: `R(v, w)` modifies only the `MATE` array — for every normally
returning call, `LABEL`, `FIRST`, `END`, the adjacency lists, the outer
set, the work queue `outerEdges` and its cursor `outerIdx` are exactly
the same after the call as before it. -/
theorem C10_R_modifies_only_MATE :
    ∀ (f : Nat) (v w : Int) (s s' : MM) (a : Unit),
      R f v w s = Py.ok s' a →
      s'.LABEL = s.LABEL ∧ s'.FIRST = s.FIRST ∧ s'.END = s.END ∧
      s'.graph = s.graph ∧ s'.outerVertices = s.outerVertices ∧
      s'.outerEdges = s.outerEdges ∧ s'.outerIdx = s.outerIdx := by
  intro f v w s s' a h
  obtain ⟨_, _, h3, h4, h5, h6, h7, h8, h9⟩ := R_only_MATE f v w s s' a h
  exact ⟨h8, h9, h3, h4, h6, h5, h7⟩

/-- Witness for C10: the concrete call `R(1, 2)` on the freshly built
triangle graph returns normally and leaves each non-`MATE` field
unchanged. -/
theorem C10_R_modifies_only_MATE_witness :
    R 5 1 2 c10pre = Py.ok c10post () ∧
    (c10post.LABEL = c10pre.LABEL ∧ c10post.FIRST = c10pre.FIRST ∧
     c10post.END = c10pre.END ∧ c10post.graph = c10pre.graph ∧
     c10post.outerVertices = c10pre.outerVertices ∧
     c10post.outerEdges = c10pre.outerEdges ∧
     c10post.outerIdx = c10pre.outerIdx) :=
  ⟨by decide, C10_R_modifies_only_MATE 5 1 2 c10pre c10post () (by decide)⟩

/-! ## Claim C2 -/

/-- C2: on the spec's known finite instances, `E()` followed by
`getMatchingSize()` returns the stated number of matched vertices:
2 for the triangle, 4 for the two disjoint edges, and 4 for the
5-cycle (one vertex of the odd cycle stays unmatched). -/
theorem C2_known_instances :
    runSize 3 triEdges = some 2 ∧ runSize 4 twoEdges = some 4 ∧
    runSize 5 cycEdges = some 4 := by
  refine ⟨?_, ?_, ?_⟩
  · simp only [runSize, triEdges, bind_apply, tribuild6, Py.bind_ok, trirun158,
      trif159, Py.val]
  · simp only [runSize, twoEdges, bind_apply, twobuild4, Py.bind_ok, tworun68,
      twof69, Py.val]
  · simp only [runSize, cycEdges, bind_apply, cycbuild10, Py.bind_ok, cycrun275,
      cycf276, Py.val]

/-! ## Claim C3 -/

/-- C3 (code bug): `hasEdgeLabel(v)` does not compute the spec's range
test.  In the state `c3state` — reached from `MaxMatching(2)` by
`addEdge(1, 2)` and `setLabel(1, 3)` (first two conjuncts), so that
`V = 2`, `2|E| = 2` and `LABEL[1] = 3`, with `V < LABEL[1] ≤ V + 2|E|`,
where the spec demands the result `True` — the call `hasEdgeLabel(1)`
raises a `TypeError`: the source compares the whole `LABEL` list
against the integer `V + 2|E|`.  The theorem evaluates the embedded
code at this failing input and records the range facts. -/
theorem C3_hasEdgeLabel_raises :
    addEdge 1 2 (init 2) =
      Py.ok (MM.mk 2 3 [1, 2] [[], [3], [3]] [] [] 0 [-1, -1, -1] [0, 0, 0] [0, 0, 0]) () ∧
    setLabel 1 3 (MM.mk 2 3 [1, 2] [[], [3], [3]] [] [] 0 [-1, -1, -1] [0, 0, 0] [0, 0, 0]) =
      Py.ok c3state () ∧
    hasEdgeLabel 1 c3state = Py.exn c3state ∧
    pyGet c3state.LABEL 1 = some 3 ∧ c3state.V = 2 ∧
    c3state.END.length = 2 ∧ c3state.V < 3 ∧ 3 ≤ c3state.V + 2 :=
  ⟨by decide, by decide, by decide, by decide, by decide, by decide, by decide,
   by decide⟩

/-! ## Claim C4 -/

/-- C4 counterexample: the claim fails in both directions on concrete
inputs for `MaxMatching(2)`.  First, `addEdge(0, 1)` has `0 ∉ [1, 2]`
yet returns normally (Python accepts index `0`, the unused sentinel
slot).  Second, `addEdge(3, 1)` does raise, but the endpoint table
`END` — empty beforehand — has already been extended to `[3, 1]`, so
the error case does not leave `END` unchanged. -/
theorem C4_cex :
    ((addEdge 0 1 (init 2)).val = some () ∧ ¬ (1 ≤ (0 : Int))) ∧
    ((addEdge 3 1 (init 2)).isExn = true ∧
      (init 2).END = [] ∧ (addEdge 3 1 (init 2)).state.END = [3, 1]) :=
  ⟨⟨by decide, by decide⟩, by decide, by decide, by decide⟩

/-- C4 amended: `addEdge(v, w)` raises an index error iff `v` or `w`
lies outside the Python index range `[-(V+1), V]` of the adjacency
table (so `0` and negative ids down to `-(V+1)` are accepted silently
through negative-index aliasing); when it raises, the endpoint table
`END` has already been extended with `v, w`; when both `v, w ∈ [1, V]`
it succeeds (these ranges coincide only on `[1, V]` after excluding the
silently aliased ids). -/
theorem C4_addEdge_python_range :
    ∀ (s : MM) (v w : Int), s.graph.length = (s.V + 1).toNat → 0 ≤ s.V →
      ((-(s.V + 1) ≤ v ∧ v ≤ s.V ∧ -(s.V + 1) ≤ w ∧ w ≤ s.V) →
         (addEdge v w s).val = some ()) ∧
      ((v < -(s.V + 1) ∨ s.V < v ∨ w < -(s.V + 1) ∨ s.V < w) →
         (addEdge v w s).isExn = true ∧
         (addEdge v w s).state.END = s.END ++ [v, w]) := by
  intro s v w hlen hV
  have hlen' : (s.graph.length : Int) = s.V + 1 := by
    rw [hlen]
    omega
  constructor
  · rintro ⟨hv1, hv2, hw1, hw2⟩
    obtain ⟨gv, hgv⟩ : ∃ gv, pyGet s.graph v = some gv := by
      cases h : pyGet s.graph v with
      | some gv => exact ⟨gv, rfl⟩
      | none => rw [pyGet_eq_none_iff, hlen'] at h; omega
    obtain ⟨g, hsv⟩ :
        ∃ g, pySet s.graph v (gv ++ [(s.END.length : Int) + s.VPlusOne]) = some g := by
      cases h : pySet s.graph v (gv ++ [(s.END.length : Int) + s.VPlusOne]) with
      | some g => exact ⟨g, rfl⟩
      | none => rw [pySet_eq_none_iff, hlen'] at h; omega
    have hglen : (g.length : Int) = s.V + 1 := by
      rw [pySet_length hsv]; exact hlen'
    obtain ⟨gw, hgw⟩ : ∃ gw, pyGet g w = some gw := by
      cases h : pyGet g w with
      | some gw => exact ⟨gw, rfl⟩
      | none => rw [pyGet_eq_none_iff, hglen] at h; omega
    obtain ⟨g2, hsw⟩ :
        ∃ g2, pySet g w (gw ++ [(s.END.length : Int) + s.VPlusOne]) = some g2 := by
      cases h : pySet g w (gw ++ [(s.END.length : Int) + s.VPlusOne]) with
      | some g2 => exact ⟨g2, rfl⟩
      | none => rw [pySet_eq_none_iff, hglen] at h; omega
    simp [addEdge, bind_apply, getS_apply, Py.bind_ok, setS_apply, liftO_apply,
      hgv, hsv, hgw, hsw, Py.val]
  · intro hbad
    by_cases hvin : -(s.V + 1) ≤ v ∧ v ≤ s.V
    · have hwbad : w < -(s.V + 1) ∨ s.V < w := by
        rcases hbad with h | h | h | h <;> omega
      obtain ⟨gv, hgv⟩ : ∃ gv, pyGet s.graph v = some gv := by
        cases h : pyGet s.graph v with
        | some gv => exact ⟨gv, rfl⟩
        | none => rw [pyGet_eq_none_iff, hlen'] at h; omega
      obtain ⟨g, hsv⟩ :
          ∃ g, pySet s.graph v (gv ++ [(s.END.length : Int) + s.VPlusOne]) = some g := by
        cases h : pySet s.graph v (gv ++ [(s.END.length : Int) + s.VPlusOne]) with
        | some g => exact ⟨g, rfl⟩
        | none => rw [pySet_eq_none_iff, hlen'] at h; omega
      have hglen : (g.length : Int) = s.V + 1 := by
        rw [pySet_length hsv]; exact hlen'
      have hgw : pyGet g w = none := by
        rw [pyGet_eq_none_iff, hglen]; omega
      constructor <;>
        simp [addEdge, bind_apply, getS_apply, Py.bind_ok, setS_apply, liftO_apply,
          hgv, hsv, hgw, Py.isExn, Py.state]
    · have hvbad : v < -(s.V + 1) ∨ s.V < v := by omega
      have hgv : pyGet s.graph v = none := by
        rw [pyGet_eq_none_iff, hlen']; omega
      constructor <;>
        simp [addEdge, bind_apply, getS_apply, Py.bind_ok, setS_apply, liftO_apply,
          hgv, Py.isExn, Py.state]

/-- Witness for the amended C4 claim: instantiated at `MaxMatching(2)`
with the accepted call `addEdge(1, 2)` and the raising call
`addEdge(3, 1)`. -/
theorem C4_addEdge_python_range_witness :
    ((addEdge 1 2 (init 2)).val = some ()) ∧
    ((addEdge 3 1 (init 2)).isExn = true ∧
      (addEdge 3 1 (init 2)).state.END = (init 2).END ++ [3, 1]) := by
  constructor
  · exact (C4_addEdge_python_range (init 2) 1 2 (by decide) (by decide)).1 (by decide)
  · exact (C4_addEdge_python_range (init 2) 3 1 (by decide) (by decide)).2 (by decide)

/-! ## Claim C5 -/

/-- C5 (code bug): the matching size is not invariant under the
insertion order of a fixed edge multiset, because one order can crash
the search.  `esA` and `esB` are permutations of each other (the same
six edges on `V = 5`); inserting in order `esB` lets `E()` complete
with the maximum size 4, while inserting in order `esA` makes `E()`
raise an `IndexError` inside `L` (the L1–L2 walk advances past the
sentinel `0` and evaluates `FIRST[LABEL[MATE[0]]] = FIRST[-16]` on a
list of length 6), so no size is returned at all. -/
theorem C5_insertion_order_crash :
    List.Perm esA esB ∧
    ((do addEdges esA; E 100 100 : PyM Unit) (init 5)).isExn = true ∧
    runSize 5 esB = some 4 := by
  refine ⟨?_, ?_, ?_⟩
  · rw [show esB = esA.reverse from by decide]
    exact (List.reverse_perm esA).symm
  · show ((addEdges esA >>= fun _ => E 100 100) (init 5)).isExn = true
    simp only [esA, bind_apply, eAbuild12, Py.bind_ok, eArun170, Py.isExn]
  · simp only [runSize, esB, bind_apply, eBbuild12, Py.bind_ok, eBrun279,
      eBf280, Py.val]

/-! ## Claim C8 -/

/-- C8 counterexample: a call `L(x, y, e)` that returns during a search
can leave a vertex flagged.  On the flower graph `g8`, the search
rooted at `5` (reached by `E`'s own steps: roots `1..4` first, then the
E1 seed, then three scan-loop iterations) picks the work item
`(2, 14)`; the resulting call `L(2, 4, 14)` returns normally and the
join vertex `1` still carries `LABEL[1] = -14`, the negative flag value
of this very call — contradicting the claim that no vertex has label
`-e` at the moment `L` returns. -/
theorem C8_cex :
    intRange 1 (g8.V + 1) = [1, 2, 3, 4, 5] ∧
    eRoots 100 100 [1, 2, 3, 4] g8 = Py.ok c8s0 () ∧
    pyGet c8s0.MATE 5 = some 0 ∧
    (do setLabel 5 0; firstSet 5 0 : PyM Unit) c8s0 = Py.ok c8s1 () ∧
    (do let _ ← e2Body 100 100 5; let _ ← e2Body 100 100 5;
        e2Body 100 100 5 : PyM Bool) c8s1 = Py.ok c8s2 true ∧
    chooseAnEdge c8s2 = Py.ok c8s3 (some (2, 14)) ∧
    getEdge 14 c8s3 = Py.ok c8s3 (2, 4) ∧
    L 100 2 4 14 c8s3 = Py.ok c8s4 () ∧
    e2Body 100 100 5 c8s2 = Py.ok c8s4 true ∧
    pyGet c8s4.LABEL 1 = some (-14) := by
  refine ⟨by decide, ?_, by decide, by decide, ?_, by decide, by decide, ?_, ?_,
    by decide⟩
  · exact gfprootspre5063.trans (by decide)
  · show (e2Body 100 100 5 >>= fun _ => e2Body 100 100 5 >>= fun _ =>
        e2Body 100 100 5) gfq77 = Py.ok gfq114 true
    simp only [bind_apply, gfb92, Py.bind_ok, gfb102, gfb116]
  · exact gfL148.trans (by decide)
  · exact gfb149.trans (by decide)

/-- C8 amended: the flag `-e` is not purely transient inside one `L`
invocation — it can persist on the join vertex when `L` returns (see
the counterexample) — but it does not survive the search: flags are
erased by the end-of-search reset, and on the flower graph the full
`E()` run finishes with every label equal to `-1` and an empty outer
set. -/
theorem C8_flags_cleared_by_reset :
    E 100 100 g8 = Py.ok c8fin () ∧
    c8fin.LABEL = [-1, -1, -1, -1, -1, -1] ∧
    c8fin.outerVertices = [] :=
  ⟨gfrun224.trans (by decide), by decide, by decide⟩

/-- C7: the outer-set/label-sign invariant at public-operation
boundaries: a freshly initialised object satisfies it, and `addEdge`
(with in-range endpoints) and a normally-returning `E()` preserve it
together with the structural invariant `GoodX` — so at every point
between public operations a vertex `v` in `1..V` is in `outerVertices`
iff `LABEL[v] >= 0` (`OuterIff`); inside a single call the flags of `L`
break the right-to-left direction only transiently, and every label
write that crosses the sign boundary updates the outer set with it. -/
theorem C7_outer_iff_at_boundaries :
    (∀ V : Int, 0 ≤ V → GoodX (init V) ∧ OuterIff (init V)) ∧
    (∀ v w : Int, ∀ s s' : MM, ∀ a : Unit, GoodX s → OuterIff s →
      1 ≤ v → v ≤ s.V → 1 ≤ w → w ≤ s.V →
      addEdge v w s = Py.ok s' a → GoodX s' ∧ OuterIff s') ∧
    (∀ lf rf : Nat, ∀ s s' : MM, ∀ a : Unit, GoodX s → OuterIff s →
      E lf rf s = Py.ok s' a → GoodX s' ∧ OuterIff s') := by
  refine ⟨init_spec, ?_, ?_⟩
  · intro v w s s' a hX hOI hv1 hv2 hw1 hw2 h
    exact addEdge_spec h hX hOI hv1 hv2 hw1 hw2
  · intro lf rf s s' a hX hOI h
    exact E_spec h hX hOI

/-- Witness for C7: the boundary invariant carried along the concrete
triangle run `init 3; addEdge(1,2); addEdge(2,3); addEdge(1,3); E()`,
instantiating every part of the theorem on concrete states. -/
theorem C7_outer_iff_at_boundaries_witness :
    GoodX triq152 ∧ OuterIff triq152 := by
  have h0 := C7_outer_iff_at_boundaries
  have i0 := h0.1 3 (by decide)
  have e1 : addEdge 1 2 (init 3) = Py.ok c7s1 () := by decide
  have i1 := h0.2.1 1 2 (init 3) c7s1 () i0.1 i0.2 (by decide) (by decide) (by decide)
    (by decide) e1
  have e2 : addEdge 2 3 c7s1 = Py.ok c7s2 () := by decide
  have i2 := h0.2.1 2 3 c7s1 c7s2 () i1.1 i1.2 (by decide) (by decide) (by decide)
    (by decide) e2
  have e3 : addEdge 1 3 c7s2 = Py.ok c7s3 () := by decide
  have i3 := h0.2.1 1 3 c7s2 c7s3 () i2.1 i2.2 (by decide) (by decide) (by decide)
    (by decide) e3
  have eE : E 100 100 c7s3 = Py.ok triq152 () := by
    have hc : c7s3 = triq4 := by decide
    rw [hc]
    exact trirun158
  exact h0.2.2 100 100 c7s3 triq152 () i3.1 i3.2 eE

end MaxMatching
